import Mathlib

/-!
# zForce touchscreen driver: command channel, frame codec, touch decoder, interrupt thread,
start-up sequence and suspend

Shallow embedding of `drivers/input/touchscreen/zforce_ts.c`.

Conventions of the embedding

* The driver state `struct zforce_ts` is a record that is passed explicitly; every function
  returns its C return value together with the updated record.
* Bytes (`u8`, and `char`, which is unsigned on the ARM target of this tree) are natural
  numbers; a byte is stored into a buffer modulo 256 and read back modulo 256.
* The collaborators (I2C bus, input core, work queue, power management) are kept as logs
  inside the record: `client.xfer` lists the bus transfers in the order they were issued,
  `input.events` the calls into the input core, `pm` the power-management calls.
* Whatever the outside world decides is an explicit argument: the return value of a bus
  send, the bytes a bus read delivers, the frames that the interrupt thread dispatches
  while a caller sleeps in `wait_for_completion_timeout`.
* `access_mutex` brackets each single bus transfer and is free again at every point where
  the functions below can be observed; it is therefore not part of the record. The same
  holds for `input->mutex`, which brackets the body of `zforce_suspend`.
* The level of the interrupt line is an argument wherever the code reads it: once for
  `zforce_suspend`, once per pass through the loop head for `zforce_irq_thread`.
* Local arrays the code does not initialise (`payload_buffer` of `zforce_irq_thread`,
  `point` of `zforce_touch_event`) enter as arguments holding their content on entry.
-/

namespace Zforce

/-! ## Constants -/

def FRAME_START : Nat := 0xee

def PAYLOAD_HEADER : Nat := 0
def PAYLOAD_LENGTH : Nat := 1
def PAYLOAD_BODY : Nat := 2

def RESPONSE_ID : Nat := 0
def RESPONSE_DATA : Nat := 1

def COMMAND_DEACTIVATE : Nat := 0x00
def COMMAND_INITIALIZE : Nat := 0x01
def COMMAND_RESOLUTION : Nat := 0x02
def COMMAND_SETCONFIG : Nat := 0x03
def COMMAND_DATAREQUEST : Nat := 0x04
def COMMAND_SCANFREQ : Nat := 0x08
def RESPONSE_DEACTIVATE : Nat := 0x00
def RESPONSE_INITIALIZE : Nat := 0x01
def RESPONSE_RESOLUTION : Nat := 0x02
def RESPONSE_SETCONFIG : Nat := 0x03
def RESPONSE_SCANFREQ : Nat := 0x08
def RESPONSE_STATUS : Nat := 0x1e

def NOTIFICATION_TOUCH : Nat := 0x04
def NOTIFICATION_BOOTCOMPLETE : Nat := 0x07
def NOTIFICATION_OVERRUN : Nat := 0x25
def NOTIFICATION_PROXIMITY : Nat := 0x26
def NOTIFICATION_INVALID_COMMAND : Nat := 0xfe

def ZFORCE_REPORT_POINTS : Nat := 2
def ZFORCE_MAX_AREA : Nat := 0xff

def STATE_DOWN : Int := 0
def STATE_MOVE : Int := 1
def STATE_UP : Int := 2

/-- Modelled from the spec: the errno numbers live in kernel headers outside the driver
(`BadStart` and `BadLength` are both reported as `-EIO` by the driver). Linux value of EIO. -/
def EIO : Int := 5

/-- Modelled from the spec: errno behind `CommandError::Busy`; the Linux value of EBUSY. -/
def EBUSY : Int := 16

/-- Modelled from the spec: errno behind `CommandError::Timeout`; the Linux value of ETIME. -/
def ETIME : Int := 62

/-! ## Data model -/

/-- Platform data, `struct zforce_ts_platdata` of include/linux/input/zforce_ts.h
(`x_max`, `y_max` are `unsigned int`). -/
structure zforce_ts_platdata where
  gpio_int : Int
  gpio_rst : Int
  x_max : Nat
  y_max : Nat
deriving DecidableEq, Repr

/-- One transfer issued on the I2C bus: a send with the bytes handed over and the value the
bus returned, or a receive with the number of bytes asked for and the value returned. -/
inductive i2c_msg where
  | send (bytes : List Nat) (ret : Int)
  | recv (count : Nat) (ret : Int)
deriving DecidableEq, Repr

/-- The part of `struct i2c_client` the driver uses: the platform data hanging off the
device, the wake-up setting read by `device_may_wakeup`, and the log of bus transfers. -/
structure i2c_client where
  platform_data : zforce_ts_platdata
  may_wakeup : Bool
  xfer : List i2c_msg
deriving DecidableEq, Repr

/-- Absolute axes the driver reports. -/
inductive abs_code where
  | ABS_X
  | ABS_Y
  | ABS_PRESSURE
  | ABS_MT_POSITION_X
  | ABS_MT_POSITION_Y
  | ABS_MT_TOUCH_MAJOR
  | ABS_MT_TOUCH_MINOR
  | ABS_MT_ORIENTATION
deriving DecidableEq, Repr

/-- One call into the input core. -/
inductive input_call where
  | mt_slot (slot : Int)
  | mt_report_slot_state (active : Bool)
  | report_abs (code : abs_code) (value : Int)
  | report_key_BTN_TOUCH (value : Bool)
  | sync
deriving DecidableEq, Repr

/-- The part of `struct input_dev` the driver uses: the open count and the log of calls. -/
structure input_dev where
  users : Nat
  events : List input_call
deriving DecidableEq, Repr

/-- Modelled from the spec: `struct delayed_work` of the kernel work queue ("scheduled
asynchronously", "cancel the health-check timer"). `pending` says whether the work is armed,
`requests` counts the calls of `schedule_delayed_work`, `queued` counts the calls that armed
it (a call on a work that is already pending changes nothing else). -/
structure delayed_work where
  pending : Bool
  requests : Nat
  queued : Nat
deriving DecidableEq, Repr

/-- Modelled from the spec: `schedule_delayed_work` of the kernel work queue. -/
def schedule_delayed_work (w : delayed_work) : delayed_work :=
  if w.pending then { w with requests := w.requests + 1 }
  else { pending := true, requests := w.requests + 1, queued := w.queued + 1 }

/-- Modelled from the spec: `cancel_delayed_work_sync` of the kernel work queue. -/
def cancel_delayed_work_sync (w : delayed_work) : delayed_work :=
  { w with pending := false }

/-- Calls into the power-management core. -/
inductive pm_call where
  | wakeup_event (msec : Nat)
  | stay_awake
  | relax
deriving DecidableEq, Repr

/-- A decoded touch point, `struct zforce_point`. -/
structure zforce_point where
  coord_x : Int
  coord_y : Int
  state : Int
  id : Int
  area_major : Int
  area_minor : Int
  orientation : Int
  pressure : Int
  prblty : Int
deriving DecidableEq, Repr

/-- Driver state, `struct zforce_ts`. `command_done` is the counter of the completion,
`command_mutex` says whether the command lock is held, `pm` logs the power-management
calls and `gSleep_Mode_Suspend` carries the external global of that name. -/
structure zforce_ts where
  client : i2c_client
  input : input_dev
  stopped : Bool
  suspending : Bool
  suspended : Bool
  boot_complete : Bool
  version_major : Nat
  version_minor : Nat
  version_build : Nat
  version_rev : Nat
  command_done : Nat
  command_mutex : Bool
  command_waiting : Int
  command_result : Int
  check : delayed_work
  reset : delayed_work
  pm : List pm_call
  gSleep_Mode_Suspend : Int
deriving DecidableEq, Repr

/-! ## Byte buffers -/

/-- Read the byte at index `i` of a buffer. -/
def rd (buf : List Nat) (i : Nat) : Nat :=
  buf.getD i 0 % 256

/-- Store `bytes` into `buf` from index `off` on. -/
def buf_write (buf : List Nat) (off : Nat) : List Nat → List Nat
  | [] => buf
  | b :: bs => buf_write (buf.set off (b % 256)) (off + 1) bs

/-! ## Bus transport -/

/-- Modelled from the spec: `i2c_master_send` of the I2C core ("Bus Transport ...
`send(bytes)`"). The value `ret` the bus answers with is an argument; the transfer is
logged. -/
def i2c_master_send (c : i2c_client) (buf : List Nat) (count : Nat) (ret : Int) :
    Int × i2c_client :=
  (ret, { c with xfer := c.xfer ++ [i2c_msg.send (buf.take count) ret] })

/-- What a bus read does: fail with an errno, or deliver bytes. -/
inductive i2c_rx where
  | error (e : Int)
  | data (bytes : List Nat)
deriving DecidableEq, Repr

/-- Modelled from the spec: `i2c_master_recv` of the I2C core ("Bus Transport ...
`recv(n) -> bytes`"). A failing read returns the errno and leaves the buffer alone; a
successful one stores `count` delivered bytes at `off` and returns `count`. -/
def i2c_master_recv (c : i2c_client) (buf : List Nat) (off count : Nat) (r : i2c_rx) :
    Int × i2c_client × List Nat :=
  match r with
  | i2c_rx.error e => (e, { c with xfer := c.xfer ++ [i2c_msg.recv count e] }, buf)
  | i2c_rx.data bytes =>
    ((count : Int), { c with xfer := c.xfer ++ [i2c_msg.recv count (count : Int)] },
      buf_write buf off (bytes.take count))

/-! ## Frame codec: reading one packet -/

/-- `zforce_read_packet`: header read, start marker check, length check, body read. -/
def zforce_read_packet (ts : zforce_ts) (buf : List Nat) (hdr body : i2c_rx) :
    Int × zforce_ts × List Nat :=
  match i2c_master_recv ts.client buf 0 2 hdr with
  | (ret, c, buf) =>
    let ts := { ts with client := c }
    if ret < 0 then (ret, ts, buf)
    else if rd buf PAYLOAD_HEADER ≠ FRAME_START then (- EIO, ts, buf)
    else if rd buf PAYLOAD_LENGTH ≤ 0 ∨ rd buf PAYLOAD_LENGTH > 255 then (- EIO, ts, buf)
    else
      match i2c_master_recv ts.client buf PAYLOAD_BODY (rd buf PAYLOAD_LENGTH) body with
      | (ret, c, buf) => (ret, { ts with client := c }, buf)

/-! ## Touch decoder -/

/-- Value of an `unsigned int` expression handed to an `int` parameter. -/
def int_of_u32 (n : Nat) : Int :=
  if n % 2 ^ 32 < 2 ^ 31 then ((n % 2 ^ 32 : Nat) : Int) else ((n % 2 ^ 32 : Nat) : Int) - 2 ^ 32

/-- Value of an `int` converted to `unsigned int`. -/
def u32_of_int (z : Int) : Nat :=
  (z % 2 ^ 32).toNat

/-- Body of the first loop of `zforce_touch_event`: decode point `i` of the payload into
`point[i]`, zero an out-of-range position and ask for the reset work. -/
def zforce_touch_decode (payload : List Nat) (st : (Nat → zforce_point) × zforce_ts) (i : Nat) :
    (Nat → zforce_point) × zforce_ts :=
  let point := st.1
  let ts := st.2
  let pdata := ts.client.platform_data
  let coord_x := (rd payload (9 * i + 2) <<< 8) ||| rd payload (9 * i + 1)
  let coord_y := (rd payload (9 * i + 4) <<< 8) ||| rd payload (9 * i + 3)
  let bad : Bool := decide (coord_x > pdata.x_max ∨ coord_y > pdata.y_max)
  let ts := if bad then { ts with reset := schedule_delayed_work ts.reset } else ts
  let p : zforce_point :=
    { coord_x := if bad then 0 else (coord_x : Int)
      coord_y := if bad then 0 else (coord_y : Int)
      state := ((rd payload (9 * i + 5) &&& 0x03 : Nat) : Int)
      id := (((rd payload (9 * i + 5) &&& 0xfc) >>> 2 : Nat) : Int)
      area_major := ((max (rd payload (9 * i + 6)) (rd payload (9 * i + 7)) : Nat) : Int)
      area_minor := ((min (rd payload (9 * i + 6)) (rd payload (9 * i + 7)) : Nat) : Int)
      orientation := if rd payload (9 * i + 6) > rd payload (9 * i + 7) then 1 else 0
      pressure := (rd payload (9 * i + 8) : Int)
      prblty := (rd payload (9 * i + 9) : Int) }
  (Function.update point i p, ts)

/-- Body of the second loop of `zforce_touch_event`: report point `i` to the input core. -/
def zforce_touch_report (point : Nat → zforce_point) (ev : List input_call) (i : Nat) :
    List input_call :=
  let ev := ev ++ [input_call.mt_slot ((point i).id - 1)]
  let ev := ev ++ [input_call.mt_report_slot_state (decide ((point i).state ≠ STATE_UP))]
  if (point i).state ≠ STATE_UP then
    ev ++ [input_call.report_abs abs_code.ABS_MT_POSITION_X (point i).coord_x,
           input_call.report_abs abs_code.ABS_MT_POSITION_Y (point i).coord_y,
           input_call.report_abs abs_code.ABS_MT_TOUCH_MAJOR (point i).area_major,
           input_call.report_abs abs_code.ABS_MT_TOUCH_MINOR (point i).area_minor,
           input_call.report_abs abs_code.ABS_MT_ORIENTATION (point i).orientation]
  else ev

/-- `zforce_touch_event`. `payload` is the touch payload (count byte first); `point` is
the content of the local array `point[ZFORCE_REPORT_POINTS]` on entry, which the function
does not initialise. -/
def zforce_touch_event (ts : zforce_ts) (payload : List Nat) (point : Nat → zforce_point) :
    Int × zforce_ts :=
  let count := rd payload 0
  let count := if count > ZFORCE_REPORT_POINTS then ZFORCE_REPORT_POINTS else count
  let st := (List.range count).foldl (zforce_touch_decode payload) (point, ts)
  let point := st.1
  let ts := st.2
  let pdata := ts.client.platform_data
  let ev := (List.range count).foldl (zforce_touch_report point) ts.input.events
  let ev := ev ++ [input_call.report_abs abs_code.ABS_X (point 0).coord_y]
  let ev := ev ++ [input_call.report_abs abs_code.ABS_Y
    (int_of_u32 (pdata.x_max + 2 ^ 32 - u32_of_int (point 0).coord_x))]
  let ev := ev ++ [input_call.report_key_BTN_TOUCH (decide ((point 0).state ≠ STATE_UP))]
  let ev := ev ++ [input_call.report_abs abs_code.ABS_PRESSURE
    (if (point 0).state ≠ STATE_UP then 1024 else 0)]
  let ev := ev ++ [input_call.sync]
  (0, { ts with input := { ts.input with events := ev } })

/-! ## Command completion and frame dispatch -/

/-- `zforce_complete`; `complete()` increments the counter of the completion. -/
def zforce_complete (ts : zforce_ts) (cmd result : Int) : zforce_ts :=
  if ts.command_waiting = cmd then
    { ts with command_result := result, command_done := ts.command_done + 1 }
  else ts

/-- A frame as the interrupt thread sees it after a successful `zforce_read_packet`:
the content of `payload_buffer`, and the content of the stack slot that
`zforce_touch_event` will use for its `point` array. -/
structure irq_frame where
  payload_buffer : List Nat
  point : Nat → zforce_point

/-- The `switch` of `zforce_irq_thread`: dispatch one frame by its id. -/
def zforce_irq_dispatch (ts : zforce_ts) (f : irq_frame) : zforce_ts :=
  let payload := f.payload_buffer.drop PAYLOAD_BODY
  let id := rd payload RESPONSE_ID
  if id = NOTIFICATION_TOUCH then
    let ts :=
      if ts.suspending && (ts.client.may_wakeup || decide (ts.gSleep_Mode_Suspend = 0)) then
        { ts with pm := ts.pm ++ [pm_call.wakeup_event 500] }
      else ts
    (zforce_touch_event ts (payload.drop RESPONSE_DATA) f.point).2
  else if id = NOTIFICATION_BOOTCOMPLETE then
    let ts := { ts with boot_complete := decide (rd payload RESPONSE_DATA ≠ 0) }
    zforce_complete ts (id : Int) 0
  else if id = RESPONSE_INITIALIZE ∨ id = RESPONSE_DEACTIVATE ∨ id = RESPONSE_SETCONFIG ∨
      id = RESPONSE_RESOLUTION ∨ id = RESPONSE_SCANFREQ then
    zforce_complete ts (id : Int) (rd payload RESPONSE_DATA : Int)
  else if id = RESPONSE_STATUS then
    let ts := { ts with
      version_major := (rd payload (RESPONSE_DATA + 1) <<< 8) ||| rd payload RESPONSE_DATA
      version_minor := (rd payload (RESPONSE_DATA + 3) <<< 8) ||| rd payload (RESPONSE_DATA + 2)
      version_build := (rd payload (RESPONSE_DATA + 5) <<< 8) ||| rd payload (RESPONSE_DATA + 4)
      version_rev := (rd payload (RESPONSE_DATA + 7) <<< 8) ||| rd payload (RESPONSE_DATA + 6) }
    let ts := zforce_complete ts (id : Int) 0
    if rd payload (RESPONSE_DATA + 8) = 255 then
      { ts with reset := schedule_delayed_work ts.reset }
    else ts
  else if id = NOTIFICATION_INVALID_COMMAND then ts
  else if id = NOTIFICATION_OVERRUN then ts
  else ts

/-- What the `switch` of `zforce_irq_thread` hands to `dev_err`: the data byte of an
invalid-command notification, the overrun message, the id of an unrecognised frame. -/
inductive irq_err where
  | invalid_command (data : Nat)
  | overrun
  | unrecognized (id : Nat)
deriving DecidableEq, Repr

/-- The `dev_err` call the `switch` of `zforce_irq_thread` makes for a frame, if it makes
one. The call changes nothing in the driver state; it is kept apart from
`zforce_irq_dispatch` because it reads the frame. -/
def zforce_irq_dispatch_err (f : irq_frame) : Option irq_err :=
  let payload := f.payload_buffer.drop PAYLOAD_BODY
  let id := rd payload RESPONSE_ID
  if id = NOTIFICATION_TOUCH then none
  else if id = NOTIFICATION_BOOTCOMPLETE then none
  else if id = RESPONSE_INITIALIZE ∨ id = RESPONSE_DEACTIVATE ∨ id = RESPONSE_SETCONFIG ∨
      id = RESPONSE_RESOLUTION ∨ id = RESPONSE_SCANFREQ then none
  else if id = RESPONSE_STATUS then none
  else if id = NOTIFICATION_INVALID_COMMAND then
    some (irq_err.invalid_command (rd payload RESPONSE_DATA))
  else if id = NOTIFICATION_OVERRUN then some irq_err.overrun
  else some (irq_err.unrecognized id)

/-- Modelled from the spec: `wait_for_completion_timeout` of the kernel ("Block until the
Event Reader Loop signals a matching id or the timeout elapses"). `window` lists the frames
the interrupt thread dispatches, in order, from the moment the caller starts to wait until
it runs again; the caller is woken exactly when the completion has been signalled by then,
and consumes one signal. The result is 0 on a timeout and positive otherwise. -/
def wait_for_completion_timeout (ts : zforce_ts) (window : List irq_frame) : Nat × zforce_ts :=
  let ts := window.foldl zforce_irq_dispatch ts
  if ts.command_done > 0 then (1, { ts with command_done := ts.command_done - 1 })
  else (0, ts)

/-! ## Command channel -/

/-- What the outside world does during one command: the value the bus send returns and the
frames dispatched while the caller waits for the completion. -/
structure cmd_env where
  send_ret : Int
  window : List irq_frame

/-- `zforce_command`: send a one-byte command without waiting. -/
def zforce_command (ts : zforce_ts) (cmd : Nat) (send_ret : Int) : Int × zforce_ts :=
  let buf := [FRAME_START, 1, cmd % 256]
  match i2c_master_send ts.client buf 3 send_ret with
  | (ret, c) =>
    let ts := { ts with client := c }
    if ret < 0 then (ret, ts) else (0, ts)

/-- `zforce_send_wait`: take the command lock without blocking, record the awaited id,
send, wait for the completion, release the lock. -/
def zforce_send_wait (ts : zforce_ts) (buf : List Nat) (len : Nat) (e : cmd_env) :
    Int × zforce_ts :=
  if ts.command_mutex then (- EBUSY, ts)
  else
    let ts := { ts with command_mutex := true }
    let ts := { ts with command_waiting := (rd buf 2 : Int) }
    match i2c_master_send ts.client buf len e.send_ret with
    | (ret, c) =>
      let ts := { ts with client := c }
      if ret < 0 then (ret, { ts with command_mutex := false })
      else
        match wait_for_completion_timeout ts e.window with
        | (left, ts) =>
          if left = 0 then (- ETIME, { ts with command_mutex := false })
          else (ts.command_result, { ts with command_mutex := false })

/-- The frame `zforce_command_wait` builds. -/
def zforce_command_wait_buf (cmd : Nat) : List Nat :=
  [FRAME_START, 1, cmd % 256]

/-- `zforce_command_wait`. -/
def zforce_command_wait (ts : zforce_ts) (cmd : Nat) (e : cmd_env) : Int × zforce_ts :=
  match zforce_send_wait ts (zforce_command_wait_buf cmd) 3 e with
  | (ret, ts) => if ret < 0 then (ret, ts) else (0, ts)

/-- The frame `zforce_resolution` builds (`x`, `y` are `u16` parameters). -/
def zforce_resolution_buf (x y : Nat) : List Nat :=
  [FRAME_START, 5, COMMAND_RESOLUTION,
   (x % 65536) &&& 0xff, ((x % 65536) >>> 8) &&& 0xff,
   (y % 65536) &&& 0xff, ((y % 65536) >>> 8) &&& 0xff]

/-- `zforce_resolution`. -/
def zforce_resolution (ts : zforce_ts) (x y : Nat) (e : cmd_env) : Int × zforce_ts :=
  zforce_send_wait ts (zforce_resolution_buf x y) 7 e

/-- The frame `zforce_scan_frequency` builds (`u16` parameters). -/
def zforce_scan_frequency_buf (idle finger stylus : Nat) : List Nat :=
  [FRAME_START, 7, COMMAND_SCANFREQ,
   (idle % 65536) &&& 0xff, ((idle % 65536) >>> 8) &&& 0xff,
   (finger % 65536) &&& 0xff, ((finger % 65536) >>> 8) &&& 0xff,
   (stylus % 65536) &&& 0xff, ((stylus % 65536) >>> 8) &&& 0xff]

/-- `zforce_scan_frequency`. -/
def zforce_scan_frequency (ts : zforce_ts) (idle finger stylus : Nat) (e : cmd_env) :
    Int × zforce_ts :=
  zforce_send_wait ts (zforce_scan_frequency_buf idle finger stylus) 9 e

/-- The frame `zforce_setconfig` builds (`b1` is a `char`). -/
def zforce_setconfig_buf (b1 : Nat) : List Nat :=
  [FRAME_START, 5, COMMAND_SETCONFIG, b1 % 256, 0, 0, 0]

/-- `zforce_setconfig`. -/
def zforce_setconfig (ts : zforce_ts) (b1 : Nat) (e : cmd_env) : Int × zforce_ts :=
  zforce_send_wait ts (zforce_setconfig_buf b1) 7 e

/-! ## Start-up sequence -/

/-- What the outside world does during one `zforce_start`: one environment per command
that waits, and the value the bus returns for the send of the data request. -/
structure start_env where
  init : cmd_env
  res : cmd_env
  scan : cmd_env
  cfg : cmd_env
  datareq : Int
  deact : cmd_env

/-- The `error:` exit of `zforce_start`: deactivate, mark stopped, return `ret`. -/
def zforce_start_error (ts : zforce_ts) (ret : Int) (e : start_env) : Int × zforce_ts :=
  let ts := (zforce_command_wait ts COMMAND_DEACTIVATE e.deact).2
  (ret, { ts with stopped := true })

/-- `zforce_start`. -/
def zforce_start (ts : zforce_ts) (e : start_env) : Int × zforce_ts :=
  let pdata := ts.client.platform_data
  let ts := { ts with stopped := false }
  match zforce_command_wait ts COMMAND_INITIALIZE e.init with
  | (ret, ts) =>
    if ret ≠ 0 then (ret, ts)
    else
      match zforce_resolution ts pdata.x_max pdata.y_max e.res with
      | (ret, ts) =>
        if ret ≠ 0 then zforce_start_error ts ret e
        else
          match zforce_scan_frequency ts 10 50 50 e.scan with
          | (ret, ts) =>
            if ret ≠ 0 then zforce_start_error ts ret e
            else
              match zforce_setconfig ts 0 e.cfg with
              | (r, ts) =>
                if r ≠ 0 then zforce_start_error ts ret e
                else
                  match zforce_command ts COMMAND_DATAREQUEST e.datareq with
                  | (ret, ts) =>
                    if ret ≠ 0 then zforce_start_error ts ret e
                    else (0, { ts with check := schedule_delayed_work ts.check })

/-- The sub-step calls of one run of `zforce_start`, each on the state its predecessor
left: the Initialize command. -/
def zforce_start_init (ts : zforce_ts) (e : start_env) : Int × zforce_ts :=
  zforce_command_wait { ts with stopped := false } COMMAND_INITIALIZE e.init

/-- Sub-step of `zforce_start`: the Resolution command. -/
def zforce_start_res (ts : zforce_ts) (e : start_env) : Int × zforce_ts :=
  zforce_resolution (zforce_start_init ts e).2 ts.client.platform_data.x_max
    ts.client.platform_data.y_max e.res

/-- Sub-step of `zforce_start`: the ScanFrequency command. -/
def zforce_start_scan (ts : zforce_ts) (e : start_env) : Int × zforce_ts :=
  zforce_scan_frequency (zforce_start_res ts e).2 10 50 50 e.scan

/-- Sub-step of `zforce_start`: the SetConfig command. -/
def zforce_start_cfg (ts : zforce_ts) (e : start_env) : Int × zforce_ts :=
  zforce_setconfig (zforce_start_scan ts e).2 0 e.cfg

/-- Sub-step of `zforce_start`: the send of the DataRequest command. -/
def zforce_start_datareq (ts : zforce_ts) (e : start_env) : Int × zforce_ts :=
  zforce_command (zforce_start_cfg ts e).2 COMMAND_DATAREQUEST e.datareq

/-! ## Stop -/

/-- `zforce_stop`: cancel the health check, deactivate, mark stopped when that worked. -/
def zforce_stop (ts : zforce_ts) (e : cmd_env) : Int × zforce_ts :=
  let ts := { ts with check := cancel_delayed_work_sync ts.check }
  match zforce_command_wait ts COMMAND_DEACTIVATE e with
  | (ret, ts) =>
    if ret ≠ 0 then (ret, ts)
    else (0, { ts with stopped := true })

/-- The Deactivate command of one run of `zforce_stop`. -/
def zforce_stop_deactivate (ts : zforce_ts) (e : cmd_env) : Int × zforce_ts :=
  zforce_command_wait { ts with check := cancel_delayed_work_sync ts.check }
    COMMAND_DEACTIVATE e

/-! ## Interrupt thread -/

/-- One pass through the head of the `while` loop of `zforce_irq_thread`: the level read on
the interrupt line, what the two bus reads of `zforce_read_packet` do, and the content of
the stack slot `zforce_touch_event` will use for its `point` array. -/
structure irq_step where
  gpio_int : Int
  hdr : i2c_rx
  body : i2c_rx
  point : Nat → zforce_point

/-- The `while` loop of `zforce_irq_thread`, run on the local `payload_buffer`, which keeps
its content from one pass to the next. The list scripts the passes through the loop head;
a list that is used up stands for a line that reads deasserted. -/
def zforce_irq_loop (ts : zforce_ts) (payload_buffer : List Nat) :
    List irq_step → zforce_ts × List Nat
  | [] => (ts, payload_buffer)
  | s :: rest =>
    if s.gpio_int ≠ 0 then (ts, payload_buffer)
    else
      match zforce_read_packet ts payload_buffer s.hdr s.body with
      | (ret, ts, buf) =>
        if ret < 0 then (ts, buf)
        else
          zforce_irq_loop (zforce_irq_dispatch ts { payload_buffer := buf, point := s.point })
            buf rest

/-- `zforce_irq_thread`. `payload_buffer` is the content of the local buffer on entry, which
the function does not initialise. -/
def zforce_irq_thread (ts : zforce_ts) (payload_buffer : List Nat) (steps : List irq_step) :
    zforce_ts :=
  if ts.suspended then ts
  else
    let ts :=
      if !ts.suspending && (ts.client.may_wakeup || decide (ts.gSleep_Mode_Suspend = 0)) then
        { ts with pm := ts.pm ++ [pm_call.stay_awake] }
      else ts
    let ts := (zforce_irq_loop ts payload_buffer steps).1
    if !ts.suspending && (ts.client.may_wakeup || decide (ts.gSleep_Mode_Suspend = 0)) then
      { ts with pm := ts.pm ++ [pm_call.relax] }
    else ts

/-! ## Health check -/

/-- Calls that change how the interrupt of the device is set up. -/
inductive irq_call where
  | enable_irq_wake
  | disable_irq
deriving DecidableEq, Repr

/-- What the outside world does during one `zforce_suspend`: the level read on the
interrupt line and the environments of the embedded start and stop. -/
structure suspend_env where
  gpio_int : Int
  start : start_env
  stop : cmd_env

/-- `zforce_suspend`. The third component lists the calls made on the interrupt. -/
def zforce_suspend (ts : zforce_ts) (e : suspend_env) : Int × zforce_ts × List irq_call :=
  if e.gpio_int = 0 then (- EBUSY, ts, [])
  else
    let ts := { ts with suspending := true }
    let ts :=
      if ts.input.users ≠ 0 then { ts with check := cancel_delayed_work_sync ts.check } else ts
    if ts.client.may_wakeup || decide (ts.gSleep_Mode_Suspend = 0) then
      if ts.input.users = 0 then
        match zforce_start ts e.start with
        | (ret, ts) =>
          if ret ≠ 0 then (ret, { ts with suspending := false }, [])
          else
            (0, { ts with suspended := true, suspending := false }, [irq_call.enable_irq_wake])
      else (0, { ts with suspended := true, suspending := false }, [irq_call.enable_irq_wake])
    else if ts.input.users ≠ 0 then
      match zforce_stop ts e.stop with
      | (ret, ts) =>
        if ret ≠ 0 then (ret, { ts with suspending := false }, [])
        else (0, { ts with suspended := true, suspending := false }, [irq_call.disable_irq])
    else (0, { ts with suspended := true, suspending := false }, [])

/-! ## Vocabulary of the statements -/

/-- The driver state `zforce_probe` sets up before it talks to the controller: a zeroed
allocation, `stopped` set, the completion and the two work items initialised. -/
def zforce_probe_state (pdata : zforce_ts_platdata) : zforce_ts :=
  { client := { platform_data := pdata, may_wakeup := false, xfer := [] }
    input := { users := 0, events := [] }
    stopped := true
    suspending := false
    suspended := false
    boot_complete := false
    version_major := 0
    version_minor := 0
    version_build := 0
    version_rev := 0
    command_done := 0
    command_mutex := false
    command_waiting := 0
    command_result := 0
    check := { pending := false, requests := 0, queued := 0 }
    reset := { pending := false, requests := 0, queued := 0 }
    pm := []
    gSleep_Mode_Suspend := 0 }

/-- The frame layout in the words of the specification: start marker, length byte
`1 + len(payload)`, opcode, payload. -/
def frame_encode (opcode : Nat) (payload : List Nat) : List Nat :=
  FRAME_START :: (1 + payload.length) :: opcode :: payload

/-- What comes back when a frame is fed to `zforce_read_packet`, the header read delivering
its first two bytes and the body read the remaining ones: the value returned, and the
content of the buffer from offset 2 on, as many bytes as the frame has behind its header. -/
def frame_read_back (ts : zforce_ts) (buf : List Nat) (frame : List Nat) : Int × List Nat :=
  ((zforce_read_packet ts buf (i2c_rx.data (frame.take 2)) (i2c_rx.data (frame.drop 2))).1,
   ((zforce_read_packet ts buf (i2c_rx.data (frame.take 2))
      (i2c_rx.data (frame.drop 2))).2.2.drop PAYLOAD_BODY).take (frame.length - 2))

/-- Identifier byte of a frame. -/
def irq_frame.id (f : irq_frame) : Nat :=
  rd (f.payload_buffer.drop PAYLOAD_BODY) RESPONSE_ID

/-- First data byte of a frame. -/
def irq_frame.data (f : irq_frame) : Nat :=
  rd (f.payload_buffer.drop PAYLOAD_BODY) RESPONSE_DATA

/-- Ids of the plain acknowledgements. -/
def plain_ack (id : Nat) : Prop :=
  id = RESPONSE_INITIALIZE ∨ id = RESPONSE_DEACTIVATE ∨ id = RESPONSE_SETCONFIG ∨
  id = RESPONSE_RESOLUTION ∨ id = RESPONSE_SCANFREQ

instance plain_ack_decidable (id : Nat) : Decidable (plain_ack id) := by
  unfold plain_ack; infer_instance

/-- The frame is one of those for which the dispatcher calls `zforce_complete`. -/
def irq_frame.resolves (f : irq_frame) : Prop :=
  plain_ack f.id ∨ f.id = NOTIFICATION_BOOTCOMPLETE ∨ f.id = RESPONSE_STATUS

/-- The result the dispatcher hands to `zforce_complete` for the frame. -/
def irq_frame.result (f : irq_frame) : Int :=
  if plain_ack f.id then (f.data : Int) else 0

/-- The fields the interrupt thread never writes agree in `a` and `b`. -/
def irq_keeps (a b : zforce_ts) : Prop :=
  b.client = a.client ∧ b.stopped = a.stopped ∧ b.suspending = a.suspending ∧
  b.suspended = a.suspended ∧ b.command_mutex = a.command_mutex ∧
  b.command_waiting = a.command_waiting ∧ b.check = a.check ∧
  b.gSleep_Mode_Suspend = a.gSleep_Mode_Suspend

/-- The completion and the command result agree in `a` and `b`. -/
def cmd_keeps (a b : zforce_ts) : Prop :=
  b.command_done = a.command_done ∧ b.command_result = a.command_result

/-- State of `zforce_send_wait` right after the bus send, with the lock held. -/
def send_wait_sent (ts : zforce_ts) (buf : List Nat) (len : Nat) (ret : Int) : zforce_ts :=
  { ts with
    command_mutex := true
    command_waiting := (rd buf 2 : Int)
    client := { ts.client with xfer := ts.client.xfer ++ [i2c_msg.send (buf.take len) ret] } }

/-- The send of the command succeeds and its acknowledgement, with identifier `id` and data
byte `data`, is the last frame dispatched during the wait; no earlier frame of the wait
carries that identifier. -/
def acked_with (e : cmd_env) (id data : Nat) : Prop :=
  0 ≤ e.send_ret ∧
  ∃ pre f, e.window = pre ++ [f] ∧ (∀ g ∈ pre, g.id ≠ id) ∧ f.id = id ∧ f.data = data

/-- The send of the command succeeds and no frame dispatched during the wait carries the
identifier `id`. -/
def unanswered (e : cmd_env) (id : Nat) : Prop :=
  0 ≤ e.send_ret ∧ ∀ g ∈ e.window, g.id ≠ id

/-- State `s` reached inside a run of `zforce_start` from `ts` after the transfers `sent`:
the bus log has grown by `sent`, the command lock is free, `stopped` is clear and the
health check is as it was. -/
def start_reached (ts s : zforce_ts) (sent : List i2c_msg) : Prop :=
  s.client = { ts.client with xfer := ts.client.xfer ++ sent } ∧
  s.command_mutex = false ∧ s.stopped = false ∧ s.check = ts.check

/-- The point count `zforce_touch_event` works with: the count byte, capped. -/
def zforce_touch_count (payload : List Nat) : Nat :=
  if rd payload 0 > ZFORCE_REPORT_POINTS then ZFORCE_REPORT_POINTS else rd payload 0

/-- The record the first loop of `zforce_touch_event` writes into `point[i]`. -/
def zforce_decoded (pdata : zforce_ts_platdata) (payload : List Nat) (i : Nat) : zforce_point :=
  (zforce_touch_decode payload
    (fun _ => { coord_x := 0, coord_y := 0, state := 0, id := 0, area_major := 0,
                area_minor := 0, orientation := 0, pressure := 0, prblty := 0 },
     zforce_probe_state pdata) i).1 i

/-- Content of the array `point` of `zforce_touch_event` after its first loop. -/
def zforce_touch_points (ts : zforce_ts) (payload : List Nat) (point : Nat → zforce_point) :
    Nat → zforce_point :=
  ((List.range (zforce_touch_count payload)).foldl (zforce_touch_decode payload) (point, ts)).1

/-- The calls into the input core that one `zforce_touch_event` adds to the log. -/
def zforce_touch_emitted (ts : zforce_ts) (payload : List Nat) (point : Nat → zforce_point) :
    List input_call :=
  (zforce_touch_event ts payload point).2.input.events.drop ts.input.events.length

/-- The wire position of point `i` is outside the panel. -/
def zforce_out_of_range (pdata : zforce_ts_platdata) (payload : List Nat) (i : Nat) : Bool :=
  decide (rd payload (9 * i + 1) + 256 * rd payload (9 * i + 2) > pdata.x_max ∨
          rd payload (9 * i + 3) + 256 * rd payload (9 * i + 4) > pdata.y_max)

/-- The single-touch calls `zforce_touch_event` makes after its second loop, `p` being
`point[0]`. -/
def zforce_touch_legacy (pdata : zforce_ts_platdata) (p : zforce_point) : List input_call :=
  [input_call.report_abs abs_code.ABS_X p.coord_y,
   input_call.report_abs abs_code.ABS_Y (int_of_u32 (pdata.x_max + 2 ^ 32 - u32_of_int p.coord_x)),
   input_call.report_key_BTN_TOUCH (decide (p.state ≠ STATE_UP)),
   input_call.report_abs abs_code.ABS_PRESSURE (if p.state ≠ STATE_UP then 1024 else 0),
   input_call.sync]

/-- The call selects a slot. -/
def input_call.is_mt_slot : input_call → Bool
  | input_call.mt_slot _ => true
  | _ => false

/-- The call reports the state of the selected slot. -/
def input_call.is_slot_state : input_call → Bool
  | input_call.mt_report_slot_state _ => true
  | _ => false

/-- The value of the call when it reports the axis `c`. -/
def input_call.abs_value (c : abs_code) : input_call → Option Int
  | input_call.report_abs code v => if code = c then some v else none
  | _ => none

/-- The condition under which the driver treats the device as a wake-up source:
`device_may_wakeup(&client->dev) || !gSleep_Mode_Suspend`. -/
def wakeup_source (ts : zforce_ts) : Bool :=
  ts.client.may_wakeup || decide (ts.gSleep_Mode_Suspend = 0)

/-- State of `zforce_suspend` when it reaches the embedded start or stop: `suspending` is
set and the health check of an open device is cancelled. -/
def zforce_suspend_entry (ts : zforce_ts) : zforce_ts :=
  if ts.input.users ≠ 0 then
    { ts with suspending := true, check := cancel_delayed_work_sync ts.check }
  else { ts with suspending := true }

/-- The power-management call `c` as `zforce_irq_thread` makes it: only when the device is
not suspending and is a wake-up source. -/
def irq_pm (ts : zforce_ts) (c : pm_call) : zforce_ts :=
  if !ts.suspending && wakeup_source ts then { ts with pm := ts.pm ++ [c] } else ts

/-- One frame of a drain pass: read the frame into the buffer, then dispatch it. -/
def irq_read_dispatch (st : zforce_ts × List Nat) (s : irq_step) : zforce_ts × List Nat :=
  (zforce_irq_dispatch (zforce_read_packet st.1 st.2 s.hdr s.body).2.1
     { payload_buffer := (zforce_read_packet st.1 st.2 s.hdr s.body).2.2, point := s.point },
   (zforce_read_packet st.1 st.2 s.hdr s.body).2.2)

/-- The line reads asserted and the bus delivers a frame with the start marker and a
length of at least one. -/
def irq_step.accepted (s : irq_step) : Prop :=
  s.gpio_int = 0 ∧
  ∃ b1 tl body, s.hdr = i2c_rx.data (FRAME_START :: b1 :: tl) ∧ 1 ≤ b1 % 256 ∧
    s.body = i2c_rx.data body

/-- The line reads asserted and the read fails: a transport error on the header, a bad start
marker, a bad length, or a transport error on the body. -/
def irq_step.rejected (s : irq_step) : Prop :=
  s.gpio_int = 0 ∧
  ((∃ e, e < 0 ∧ s.hdr = i2c_rx.error e) ∨
   (∃ b0 b1 tl, s.hdr = i2c_rx.data (b0 :: b1 :: tl) ∧ b0 % 256 ≠ FRAME_START) ∨
   (∃ b0 b1 tl, s.hdr = i2c_rx.data (b0 :: b1 :: tl) ∧ b1 % 256 = 0) ∨
   (∃ b1 tl e, s.hdr = i2c_rx.data (FRAME_START :: b1 :: tl) ∧ 1 ≤ b1 % 256 ∧ e < 0 ∧
     s.body = i2c_rx.error e))

/-- The state `b` differs from `a` in the log of bus transfers at most. -/
def bus_only (a b : zforce_ts) : Prop :=
  b = { a with client := { a.client with xfer := b.client.xfer } }

/-- Number of body bytes the dispatcher and the decoders read of a frame, by its id: id and
data byte for the acknowledgements, boot-complete and the invalid-command notification
(whose data byte goes to `dev_err`), id, eight version bytes and the trailing byte for a
status response, id, count byte and nine bytes per decoded point for a touch notification,
the id alone otherwise. -/
def zforce_body_needed (payload : List Nat) : Nat :=
  if rd payload RESPONSE_ID = NOTIFICATION_TOUCH then
    2 + 9 * zforce_touch_count (payload.drop RESPONSE_DATA)
  else if rd payload RESPONSE_ID = NOTIFICATION_BOOTCOMPLETE ∨
      plain_ack (rd payload RESPONSE_ID) ∨
      rd payload RESPONSE_ID = NOTIFICATION_INVALID_COMMAND
  then 2
  else if rd payload RESPONSE_ID = RESPONSE_STATUS then 10
  else 1

/-- The buffers `p` and `q` hold the same bytes at the indices below `n`. -/
def rd_agree (p q : List Nat) (n : Nat) : Prop :=
  ∀ i, i < n → rd p i = rd q i

/-! ## Concrete inputs of the examples -/

/-- Platform data of the examples: a 758 x 1024 panel. -/
def example_pdata : zforce_ts_platdata :=
  { gpio_int := 0, gpio_rst := 1, x_max := 758, y_max := 1024 }

/-- A stack slot filled with zeroes. -/
def zero_point : zforce_point :=
  { coord_x := 0, coord_y := 0, state := 0, id := 0, area_major := 0, area_minor := 0,
    orientation := 0, pressure := 0, prblty := 0 }

/-- The two-byte frame `[0xEE, 2, id, data]` as it sits in the 512 byte `payload_buffer`. -/
def ack_frame (id data : Nat) : irq_frame :=
  { payload_buffer := [FRAME_START, 2, id, data] ++ List.replicate 508 0
    point := fun _ => zero_point }

/-- A command whose send succeeds and whose acknowledgement arrives with data byte 0. -/
def env_acked (id : Nat) : cmd_env :=
  { send_ret := 0, window := [ack_frame id 0] }

/-- A command whose send succeeds and for which no frame arrives during the wait. -/
def env_silent : cmd_env :=
  { send_ret := 0, window := [] }

/-- A start in which every command is acknowledged with data byte 0. -/
def start_env_acked : start_env :=
  { init := env_acked RESPONSE_INITIALIZE
    res := env_acked RESPONSE_RESOLUTION
    scan := env_acked RESPONSE_SCANFREQ
    cfg := env_acked RESPONSE_SETCONFIG
    datareq := 0
    deact := env_acked RESPONSE_DEACTIVATE }

/-- The state of a running device: probe state followed by a fully acknowledged start. -/
def running_state : zforce_ts :=
  (zforce_start (zforce_probe_state example_pdata) start_env_acked).2

/-- A touch payload with two points, both at x = 65535, outside the 758 x 1024 panel. -/
def touch_payload_two_bad : List Nat :=
  [2, 0xff, 0xff, 0, 0, 4, 5, 3, 9, 9, 0xff, 0xff, 0, 0, 8, 5, 3, 9, 9]

/-- A touch payload with two points in range: point 0 (id 1) is Up, point 1 (id 2) is Down. -/
def touch_payload_up_down : List Nat :=
  [2, 10, 0, 20, 0, 6, 5, 3, 9, 9, 30, 0, 40, 0, 8, 5, 3, 9, 9]

/-- The touch payload of scenario C: one point, Down, id 1, x = 100, y = 200. -/
def touch_payload_scenario_c : List Nat :=
  [1, 100, 0, 200, 0, 4, 5, 3, 9, 9]

/-- A status response in the 512 byte `payload_buffer`: version 1.2, build 3, revision 4,
then the trailing status byte. -/
def status_frame (trailing : Nat) : irq_frame :=
  { payload_buffer := [FRAME_START, 10, RESPONSE_STATUS, 1, 0, 2, 0, 3, 0, 4, 0, trailing] ++
      List.replicate 500 0
    point := fun _ => zero_point }

/-- A suspend with the interrupt line deasserted in which every command is acknowledged. -/
def suspend_env_idle : suspend_env :=
  { gpio_int := 1, start := start_env_acked, stop := env_acked RESPONSE_DEACTIVATE }

/-- A suspend with the interrupt line asserted. -/
def suspend_env_pending : suspend_env :=
  { gpio_int := 0, start := start_env_acked, stop := env_acked RESPONSE_DEACTIVATE }

/-- A pass of the interrupt loop that reads the frame `[0xEE, 2, id, data]`. -/
def step_ack (id data : Nat) : irq_step :=
  { gpio_int := 0, hdr := i2c_rx.data [FRAME_START, 2], body := i2c_rx.data [id, data],
    point := fun _ => zero_point }

/-- A pass of the interrupt loop that reads the one-byte frame `[0xEE, 1, id]`. -/
def step_short (id : Nat) : irq_step :=
  { gpio_int := 0, hdr := i2c_rx.data [FRAME_START, 1], body := i2c_rx.data [id],
    point := fun _ => zero_point }

/-- A pass of the interrupt loop whose header read delivers a wrong start marker. -/
def step_bad_marker : irq_step :=
  { gpio_int := 0, hdr := i2c_rx.data [0x00, 2], body := i2c_rx.data [0, 0],
    point := fun _ => zero_point }

/-- The probe state with a caller waiting for the acknowledgement `id`. -/
def waiting_state (id : Int) : zforce_ts :=
  { zforce_probe_state example_pdata with command_waiting := id }

/-- A touch payload with one point whose packed byte is 7: state bits 3, identifier 1. -/
def touch_payload_state3 : List Nat :=
  [1, 100, 0, 200, 0, 7, 5, 3, 9, 9]

/-- A touch payload with one point whose packed byte is 0: state Down, identifier 0. -/
def touch_payload_id0 : List Nat :=
  [1, 100, 0, 200, 0, 0, 5, 3, 9, 9]

/-- A touch payload with one point whose packed byte is 20: state Down, identifier 5. -/
def touch_payload_id5 : List Nat :=
  [1, 100, 0, 200, 0, 20, 5, 3, 9, 9]

/-- A stack slot holding something else than zeroes. -/
def garbage_point : zforce_point :=
  { coord_x := 0, coord_y := 7, state := 2, id := 0, area_major := 0, area_minor := 0,
    orientation := 0, pressure := 0, prblty := 0 }

/-- A suspend with the interrupt line deasserted in which no frame arrives at all. -/
def suspend_env_silent : suspend_env :=
  { gpio_int := 1
    start := { init := env_silent, res := env_silent, scan := env_silent, cfg := env_silent,
               datareq := 0, deact := env_silent }
    stop := env_silent }

/-- A running device that is open and is no wake-up source. -/
def open_state_no_wakeup : zforce_ts :=
  { running_state with input := { running_state.input with users := 1 },
                       gSleep_Mode_Suspend := 1 }

/-! ## Lemmas: byte buffers and the frame codec -/

theorem buf_write_length (bytes : List Nat) : ∀ (buf : List Nat) (off : Nat),
    (buf_write buf off bytes).length = buf.length := by
  induction bytes with
  | nil => intro buf off; rfl
  | cons b bs ih => intro buf off; simp [buf_write, ih]

theorem buf_write_eq (bytes : List Nat) : ∀ (buf : List Nat) (off : Nat),
    off + bytes.length ≤ buf.length →
    buf_write buf off bytes =
      buf.take off ++ bytes.map (fun b => b % 256) ++ buf.drop (off + bytes.length) := by
  induction bytes with
  | nil => intro buf off _; simp [buf_write]
  | cons b bs ih =>
    intro buf off h
    simp only [List.length_cons] at h
    have hlt : off < buf.length := by omega
    rw [buf_write, ih _ _ (by simp; omega)]
    simp only [List.map_cons, List.length_cons]
    have h1 : List.take (off + 1) (buf.set off (b % 256)) = List.take off buf ++ [b % 256] := by
      rw [List.set_eq_take_append_cons_drop, if_pos hlt]
      rw [List.take_append_eq_append_take]
      simp [List.take_take, Nat.min_eq_left (Nat.le_succ off), List.length_take, Nat.min_eq_left (Nat.le_of_lt hlt)]
    have h2 : List.drop (off + 1 + bs.length) (buf.set off (b % 256)) =
        List.drop (off + (bs.length + 1)) buf := by
      rw [List.drop_set, if_pos (by omega)]
      congr 1; omega
    rw [h1, h2]; simp

theorem rd_header0 (buf : List Nat) (b0 b1 : Nat) (h : 2 ≤ buf.length) :
    rd (buf_write buf 0 [b0, b1]) 0 = b0 % 256 := by
  match buf, h with
  | x :: y :: rest, _ => simp [buf_write, rd]

theorem rd_header1 (buf : List Nat) (b0 b1 : Nat) (h : 2 ≤ buf.length) :
    rd (buf_write buf 0 [b0, b1]) 1 = b1 % 256 := by
  match buf, h with
  | x :: y :: rest, _ => simp [buf_write, rd]

theorem zforce_read_packet_accept (ts : zforce_ts) (buf : List Nat) (b1 : Nat) (tl body : List Nat)
    (hbuf : 2 ≤ buf.length) (h1 : 1 ≤ b1 % 256) :
    zforce_read_packet ts buf (i2c_rx.data (FRAME_START :: b1 :: tl)) (i2c_rx.data body) =
      (((b1 % 256 : Nat) : Int),
       { ts with client := { ts.client with xfer := ts.client.xfer ++
           [i2c_msg.recv 2 2, i2c_msg.recv (b1 % 256) ((b1 % 256 : Nat) : Int)] } },
       buf_write (buf_write buf 0 [FRAME_START, b1]) PAYLOAD_BODY (body.take (b1 % 256))) := by
  have hlt : b1 % 256 < 256 := Nat.mod_lt _ (by norm_num)
  simp only [zforce_read_packet, i2c_master_recv, List.take, PAYLOAD_HEADER, PAYLOAD_LENGTH,
    rd_header0 buf _ _ hbuf, rd_header1 buf _ _ hbuf]
  simp [FRAME_START, PAYLOAD_BODY]
  omega


theorem and_ff_lt (x : Nat) : x &&& 0xff < 256 :=
  Nat.and_lt_two_pow x (by norm_num : (0xff : Nat) < 2 ^ 8)

theorem and_ff_mod (x : Nat) : (x &&& 0xff) % 256 = x &&& 0xff :=
  Nat.mod_eq_of_lt (and_ff_lt x)

theorem buf_write_drop_take (buf : List Nat) (off : Nat) (bytes : List Nat)
    (h : off + bytes.length ≤ buf.length) :
    ((buf_write buf off bytes).drop off).take bytes.length = bytes.map (fun b => b % 256) := by
  rw [buf_write_eq bytes buf off h, List.append_assoc]
  have hl : (List.take off buf).length = off := by
    rw [List.length_take]; exact Nat.min_eq_left (by omega)
  rw [List.drop_append_eq_append_drop, hl, Nat.sub_self, List.drop_zero,
    List.drop_of_length_le (by omega), List.nil_append, List.take_append_eq_append_take]
  simp

/-! ## Lemmas: dispatch and the command channel -/

theorem irq_keeps_refl (a : zforce_ts) : irq_keeps a a :=
  ⟨rfl, rfl, rfl, rfl, rfl, rfl, rfl, rfl⟩

theorem irq_keeps_trans {a b c : zforce_ts} (h1 : irq_keeps a b) (h2 : irq_keeps b c) :
    irq_keeps a c := by
  obtain ⟨a1, a2, a3, a4, a5, a6, a7, a8⟩ := h1
  obtain ⟨b1, b2, b3, b4, b5, b6, b7, b8⟩ := h2
  exact ⟨b1.trans a1, b2.trans a2, b3.trans a3, b4.trans a4, b5.trans a5, b6.trans a6,
    b7.trans a7, b8.trans a8⟩

theorem cmd_keeps_refl (a : zforce_ts) : cmd_keeps a a := ⟨rfl, rfl⟩

theorem cmd_keeps_trans {a b c : zforce_ts} (h1 : cmd_keeps a b) (h2 : cmd_keeps b c) :
    cmd_keeps a c :=
  ⟨h2.1.trans h1.1, h2.2.trans h1.2⟩

theorem touch_decode_keeps (payload : List Nat) (st : (Nat → zforce_point) × zforce_ts)
    (i : Nat) :
    irq_keeps st.2 (zforce_touch_decode payload st i).2 ∧
    cmd_keeps st.2 (zforce_touch_decode payload st i).2 := by
  unfold zforce_touch_decode irq_keeps cmd_keeps
  dsimp only
  split_ifs <;> simp

theorem touch_decode_fold_keeps (payload : List Nat) (l : List Nat) :
    ∀ st : (Nat → zforce_point) × zforce_ts,
      irq_keeps st.2 (l.foldl (zforce_touch_decode payload) st).2 ∧
      cmd_keeps st.2 (l.foldl (zforce_touch_decode payload) st).2 := by
  induction l with
  | nil => intro st; exact ⟨irq_keeps_refl _, cmd_keeps_refl _⟩
  | cons i l ih =>
    intro st
    rw [List.foldl_cons]
    have h1 := touch_decode_keeps payload st i
    have h2 := ih (zforce_touch_decode payload st i)
    exact ⟨irq_keeps_trans h1.1 h2.1, cmd_keeps_trans h1.2 h2.2⟩

theorem touch_event_keeps (ts : zforce_ts) (payload : List Nat) (point : Nat → zforce_point) :
    irq_keeps ts (zforce_touch_event ts payload point).2 ∧
    cmd_keeps ts (zforce_touch_event ts payload point).2 := by
  unfold zforce_touch_event
  dsimp only
  generalize (if rd payload 0 > ZFORCE_REPORT_POINTS then ZFORCE_REPORT_POINTS
    else rd payload 0) = count
  have h := touch_decode_fold_keeps payload (List.range count) (point, ts)
  exact h

theorem complete_keeps (ts : zforce_ts) (cmd result : Int) :
    irq_keeps ts (zforce_complete ts cmd result) := by
  unfold zforce_complete irq_keeps
  split_ifs <;> simp

theorem complete_other (ts : zforce_ts) (cmd result : Int) (h : cmd ≠ ts.command_waiting) :
    zforce_complete ts cmd result = ts := by
  unfold zforce_complete
  rw [if_neg (fun h2 => h h2.symm)]

theorem irq_dispatch_keeps (ts : zforce_ts) (f : irq_frame) :
    irq_keeps ts (zforce_irq_dispatch ts f) := by
  unfold zforce_irq_dispatch
  dsimp only
  split_ifs
  · exact (touch_event_keeps _ _ _).1
  · exact (touch_event_keeps _ _ _).1
  all_goals first
    | exact irq_keeps_refl _
    | (unfold zforce_complete irq_keeps; split_ifs <;> simp)

theorem irq_dispatch_other (ts : zforce_ts) (f : irq_frame)
    (h : (f.id : Int) ≠ ts.command_waiting) :
    cmd_keeps ts (zforce_irq_dispatch ts f) := by
  unfold irq_frame.id at h
  unfold zforce_irq_dispatch
  dsimp only
  split_ifs
  · exact (touch_event_keeps _ _ _).2
  · exact (touch_event_keeps _ _ _).2
  all_goals first
    | exact cmd_keeps_refl _
    | (unfold zforce_complete cmd_keeps
       split_ifs with h2 <;> first | exact absurd h2.symm h | simp)

theorem irq_window_keeps (window : List irq_frame) :
    ∀ ts : zforce_ts, irq_keeps ts (window.foldl zforce_irq_dispatch ts) := by
  induction window with
  | nil => intro ts; exact irq_keeps_refl ts
  | cons f w ih =>
    intro ts
    rw [List.foldl_cons]
    exact irq_keeps_trans (irq_dispatch_keeps ts f) (ih _)

theorem irq_window_other (window : List irq_frame) :
    ∀ ts : zforce_ts, (∀ f ∈ window, (f.id : Int) ≠ ts.command_waiting) →
      cmd_keeps ts (window.foldl zforce_irq_dispatch ts) := by
  induction window with
  | nil => intro ts _; exact cmd_keeps_refl ts
  | cons f w ih =>
    intro ts h
    rw [List.foldl_cons]
    have hf := h f (List.mem_cons_self _ _)
    have hk := irq_dispatch_keeps ts f
    refine cmd_keeps_trans (irq_dispatch_other ts f hf) (ih _ ?_)
    intro g hg
    rw [hk.2.2.2.2.2.1]
    exact h g (List.mem_cons_of_mem _ hg)


theorem irq_dispatch_awaited (ts : zforce_ts) (f : irq_frame)
    (hid : (f.id : Int) = ts.command_waiting) (hres : f.resolves) :
    (zforce_irq_dispatch ts f).command_done = ts.command_done + 1 ∧
    (zforce_irq_dispatch ts f).command_result = f.result := by
  unfold irq_frame.resolves plain_ack at hres
  unfold irq_frame.result plain_ack irq_frame.data
  unfold irq_frame.id at hid hres ⊢
  unfold zforce_irq_dispatch
  dsimp only
  simp only [RESPONSE_INITIALIZE, RESPONSE_DEACTIVATE, RESPONSE_SETCONFIG, RESPONSE_RESOLUTION,
    RESPONSE_SCANFREQ, NOTIFICATION_BOOTCOMPLETE, RESPONSE_STATUS, NOTIFICATION_TOUCH,
    NOTIFICATION_INVALID_COMMAND, NOTIFICATION_OVERRUN] at hres ⊢
  generalize rd (List.drop PAYLOAD_BODY f.payload_buffer) RESPONSE_ID = id at hid hres ⊢
  unfold zforce_complete
  rcases hres with (h | h | h | h | h) | h | h
  all_goals (subst h; simp [hid.symm])
  all_goals (split_ifs <;> simp)


theorem wait_keeps (ts : zforce_ts) (window : List irq_frame) :
    irq_keeps ts (wait_for_completion_timeout ts window).2 := by
  unfold wait_for_completion_timeout
  dsimp only
  have hk := irq_window_keeps window ts
  split_ifs
  · exact irq_keeps_trans hk (by simp [irq_keeps])
  · exact hk

theorem send_wait_free (ts : zforce_ts) (buf : List Nat) (len : Nat) (e : cmd_env)
    (hfree : ts.command_mutex = false) :
    zforce_send_wait ts buf len e =
      if e.send_ret < 0 then
        (e.send_ret, { send_wait_sent ts buf len e.send_ret with command_mutex := false })
      else if (wait_for_completion_timeout (send_wait_sent ts buf len e.send_ret) e.window).1 = 0
      then (- ETIME, { (wait_for_completion_timeout (send_wait_sent ts buf len e.send_ret)
              e.window).2 with command_mutex := false })
      else ((wait_for_completion_timeout (send_wait_sent ts buf len e.send_ret)
              e.window).2.command_result,
            { (wait_for_completion_timeout (send_wait_sent ts buf len e.send_ret)
              e.window).2 with command_mutex := false }) := by
  unfold zforce_send_wait
  rw [if_neg (by simp [hfree])]
  rfl

theorem send_wait_state (ts : zforce_ts) (buf : List Nat) (len : Nat) (e : cmd_env)
    (hfree : ts.command_mutex = false) :
    (zforce_send_wait ts buf len e).2.client =
      { ts.client with xfer := ts.client.xfer ++ [i2c_msg.send (buf.take len) e.send_ret] } ∧
    (zforce_send_wait ts buf len e).2.command_mutex = false ∧
    (zforce_send_wait ts buf len e).2.command_waiting = (rd buf 2 : Int) ∧
    (zforce_send_wait ts buf len e).2.stopped = ts.stopped ∧
    (zforce_send_wait ts buf len e).2.check = ts.check := by
  rw [send_wait_free ts buf len e hfree]
  obtain ⟨k1, k2, k3, k4, k5, k6, k7, k8⟩ :=
    wait_keeps (send_wait_sent ts buf len e.send_ret) e.window
  split_ifs
  · simp [send_wait_sent]
  · dsimp only
    rw [k1, k2, k6, k7]
    simp [send_wait_sent]
  · dsimp only
    rw [k1, k2, k6, k7]
    simp [send_wait_sent]

theorem send_wait_send_failed (ts : zforce_ts) (buf : List Nat) (len : Nat) (e : cmd_env)
    (hfree : ts.command_mutex = false) (hsend : e.send_ret < 0) :
    (zforce_send_wait ts buf len e).1 = e.send_ret := by
  rw [send_wait_free ts buf len e hfree, if_pos hsend]

theorem wait_signalled (ts : zforce_ts) (window : List irq_frame)
    (h : 0 < (window.foldl zforce_irq_dispatch ts).command_done) :
    wait_for_completion_timeout ts window =
      (1, { window.foldl zforce_irq_dispatch ts with
              command_done := (window.foldl zforce_irq_dispatch ts).command_done - 1 }) := by
  unfold wait_for_completion_timeout
  dsimp only
  rw [if_pos h]

theorem wait_not_signalled (ts : zforce_ts) (window : List irq_frame)
    (h : (window.foldl zforce_irq_dispatch ts).command_done = 0) :
    wait_for_completion_timeout ts window = (0, window.foldl zforce_irq_dispatch ts) := by
  unfold wait_for_completion_timeout
  dsimp only
  rw [if_neg (by omega)]

theorem send_wait_timed_out (ts : zforce_ts) (buf : List Nat) (len : Nat) (e : cmd_env)
    (hfree : ts.command_mutex = false) (hdone : ts.command_done = 0)
    (hsend : 0 ≤ e.send_ret)
    (hwin : ∀ f ∈ e.window, (f.id : Int) ≠ (rd buf 2 : Int)) :
    (zforce_send_wait ts buf len e).1 = - ETIME ∧
    (zforce_send_wait ts buf len e).2.command_done = 0 := by
  have hc := irq_window_other e.window (send_wait_sent ts buf len e.send_ret) hwin
  have hd : (e.window.foldl zforce_irq_dispatch
      (send_wait_sent ts buf len e.send_ret)).command_done = 0 := by
    rw [hc.1]; exact hdone
  rw [send_wait_free ts buf len e hfree, if_neg (by omega), wait_not_signalled _ _ hd]
  simp [hd]

theorem send_wait_acked (ts : zforce_ts) (buf : List Nat) (len : Nat) (e : cmd_env)
    (pre : List irq_frame) (f : irq_frame)
    (hfree : ts.command_mutex = false) (hsend : 0 ≤ e.send_ret)
    (hwin : e.window = pre ++ [f])
    (hpre : ∀ g ∈ pre, (g.id : Int) ≠ (rd buf 2 : Int))
    (hid : (f.id : Int) = (rd buf 2 : Int)) (hres : f.resolves) :
    (zforce_send_wait ts buf len e).1 = f.result ∧
    (zforce_send_wait ts buf len e).2.command_done = ts.command_done := by
  have hc := irq_window_other pre (send_wait_sent ts buf len e.send_ret) hpre
  have hk := irq_window_keeps pre (send_wait_sent ts buf len e.send_ret)
  have ha := irq_dispatch_awaited
    (pre.foldl zforce_irq_dispatch (send_wait_sent ts buf len e.send_ret)) f
    (by rw [hk.2.2.2.2.2.1]; exact hid) hres
  have hf : e.window.foldl zforce_irq_dispatch (send_wait_sent ts buf len e.send_ret) =
      zforce_irq_dispatch
        (pre.foldl zforce_irq_dispatch (send_wait_sent ts buf len e.send_ret)) f := by
    rw [hwin, List.foldl_append, List.foldl_cons, List.foldl_nil]
  have hd : (e.window.foldl zforce_irq_dispatch
      (send_wait_sent ts buf len e.send_ret)).command_done = ts.command_done + 1 := by
    rw [hf, ha.1, hc.1]; rfl
  have hr : (e.window.foldl zforce_irq_dispatch
      (send_wait_sent ts buf len e.send_ret)).command_result = f.result := by
    rw [hf, ha.2]
  rw [send_wait_free ts buf len e hfree, if_neg (by omega),
    wait_signalled _ _ (by rw [hd]; omega)]
  simp [hd, hr]

/-! ## Lemmas: the start-up sequence -/

theorem and_ff_eq_mod (x : Nat) : x &&& 0xff = x % 256 :=
  Nat.and_pow_two_sub_one_eq_mod x 8

theorem u16_lo (x : Nat) : (x % 65536) &&& 0xff = x % 256 := by
  rw [and_ff_eq_mod]; omega

theorem u16_hi (x : Nat) : ((x % 65536) >>> 8) &&& 0xff = x / 256 % 256 := by
  rw [and_ff_eq_mod, Nat.shiftRight_eq_div_pow]; omega

theorem command_wait_eq (ts : zforce_ts) (cmd : Nat) (e : cmd_env) :
    zforce_command_wait ts cmd e =
      (if (zforce_send_wait ts (zforce_command_wait_buf cmd) 3 e).1 < 0 then
         (zforce_send_wait ts (zforce_command_wait_buf cmd) 3 e).1 else 0,
       (zforce_send_wait ts (zforce_command_wait_buf cmd) 3 e).2) := by
  unfold zforce_command_wait
  generalize zforce_send_wait ts (zforce_command_wait_buf cmd) 3 e = r
  obtain ⟨ret, ts1⟩ := r
  dsimp only
  split_ifs <;> rfl

theorem zforce_start_eq (ts : zforce_ts) (e : start_env) :
    zforce_start ts e =
      if (zforce_start_init ts e).1 ≠ 0 then zforce_start_init ts e
      else if (zforce_start_res ts e).1 ≠ 0 then
        zforce_start_error (zforce_start_res ts e).2 (zforce_start_res ts e).1 e
      else if (zforce_start_scan ts e).1 ≠ 0 then
        zforce_start_error (zforce_start_scan ts e).2 (zforce_start_scan ts e).1 e
      else if (zforce_start_cfg ts e).1 ≠ 0 then
        zforce_start_error (zforce_start_cfg ts e).2 (zforce_start_scan ts e).1 e
      else if (zforce_start_datareq ts e).1 ≠ 0 then
        zforce_start_error (zforce_start_datareq ts e).2 (zforce_start_datareq ts e).1 e
      else (0, { (zforce_start_datareq ts e).2 with
                   check := schedule_delayed_work (zforce_start_datareq ts e).2.check }) := by
  rfl

theorem send_wait_acked_with (ts : zforce_ts) (buf : List Nat) (len : Nat) (e : cmd_env)
    (id data : Nat) (hfree : ts.command_mutex = false) (hbuf : rd buf 2 = id)
    (hack : plain_ack id) (h : acked_with e id data) :
    (zforce_send_wait ts buf len e).1 = (data : Int) ∧
    (zforce_send_wait ts buf len e).2.command_done = ts.command_done := by
  obtain ⟨hsend, pre, f, hwin, hpre, hid, hdata⟩ := h
  have hres : f.resolves := Or.inl (by rw [hid]; exact hack)
  have h1 := send_wait_acked ts buf len e pre f hfree hsend hwin
    (by intro g hg; rw [hbuf]; exact_mod_cast hpre g hg) (by rw [hbuf, hid]) hres
  refine ⟨?_, h1.2⟩
  rw [h1.1]
  unfold irq_frame.result
  rw [if_pos (by rw [hid]; exact hack), hdata]

theorem send_wait_unanswered (ts : zforce_ts) (buf : List Nat) (len : Nat) (e : cmd_env)
    (id : Nat) (hfree : ts.command_mutex = false) (hdone : ts.command_done = 0)
    (hbuf : rd buf 2 = id) (h : unanswered e id) :
    (zforce_send_wait ts buf len e).1 = - ETIME ∧
    (zforce_send_wait ts buf len e).2.command_done = 0 :=
  send_wait_timed_out ts buf len e hfree hdone h.1
    (by intro g hg; rw [hbuf]; exact_mod_cast h.2 g hg)

theorem zforce_command_state (ts : zforce_ts) (cmd : Nat) (send_ret : Int) :
    (zforce_command ts cmd send_ret).1 = (if send_ret < 0 then send_ret else 0) ∧
    (zforce_command ts cmd send_ret).2 =
      { ts with client := { ts.client with
          xfer := ts.client.xfer ++ [i2c_msg.send [FRAME_START, 1, cmd % 256] send_ret] } } := by
  unfold zforce_command i2c_master_send
  dsimp only
  split_ifs <;> exact ⟨rfl, rfl⟩

theorem start_error_state (ts : zforce_ts) (ret : Int) (e : start_env)
    (hfree : ts.command_mutex = false) :
    (zforce_start_error ts ret e).1 = ret ∧
    (zforce_start_error ts ret e).2.stopped = true ∧
    (zforce_start_error ts ret e).2.client.xfer =
      ts.client.xfer ++ [i2c_msg.send [0xee, 1, 0x00] e.deact.send_ret] ∧
    (zforce_start_error ts ret e).2.check = ts.check := by
  unfold zforce_start_error
  dsimp only
  rw [command_wait_eq]
  dsimp only
  have h := send_wait_state ts (zforce_command_wait_buf COMMAND_DEACTIVATE) 3 e.deact hfree
  refine ⟨rfl, rfl, ?_, h.2.2.2.2⟩
  rw [h.1]
  rfl

theorem start_reached_send_wait (ts s : zforce_ts) (sent : List i2c_msg) (buf : List Nat)
    (len : Nat) (e : cmd_env) (h : start_reached ts s sent) :
    start_reached ts (zforce_send_wait s buf len e).2
      (sent ++ [i2c_msg.send (buf.take len) e.send_ret]) := by
  obtain ⟨h1, h2, h3, h4⟩ := h
  have hs := send_wait_state s buf len e h2
  refine ⟨?_, hs.2.1, hs.2.2.2.1.trans h3, hs.2.2.2.2.trans h4⟩
  rw [hs.1, h1]
  simp

theorem start_reached_init (ts : zforce_ts) (e : start_env) (hfree : ts.command_mutex = false) :
    start_reached ts (zforce_start_init ts e).2
      [i2c_msg.send [0xee, 1, 0x01] e.init.send_ret] := by
  unfold zforce_start_init
  rw [command_wait_eq]
  exact start_reached_send_wait ts { ts with stopped := false } [] _ 3 e.init
    ⟨by simp, hfree, rfl, rfl⟩

theorem resolution_buf_eq (x y : Nat) :
    zforce_resolution_buf x y =
      [0xee, 5, 0x02, x % 256, x / 256 % 256, y % 256, y / 256 % 256] := by
  simp [zforce_resolution_buf, u16_lo, u16_hi, FRAME_START, COMMAND_RESOLUTION]

theorem scan_frequency_buf_eq :
    zforce_scan_frequency_buf 10 50 50 = [0xee, 7, 0x08, 10, 0, 50, 0, 50, 0] := by
  decide

theorem start_reached_res (ts : zforce_ts) (e : start_env) (hfree : ts.command_mutex = false) :
    start_reached ts (zforce_start_res ts e).2
      [i2c_msg.send [0xee, 1, 0x01] e.init.send_ret,
       i2c_msg.send [0xee, 5, 0x02, ts.client.platform_data.x_max % 256,
         ts.client.platform_data.x_max / 256 % 256, ts.client.platform_data.y_max % 256,
         ts.client.platform_data.y_max / 256 % 256] e.res.send_ret] := by
  have h : start_reached ts (zforce_start_res ts e).2
      ([i2c_msg.send [0xee, 1, 0x01] e.init.send_ret] ++
        [i2c_msg.send ((zforce_resolution_buf ts.client.platform_data.x_max
          ts.client.platform_data.y_max).take 7) e.res.send_ret]) :=
    start_reached_send_wait ts _ _ _ 7 e.res (start_reached_init ts e hfree)
  rw [resolution_buf_eq] at h
  simpa using h

theorem start_reached_scan (ts : zforce_ts) (e : start_env) (hfree : ts.command_mutex = false) :
    start_reached ts (zforce_start_scan ts e).2
      [i2c_msg.send [0xee, 1, 0x01] e.init.send_ret,
       i2c_msg.send [0xee, 5, 0x02, ts.client.platform_data.x_max % 256,
         ts.client.platform_data.x_max / 256 % 256, ts.client.platform_data.y_max % 256,
         ts.client.platform_data.y_max / 256 % 256] e.res.send_ret,
       i2c_msg.send [0xee, 7, 0x08, 10, 0, 50, 0, 50, 0] e.scan.send_ret] := by
  have h : start_reached ts (zforce_start_scan ts e).2
      (_ ++ [i2c_msg.send ((zforce_scan_frequency_buf 10 50 50).take 9) e.scan.send_ret]) :=
    start_reached_send_wait ts _ _ _ 9 e.scan (start_reached_res ts e hfree)
  rw [scan_frequency_buf_eq] at h
  simpa using h

theorem start_reached_cfg (ts : zforce_ts) (e : start_env) (hfree : ts.command_mutex = false) :
    start_reached ts (zforce_start_cfg ts e).2
      [i2c_msg.send [0xee, 1, 0x01] e.init.send_ret,
       i2c_msg.send [0xee, 5, 0x02, ts.client.platform_data.x_max % 256,
         ts.client.platform_data.x_max / 256 % 256, ts.client.platform_data.y_max % 256,
         ts.client.platform_data.y_max / 256 % 256] e.res.send_ret,
       i2c_msg.send [0xee, 7, 0x08, 10, 0, 50, 0, 50, 0] e.scan.send_ret,
       i2c_msg.send [0xee, 5, 0x03, 0, 0, 0, 0] e.cfg.send_ret] := by
  have h : start_reached ts (zforce_start_cfg ts e).2
      (_ ++ [i2c_msg.send ((zforce_setconfig_buf 0).take 7) e.cfg.send_ret]) :=
    start_reached_send_wait ts _ _ _ 7 e.cfg (start_reached_scan ts e hfree)
  simpa [zforce_setconfig_buf, FRAME_START, COMMAND_SETCONFIG] using h

theorem start_reached_datareq (ts : zforce_ts) (e : start_env)
    (hfree : ts.command_mutex = false) :
    start_reached ts (zforce_start_datareq ts e).2
      [i2c_msg.send [0xee, 1, 0x01] e.init.send_ret,
       i2c_msg.send [0xee, 5, 0x02, ts.client.platform_data.x_max % 256,
         ts.client.platform_data.x_max / 256 % 256, ts.client.platform_data.y_max % 256,
         ts.client.platform_data.y_max / 256 % 256] e.res.send_ret,
       i2c_msg.send [0xee, 7, 0x08, 10, 0, 50, 0, 50, 0] e.scan.send_ret,
       i2c_msg.send [0xee, 5, 0x03, 0, 0, 0, 0] e.cfg.send_ret,
       i2c_msg.send [0xee, 1, 0x04] e.datareq] := by
  obtain ⟨h1, h2, h3, h4⟩ := start_reached_cfg ts e hfree
  unfold zforce_start_datareq
  rw [(zforce_command_state _ _ _).2]
  refine ⟨?_, h2, h3, h4⟩
  simp [h1, FRAME_START, COMMAND_DATAREQUEST]


theorem send_wait_held (ts : zforce_ts) (buf : List Nat) (len : Nat) (e : cmd_env)
    (hheld : ts.command_mutex = true) :
    zforce_send_wait ts buf len e = (- EBUSY, ts) := by
  unfold zforce_send_wait
  rw [if_pos hheld]

theorem start_init_busy (ts : zforce_ts) (e : start_env) (h : (zforce_start_init ts e).1 = 0) :
    ts.command_mutex = false := by
  by_contra hne
  have hheld : ts.command_mutex = true := by simpa using hne
  unfold zforce_start_init at h
  rw [command_wait_eq, send_wait_held { ts with stopped := false } _ _ _ hheld] at h
  simp [EBUSY] at h

theorem start_init_acked (ts : zforce_ts) (e : start_env) (data : Nat)
    (hfree : ts.command_mutex = false) (h : acked_with e.init COMMAND_INITIALIZE data) :
    (zforce_start_init ts e).1 = 0 ∧
    (zforce_start_init ts e).2.command_done = ts.command_done := by
  unfold zforce_start_init
  rw [command_wait_eq]
  have h1 := send_wait_acked_with { ts with stopped := false }
    (zforce_command_wait_buf COMMAND_INITIALIZE) 3 e.init COMMAND_INITIALIZE data hfree
    (by decide) (by decide) h
  refine ⟨?_, h1.2⟩
  dsimp only
  rw [h1.1, if_neg (by omega)]

theorem start_res_acked (ts : zforce_ts) (e : start_env) (data : Nat)
    (hfree : ts.command_mutex = false) (h : acked_with e.res COMMAND_RESOLUTION data) :
    (zforce_start_res ts e).1 = (data : Int) ∧
    (zforce_start_res ts e).2.command_done = (zforce_start_init ts e).2.command_done := by
  unfold zforce_start_res zforce_resolution
  exact send_wait_acked_with _ _ 7 e.res COMMAND_RESOLUTION data
    (start_reached_init ts e hfree).2.1 (by rw [resolution_buf_eq]; rfl) (by decide) h

theorem start_scan_acked (ts : zforce_ts) (e : start_env) (data : Nat)
    (hfree : ts.command_mutex = false) (h : acked_with e.scan COMMAND_SCANFREQ data) :
    (zforce_start_scan ts e).1 = (data : Int) := by
  unfold zforce_start_scan zforce_scan_frequency
  exact (send_wait_acked_with _ _ 9 e.scan COMMAND_SCANFREQ data
    (start_reached_res ts e hfree).2.1 (by decide) (by decide) h).1

theorem start_cfg_acked (ts : zforce_ts) (e : start_env) (data : Nat)
    (hfree : ts.command_mutex = false) (h : acked_with e.cfg COMMAND_SETCONFIG data) :
    (zforce_start_cfg ts e).1 = (data : Int) := by
  unfold zforce_start_cfg zforce_setconfig
  exact (send_wait_acked_with _ _ 7 e.cfg COMMAND_SETCONFIG data
    (start_reached_scan ts e hfree).2.1 (by decide) (by decide) h).1

theorem start_scan_unanswered (ts : zforce_ts) (e : start_env)
    (hfree : ts.command_mutex = false)
    (hdone : (zforce_start_res ts e).2.command_done = 0)
    (h : unanswered e.scan COMMAND_SCANFREQ) :
    (zforce_start_scan ts e).1 = - ETIME := by
  unfold zforce_start_scan zforce_scan_frequency
  exact (send_wait_unanswered _ _ 9 e.scan COMMAND_SCANFREQ
    (start_reached_res ts e hfree).2.1 hdone (by decide) h).1

theorem env_acked_acked_with (id : Nat) (h : id < 256) : acked_with (env_acked id) id 0 := by
  refine ⟨le_refl (0 : Int), [], ack_frame id 0, rfl, ?_, ?_, ?_⟩
  · intro g hg
    exact absurd hg (List.not_mem_nil g)
  · show id % 256 = id
    exact Nat.mod_eq_of_lt h
  · show 0 % 256 = 0
    rfl

theorem env_silent_unanswered (id : Nat) : unanswered env_silent id :=
  ⟨by decide, by intro g hg; simp [env_silent] at hg⟩

/-! ## Lemmas: the touch decoder -/

theorem shl_or (hi lo : Nat) (h : lo < 256) : (hi <<< 8) ||| lo = lo + 256 * hi := by
  rw [Nat.shiftLeft_eq, Nat.mul_comm, ← Nat.mul_add_lt_is_or h hi]
  omega

theorem rd_lt (buf : List Nat) (i : Nat) : rd buf i < 256 :=
  Nat.mod_lt _ (by norm_num)

theorem touch_decode_eq (payload : List Nat) (st : (Nat → zforce_point) × zforce_ts) (i : Nat) :
    zforce_touch_decode payload st i =
      (Function.update st.1 i (zforce_decoded st.2.client.platform_data payload i),
       if zforce_out_of_range st.2.client.platform_data payload i then
         { st.2 with reset := schedule_delayed_work st.2.reset }
       else st.2) := by
  unfold zforce_touch_decode zforce_decoded zforce_touch_decode zforce_out_of_range
  simp only [shl_or _ _ (rd_lt _ _)]
  simp [zforce_probe_state]


theorem touch_count_eq (payload : List Nat) :
    zforce_touch_count payload = min (rd payload 0) 2 := by
  unfold zforce_touch_count ZFORCE_REPORT_POINTS
  split_ifs <;> omega

theorem touch_count_cases (payload : List Nat) :
    zforce_touch_count payload = 0 ∨ zforce_touch_count payload = 1 ∨
    zforce_touch_count payload = 2 := by
  rw [touch_count_eq]; omega

theorem decoded_coord (pdata : zforce_ts_platdata) (payload : List Nat) (i : Nat) :
    (zforce_decoded pdata payload i).coord_x =
      (if zforce_out_of_range pdata payload i then 0
       else ((rd payload (9 * i + 1) + 256 * rd payload (9 * i + 2) : Nat) : Int)) ∧
    (zforce_decoded pdata payload i).coord_y =
      (if zforce_out_of_range pdata payload i then 0
       else ((rd payload (9 * i + 3) + 256 * rd payload (9 * i + 4) : Nat) : Int)) := by
  unfold zforce_decoded zforce_touch_decode zforce_out_of_range
  simp only [shl_or _ _ (rd_lt _ _)]
  simp [zforce_probe_state]

set_option maxRecDepth 100000 in
theorem id_bits (b : Nat) (h : b < 256) : (b &&& 0xfc) >>> 2 = b / 4 := by
  revert b
  decide

theorem state_bits (b : Nat) : b &&& 0x03 = b % 4 :=
  Nat.and_pow_two_sub_one_eq_mod b 2

theorem decoded_rest (pdata : zforce_ts_platdata) (payload : List Nat) (i : Nat) :
    (zforce_decoded pdata payload i).state = ((rd payload (9 * i + 5) % 4 : Nat) : Int) ∧
    (zforce_decoded pdata payload i).id = ((rd payload (9 * i + 5) / 4 : Nat) : Int) ∧
    (zforce_decoded pdata payload i).area_major =
      ((max (rd payload (9 * i + 6)) (rd payload (9 * i + 7)) : Nat) : Int) ∧
    (zforce_decoded pdata payload i).area_minor =
      ((min (rd payload (9 * i + 6)) (rd payload (9 * i + 7)) : Nat) : Int) ∧
    (zforce_decoded pdata payload i).orientation =
      (if rd payload (9 * i + 6) > rd payload (9 * i + 7) then 1 else 0) := by
  unfold zforce_decoded zforce_touch_decode
  simp only [state_bits, id_bits _ (rd_lt _ _)]
  simp

theorem touch_decode_client (payload : List Nat) (st : (Nat → zforce_point) × zforce_ts)
    (i : Nat) : (zforce_touch_decode payload st i).2.client = st.2.client :=
  (touch_decode_keeps payload st i).1.1

theorem touch_points_zero (ts : zforce_ts) (payload : List Nat) (point : Nat → zforce_point)
    (h : zforce_touch_count payload = 0) : zforce_touch_points ts payload point = point := by
  unfold zforce_touch_points
  rw [h]; rfl

theorem touch_points_one (ts : zforce_ts) (payload : List Nat) (point : Nat → zforce_point)
    (h : zforce_touch_count payload = 1) :
    zforce_touch_points ts payload point =
      Function.update point 0 (zforce_decoded ts.client.platform_data payload 0) := by
  unfold zforce_touch_points
  rw [h]
  show (zforce_touch_decode payload (point, ts) 0).1 = _
  rw [touch_decode_eq]

theorem touch_points_two (ts : zforce_ts) (payload : List Nat) (point : Nat → zforce_point)
    (h : zforce_touch_count payload = 2) :
    zforce_touch_points ts payload point =
      Function.update
        (Function.update point 0 (zforce_decoded ts.client.platform_data payload 0))
        1 (zforce_decoded ts.client.platform_data payload 1) := by
  unfold zforce_touch_points
  rw [h]
  show (zforce_touch_decode payload (zforce_touch_decode payload (point, ts) 0) 1).1 = _
  rw [touch_decode_eq payload (zforce_touch_decode payload (point, ts) 0) 1,
    touch_decode_client, touch_decode_eq payload (point, ts) 0]

/-- Point `i` of the array after the first loop: decoded when `i` is below the count, as on
entry otherwise. -/
theorem touch_points_apply (ts : zforce_ts) (payload : List Nat) (point : Nat → zforce_point)
    (i : Nat) :
    zforce_touch_points ts payload point i =
      if i < zforce_touch_count payload then zforce_decoded ts.client.platform_data payload i
      else point i := by
  rcases touch_count_cases payload with h | h | h
  · rw [touch_points_zero ts payload point h, h]; simp
  · rw [touch_points_one ts payload point h, h]
    by_cases hi : i = 0
    · subst hi; simp
    · rw [Function.update_noteq hi, if_neg (by omega)]
  · rw [touch_points_two ts payload point h, h]
    by_cases h1 : i = 1
    · subst h1; simp
    · rw [Function.update_noteq h1]
      by_cases h0 : i = 0
      · subst h0; simp
      · rw [Function.update_noteq h0, if_neg (by omega)]

theorem touch_report_append (pts : Nat → zforce_point) (ev : List input_call) (i : Nat) :
    zforce_touch_report pts ev i = ev ++ zforce_touch_report pts [] i := by
  unfold zforce_touch_report
  dsimp only
  split_ifs <;> simp

theorem touch_report_fold (pts : Nat → zforce_point) (l : List Nat) :
    ∀ ev : List input_call,
      l.foldl (zforce_touch_report pts) ev =
        ev ++ l.flatMap (fun i => zforce_touch_report pts [] i) := by
  induction l with
  | nil => intro ev; simp
  | cons i l ih =>
    intro ev
    rw [List.foldl_cons, ih, touch_report_append pts ev i]
    simp

theorem touch_decode_fold_frame (payload : List Nat) (l : List Nat) :
    ∀ st : (Nat → zforce_point) × zforce_ts,
      ∃ R, (l.foldl (zforce_touch_decode payload) st).2 = { st.2 with reset := R } := by
  induction l with
  | nil => intro st; exact ⟨st.2.reset, rfl⟩
  | cons i l ih =>
    intro st
    obtain ⟨R, hR⟩ := ih (zforce_touch_decode payload st i)
    rw [List.foldl_cons, hR, touch_decode_eq]
    dsimp only
    split_ifs
    · exact ⟨R, rfl⟩
    · exact ⟨R, rfl⟩

theorem touch_event_eq (ts : zforce_ts) (payload : List Nat) (point : Nat → zforce_point) :
    zforce_touch_event ts payload point =
      (0, { ((List.range (zforce_touch_count payload)).foldl (zforce_touch_decode payload)
              (point, ts)).2 with
            input := { ts.input with
              events := ts.input.events ++
                (List.range (zforce_touch_count payload)).flatMap
                  (fun i => zforce_touch_report (zforce_touch_points ts payload point) [] i) ++
                zforce_touch_legacy ts.client.platform_data
                  (zforce_touch_points ts payload point 0) } }) := by
  obtain ⟨R, hR⟩ := touch_decode_fold_frame payload (List.range (zforce_touch_count payload))
    (point, ts)
  have h1 : zforce_touch_event ts payload point =
      (0, { ((List.range (zforce_touch_count payload)).foldl (zforce_touch_decode payload)
              (point, ts)).2 with
            input := { ((List.range (zforce_touch_count payload)).foldl
                (zforce_touch_decode payload) (point, ts)).2.input with
              events := (List.range (zforce_touch_count payload)).foldl
                  (zforce_touch_report (zforce_touch_points ts payload point))
                  ((List.range (zforce_touch_count payload)).foldl
                    (zforce_touch_decode payload) (point, ts)).2.input.events ++
                zforce_touch_legacy ((List.range (zforce_touch_count payload)).foldl
                    (zforce_touch_decode payload) (point, ts)).2.client.platform_data
                  (zforce_touch_points ts payload point 0) } }) := by
    unfold zforce_touch_event zforce_touch_legacy zforce_touch_points zforce_touch_count
    simp
  rw [h1, touch_report_fold, hR]


theorem touch_emitted_eq (ts : zforce_ts) (payload : List Nat) (point : Nat → zforce_point) :
    zforce_touch_emitted ts payload point =
      (List.range (zforce_touch_count payload)).flatMap
        (fun i => zforce_touch_report (zforce_touch_points ts payload point) [] i) ++
      zforce_touch_legacy ts.client.platform_data (zforce_touch_points ts payload point 0) := by
  unfold zforce_touch_emitted
  rw [touch_event_eq]
  simp

theorem touch_event_reset (ts : zforce_ts) (payload : List Nat) (point : Nat → zforce_point) :
    (zforce_touch_event ts payload point).2.reset =
      schedule_delayed_work^[((List.range (zforce_touch_count payload)).filter
        (zforce_out_of_range ts.client.platform_data payload)).length] ts.reset := by
  rw [touch_event_eq]
  dsimp only
  rcases touch_count_cases payload with h | h | h
  · rw [h]; rfl
  · rw [h]
    show (zforce_touch_decode payload (point, ts) 0).2.reset = _
    rw [touch_decode_eq]
    dsimp only
    by_cases hb : zforce_out_of_range ts.client.platform_data payload 0 = true
    · simp [List.range_succ, hb]
    · simp [List.range_succ, hb]
  · rw [h]
    show (zforce_touch_decode payload (zforce_touch_decode payload (point, ts) 0) 1).2.reset = _
    rw [touch_decode_eq payload (zforce_touch_decode payload (point, ts) 0) 1,
      touch_decode_client, touch_decode_eq payload (point, ts) 0]
    dsimp only
    by_cases hb : zforce_out_of_range ts.client.platform_data payload 0 = true <;>
      by_cases hc : zforce_out_of_range ts.client.platform_data payload 1 = true <;>
      simp [List.range_succ, hb, hc, List.filter]

theorem schedule_iterate (k : Nat) : ∀ r : delayed_work,
    (schedule_delayed_work^[k] r).requests = r.requests + k ∧
    (schedule_delayed_work^[k] r).pending = (r.pending || decide (0 < k)) ∧
    (schedule_delayed_work^[k] r).queued =
      r.queued + (if r.pending = false ∧ 0 < k then 1 else 0) := by
  induction k with
  | zero => intro r; simp
  | succ k ih =>
    intro r
    rw [Function.iterate_succ_apply]
    obtain ⟨h1, h2, h3⟩ := ih (schedule_delayed_work r)
    rw [h1, h2, h3]
    unfold schedule_delayed_work
    by_cases hp : r.pending = true
    · simp [hp]; omega
    · simp [hp]
      omega

/-! ## Lemmas: stop and the reports of the touch decoder -/

theorem stop_eq (ts : zforce_ts) (e : cmd_env) :
    zforce_stop ts e =
      if (zforce_stop_deactivate ts e).1 ≠ 0 then zforce_stop_deactivate ts e
      else (0, { (zforce_stop_deactivate ts e).2 with stopped := true }) := by
  rfl

theorem touch_report_eq (pts : Nat → zforce_point) (i : Nat) :
    zforce_touch_report pts [] i =
      if (pts i).state ≠ STATE_UP then
        [input_call.mt_slot ((pts i).id - 1), input_call.mt_report_slot_state true,
         input_call.report_abs abs_code.ABS_MT_POSITION_X (pts i).coord_x,
         input_call.report_abs abs_code.ABS_MT_POSITION_Y (pts i).coord_y,
         input_call.report_abs abs_code.ABS_MT_TOUCH_MAJOR (pts i).area_major,
         input_call.report_abs abs_code.ABS_MT_TOUCH_MINOR (pts i).area_minor,
         input_call.report_abs abs_code.ABS_MT_ORIENTATION (pts i).orientation]
      else
        [input_call.mt_slot ((pts i).id - 1), input_call.mt_report_slot_state false] := by
  unfold zforce_touch_report
  dsimp only
  split_ifs with h <;> simp [h]

theorem touch_report_slots (pts : Nat → zforce_point) (i : Nat) :
    ((zforce_touch_report pts [] i).filter input_call.is_mt_slot).length = 1 ∧
    ((zforce_touch_report pts [] i).filter input_call.is_slot_state).length = 1 := by
  rw [touch_report_eq]
  split_ifs <;> simp [List.filter, input_call.is_mt_slot, input_call.is_slot_state]

theorem touch_reports_slots (pts : Nat → zforce_point) (n : Nat) :
    (((List.range n).flatMap (fun i => zforce_touch_report pts [] i)).filter
      input_call.is_mt_slot).length = n ∧
    (((List.range n).flatMap (fun i => zforce_touch_report pts [] i)).filter
      input_call.is_slot_state).length = n := by
  induction n with
  | zero => simp
  | succ n ih =>
    rw [List.range_succ, List.flatMap_append, List.filter_append, List.filter_append,
      List.length_append, List.length_append, ih.1, ih.2]
    have h := touch_report_slots pts n
    simp only [List.flatMap_cons, List.flatMap_nil, List.append_nil]
    rw [h.1, h.2]
    exact ⟨rfl, rfl⟩

theorem decoded_coord_range (pdata : zforce_ts_platdata) (payload : List Nat) (i : Nat) :
    0 ≤ (zforce_decoded pdata payload i).coord_x ∧
    (zforce_decoded pdata payload i).coord_x ≤ (pdata.x_max : Int) ∧
    0 ≤ (zforce_decoded pdata payload i).coord_y ∧
    (zforce_decoded pdata payload i).coord_y ≤ (pdata.y_max : Int) := by
  obtain ⟨hx, hy⟩ := decoded_coord pdata payload i
  rw [hx, hy]
  by_cases hb : zforce_out_of_range pdata payload i = true
  · simp [hb]
  · have hb2 := hb
    unfold zforce_out_of_range at hb2
    simp only [decide_eq_true_eq, not_or, not_lt] at hb2
    simp only [hb, Bool.false_eq_true, if_false]
    omega

theorem touch_position_emitted (ts : zforce_ts) (payload : List Nat)
    (point : Nat → zforce_point) (c : abs_code) (v : Int)
    (hc : c = abs_code.ABS_MT_POSITION_X ∨ c = abs_code.ABS_MT_POSITION_Y)
    (h : input_call.report_abs c v ∈ zforce_touch_emitted ts payload point) :
    ∃ i, i < zforce_touch_count payload ∧
      (c = abs_code.ABS_MT_POSITION_X →
        v = (zforce_decoded ts.client.platform_data payload i).coord_x) ∧
      (c = abs_code.ABS_MT_POSITION_Y →
        v = (zforce_decoded ts.client.platform_data payload i).coord_y) := by
  rw [touch_emitted_eq, List.mem_append] at h
  rcases h with h | h
  · rw [List.mem_flatMap] at h
    obtain ⟨i, hi, hmem⟩ := h
    rw [List.mem_range] at hi
    refine ⟨i, hi, ?_⟩
    rw [touch_report_eq, touch_points_apply, if_pos hi] at hmem
    split_ifs at hmem
    · rcases hc with rfl | rfl <;> simp at hmem <;> simp [hmem]
    · simp at hmem
  · rcases hc with rfl | rfl <;> simp [zforce_touch_legacy] at h

theorem touch_point_coord (ts : zforce_ts) (payload : List Nat)
    (point : Nat → zforce_point) (i : Nat) (hi : i < zforce_touch_count payload) :
    (zforce_touch_points ts payload point i).coord_x =
      (if rd payload (9 * i + 1) + 256 * rd payload (9 * i + 2) ≤ ts.client.platform_data.x_max ∧
          rd payload (9 * i + 3) + 256 * rd payload (9 * i + 4) ≤ ts.client.platform_data.y_max
       then ((rd payload (9 * i + 1) + 256 * rd payload (9 * i + 2) : Nat) : Int) else 0) ∧
    (zforce_touch_points ts payload point i).coord_y =
      (if rd payload (9 * i + 1) + 256 * rd payload (9 * i + 2) ≤ ts.client.platform_data.x_max ∧
          rd payload (9 * i + 3) + 256 * rd payload (9 * i + 4) ≤ ts.client.platform_data.y_max
       then ((rd payload (9 * i + 3) + 256 * rd payload (9 * i + 4) : Nat) : Int) else 0) := by
  obtain ⟨hx, hy⟩ := decoded_coord ts.client.platform_data payload i
  refine ⟨?_, ?_⟩
  · rw [touch_points_apply, if_pos hi, hx]
    unfold zforce_out_of_range
    by_cases hb : rd payload (9 * i + 1) + 256 * rd payload (9 * i + 2) ≤
          ts.client.platform_data.x_max ∧
        rd payload (9 * i + 3) + 256 * rd payload (9 * i + 4) ≤ ts.client.platform_data.y_max
    · rw [if_pos hb, if_neg (by simp; omega)]
    · rw [if_neg hb, if_pos (by simp; omega)]
  · rw [touch_points_apply, if_pos hi, hy]
    unfold zforce_out_of_range
    by_cases hb : rd payload (9 * i + 1) + 256 * rd payload (9 * i + 2) ≤
          ts.client.platform_data.x_max ∧
        rd payload (9 * i + 3) + 256 * rd payload (9 * i + 4) ≤ ts.client.platform_data.y_max
    · rw [if_pos hb, if_neg (by simp; omega)]
    · rw [if_neg hb, if_pos (by simp; omega)]

theorem touch_report_bytes (ts : zforce_ts) (payload : List Nat)
    (point : Nat → zforce_point) (i : Nat) (hi : i < zforce_touch_count payload) :
    zforce_touch_report (zforce_touch_points ts payload point) [] i =
      (if rd payload (9 * i + 5) % 4 ≠ 2 then
        [input_call.mt_slot (((rd payload (9 * i + 5) / 4 : Nat) : Int) - 1),
         input_call.mt_report_slot_state true,
         input_call.report_abs abs_code.ABS_MT_POSITION_X
           (zforce_touch_points ts payload point i).coord_x,
         input_call.report_abs abs_code.ABS_MT_POSITION_Y
           (zforce_touch_points ts payload point i).coord_y,
         input_call.report_abs abs_code.ABS_MT_TOUCH_MAJOR
           ((max (rd payload (9 * i + 6)) (rd payload (9 * i + 7)) : Nat) : Int),
         input_call.report_abs abs_code.ABS_MT_TOUCH_MINOR
           ((min (rd payload (9 * i + 6)) (rd payload (9 * i + 7)) : Nat) : Int),
         input_call.report_abs abs_code.ABS_MT_ORIENTATION
           (if rd payload (9 * i + 6) > rd payload (9 * i + 7) then 1 else 0)]
       else
        [input_call.mt_slot (((rd payload (9 * i + 5) / 4 : Nat) : Int) - 1),
         input_call.mt_report_slot_state false]) := by
  have hd := decoded_rest ts.client.platform_data payload i
  have hp := touch_points_apply ts payload point i
  rw [if_pos hi] at hp
  rw [touch_report_eq, hp, hd.1, hd.2.1, hd.2.2.1, hd.2.2.2.1, hd.2.2.2.2]
  have hst : ((rd payload (9 * i + 5) % 4 : Nat) : Int) ≠ STATE_UP ↔
      rd payload (9 * i + 5) % 4 ≠ 2 := by
    unfold STATE_UP; omega
  by_cases h : rd payload (9 * i + 5) % 4 ≠ 2
  · rw [if_pos (hst.mpr h), if_pos h]
  · rw [if_neg (fun h2 => h (hst.mp h2)), if_neg h]

theorem touch_report_no_pressure (pts : Nat → zforce_point) (i : Nat) :
    (zforce_touch_report pts [] i).filterMap (input_call.abs_value abs_code.ABS_PRESSURE) = [] := by
  unfold zforce_touch_report
  dsimp only
  split_ifs <;> simp [List.filterMap, input_call.abs_value]

theorem touch_reports_no_pressure (pts : Nat → zforce_point) (n : Nat) :
    ((List.range n).flatMap (fun i => zforce_touch_report pts [] i)).filterMap
      (input_call.abs_value abs_code.ABS_PRESSURE) = [] := by
  induction n with
  | zero => simp
  | succ n ih =>
    rw [List.range_succ, List.flatMap_append, List.filterMap_append, ih]
    simp only [List.flatMap_cons, List.flatMap_nil, List.append_nil, List.nil_append]
    exact touch_report_no_pressure pts n

/-! ## Lemmas: failed sends, suspend and the normalised result -/

theorem send_wait_flags (ts : zforce_ts) (buf : List Nat) (len : Nat) (e : cmd_env) :
    (zforce_send_wait ts buf len e).2.suspended = ts.suspended ∧
    (zforce_send_wait ts buf len e).2.suspending = ts.suspending := by
  by_cases hm : ts.command_mutex = true
  · rw [send_wait_held _ _ _ _ hm]
    exact ⟨rfl, rfl⟩
  · rw [send_wait_free ts buf len e (by simpa using hm)]
    obtain ⟨k1, k2, k3, k4, k5, k6, k7, k8⟩ :=
      wait_keeps (send_wait_sent ts buf len e.send_ret) e.window
    split_ifs
    · exact ⟨rfl, rfl⟩
    · exact ⟨k4, k3⟩
    · exact ⟨k4, k3⟩

theorem command_wait_flags (ts : zforce_ts) (cmd : Nat) (e : cmd_env) :
    (zforce_command_wait ts cmd e).2.suspended = ts.suspended ∧
    (zforce_command_wait ts cmd e).2.suspending = ts.suspending := by
  rw [command_wait_eq]
  exact send_wait_flags ts _ 3 e

theorem start_error_flags (ts : zforce_ts) (ret : Int) (e : start_env) :
    (zforce_start_error ts ret e).2.suspended = ts.suspended ∧
    (zforce_start_error ts ret e).2.suspending = ts.suspending := by
  unfold zforce_start_error
  exact command_wait_flags ts COMMAND_DEACTIVATE e.deact

theorem start_flags (ts : zforce_ts) (e : start_env) :
    (zforce_start ts e).2.suspended = ts.suspended ∧
    (zforce_start ts e).2.suspending = ts.suspending := by
  have h1 : (zforce_start_init ts e).2.suspended = ts.suspended ∧
      (zforce_start_init ts e).2.suspending = ts.suspending :=
    command_wait_flags { ts with stopped := false } COMMAND_INITIALIZE e.init
  have h2 : (zforce_start_res ts e).2.suspended = ts.suspended ∧
      (zforce_start_res ts e).2.suspending = ts.suspending := by
    have h := send_wait_flags (zforce_start_init ts e).2
      (zforce_resolution_buf ts.client.platform_data.x_max ts.client.platform_data.y_max) 7 e.res
    exact ⟨h.1.trans h1.1, h.2.trans h1.2⟩
  have h3 : (zforce_start_scan ts e).2.suspended = ts.suspended ∧
      (zforce_start_scan ts e).2.suspending = ts.suspending := by
    have h := send_wait_flags (zforce_start_res ts e).2 (zforce_scan_frequency_buf 10 50 50) 9
      e.scan
    exact ⟨h.1.trans h2.1, h.2.trans h2.2⟩
  have h4 : (zforce_start_cfg ts e).2.suspended = ts.suspended ∧
      (zforce_start_cfg ts e).2.suspending = ts.suspending := by
    have h := send_wait_flags (zforce_start_scan ts e).2 (zforce_setconfig_buf 0) 7 e.cfg
    exact ⟨h.1.trans h3.1, h.2.trans h3.2⟩
  have h5 : (zforce_start_datareq ts e).2.suspended = ts.suspended ∧
      (zforce_start_datareq ts e).2.suspending = ts.suspending := by
    unfold zforce_start_datareq
    rw [(zforce_command_state _ _ _).2]
    exact h4
  rw [zforce_start_eq]
  split_ifs
  · exact h1
  · exact ⟨(start_error_flags _ _ e).1.trans h2.1, (start_error_flags _ _ e).2.trans h2.2⟩
  · exact ⟨(start_error_flags _ _ e).1.trans h3.1, (start_error_flags _ _ e).2.trans h3.2⟩
  · exact ⟨(start_error_flags _ _ e).1.trans h4.1, (start_error_flags _ _ e).2.trans h4.2⟩
  · exact ⟨(start_error_flags _ _ e).1.trans h5.1, (start_error_flags _ _ e).2.trans h5.2⟩
  · exact h5

theorem stop_flags (ts : zforce_ts) (e : cmd_env) :
    (zforce_stop ts e).2.suspended = ts.suspended ∧
    (zforce_stop ts e).2.suspending = ts.suspending := by
  have h : (zforce_stop_deactivate ts e).2.suspended = ts.suspended ∧
      (zforce_stop_deactivate ts e).2.suspending = ts.suspending :=
    command_wait_flags { ts with check := cancel_delayed_work_sync ts.check }
      COMMAND_DEACTIVATE e
  rw [stop_eq]
  split_ifs
  · exact h
  · exact h

theorem zforce_suspend_eq (ts : zforce_ts) (e : suspend_env) :
    zforce_suspend ts e =
      if e.gpio_int = 0 then (- EBUSY, ts, [])
      else if wakeup_source ts = true then
        if ts.input.users = 0 then
          if (zforce_start (zforce_suspend_entry ts) e.start).1 ≠ 0 then
            ((zforce_start (zforce_suspend_entry ts) e.start).1,
             { (zforce_start (zforce_suspend_entry ts) e.start).2 with suspending := false }, [])
          else
            (0, { (zforce_start (zforce_suspend_entry ts) e.start).2 with
                    suspended := true, suspending := false }, [irq_call.enable_irq_wake])
        else
          (0, { zforce_suspend_entry ts with suspended := true, suspending := false },
            [irq_call.enable_irq_wake])
      else if ts.input.users ≠ 0 then
        if (zforce_stop (zforce_suspend_entry ts) e.stop).1 ≠ 0 then
          ((zforce_stop (zforce_suspend_entry ts) e.stop).1,
           { (zforce_stop (zforce_suspend_entry ts) e.stop).2 with suspending := false }, [])
        else
          (0, { (zforce_stop (zforce_suspend_entry ts) e.stop).2 with
                  suspended := true, suspending := false }, [irq_call.disable_irq])
      else (0, { zforce_suspend_entry ts with suspended := true, suspending := false }, []) := by
  unfold zforce_suspend zforce_suspend_entry wakeup_source
  by_cases hg : e.gpio_int = 0
  · rw [if_pos hg, if_pos hg]
  · rw [if_neg hg, if_neg hg]
    dsimp only
    by_cases hu : ts.input.users = 0
    · simp only [if_neg (not_not.mpr hu), if_pos hu]
    · simp only [if_pos hu, if_neg hu]

theorem read_packet_length (ts : zforce_ts) (buf : List Nat) (hdr body : i2c_rx) :
    (zforce_read_packet ts buf hdr body).2.2.length = buf.length := by
  unfold zforce_read_packet i2c_master_recv
  cases hdr <;> cases body <;> dsimp only <;> split_ifs <;> simp [buf_write_length]

theorem read_packet_bus_only (ts : zforce_ts) (buf : List Nat) (hdr body : i2c_rx) :
    bus_only ts (zforce_read_packet ts buf hdr body).2.1 := by
  unfold bus_only zforce_read_packet i2c_master_recv
  cases hdr <;> cases body <;> dsimp only <;> split_ifs <;> rfl

theorem read_packet_rejected (ts : zforce_ts) (buf : List Nat) (s : irq_step)
    (hbuf : 2 ≤ buf.length) (h : s.rejected) :
    (zforce_read_packet ts buf s.hdr s.body).1 < 0 := by
  obtain ⟨_, h | h | h | h⟩ := h
  · obtain ⟨e, he, hh⟩ := h
    rw [hh]
    unfold zforce_read_packet i2c_master_recv
    dsimp only
    rw [if_pos he]
    exact he
  · obtain ⟨b0, b1, tl, hh, hne⟩ := h
    rw [hh]
    unfold zforce_read_packet i2c_master_recv
    simp only [List.take, PAYLOAD_HEADER, rd_header0 buf _ _ hbuf]
    rw [if_neg (by norm_num), if_pos hne]
    show - EIO < 0
    decide
  · obtain ⟨b0, b1, tl, hh, hz⟩ := h
    rw [hh]
    unfold zforce_read_packet i2c_master_recv
    simp only [List.take, PAYLOAD_HEADER, PAYLOAD_LENGTH, rd_header0 buf _ _ hbuf,
      rd_header1 buf _ _ hbuf]
    rw [if_neg (by norm_num)]
    split_ifs
    · show - EIO < 0
      decide
    · show - EIO < 0
      decide
    · omega
  · obtain ⟨b1, tl, e, hh, h1, he, hb⟩ := h
    rw [hh, hb]
    have hlt : b1 % 256 < 256 := Nat.mod_lt _ (by norm_num)
    unfold zforce_read_packet i2c_master_recv
    simp only [List.take, PAYLOAD_HEADER, PAYLOAD_LENGTH, rd_header0 buf _ _ hbuf,
      rd_header1 buf _ _ hbuf]
    rw [if_neg (by norm_num), if_neg (by simp [FRAME_START]), if_neg (by omega)]
    exact he

theorem read_packet_accepted (ts : zforce_ts) (buf : List Nat) (s : irq_step)
    (hbuf : 2 ≤ buf.length) (h : s.accepted) :
    ¬ (zforce_read_packet ts buf s.hdr s.body).1 < 0 := by
  obtain ⟨_, b1, tl, body, hh, h1, hb⟩ := h
  rw [hh, hb, zforce_read_packet_accept ts buf b1 tl body hbuf h1]
  dsimp only
  omega

theorem irq_loop_nil (ts : zforce_ts) (buf : List Nat) :
    zforce_irq_loop ts buf [] = (ts, buf) := rfl

theorem irq_loop_deasserted (ts : zforce_ts) (buf : List Nat) (s : irq_step)
    (rest : List irq_step) (h : s.gpio_int ≠ 0) :
    zforce_irq_loop ts buf (s :: rest) = (ts, buf) := by
  rw [zforce_irq_loop, if_pos h]

theorem irq_loop_failed (ts : zforce_ts) (buf : List Nat) (s : irq_step)
    (rest : List irq_step) (hline : s.gpio_int = 0)
    (h : (zforce_read_packet ts buf s.hdr s.body).1 < 0) :
    zforce_irq_loop ts buf (s :: rest) = (zforce_read_packet ts buf s.hdr s.body).2 := by
  rw [zforce_irq_loop, if_neg (by simp [hline])]
  dsimp only
  rw [if_pos h]

theorem irq_loop_read (ts : zforce_ts) (buf : List Nat) (s : irq_step)
    (rest : List irq_step) (hline : s.gpio_int = 0)
    (h : ¬ (zforce_read_packet ts buf s.hdr s.body).1 < 0) :
    zforce_irq_loop ts buf (s :: rest) =
      zforce_irq_loop (irq_read_dispatch (ts, buf) s).1 (irq_read_dispatch (ts, buf) s).2 rest := by
  rw [zforce_irq_loop, if_neg (by simp [hline])]
  dsimp only
  rw [if_neg h]
  rfl

theorem irq_loop_accepted (good : List irq_step) (tail : List irq_step)
    (hgood : ∀ s ∈ good, s.accepted) :
    ∀ (ts : zforce_ts) (buf : List Nat), 2 ≤ buf.length →
      zforce_irq_loop ts buf (good ++ tail) =
        zforce_irq_loop (good.foldl irq_read_dispatch (ts, buf)).1
          (good.foldl irq_read_dispatch (ts, buf)).2 tail ∧
      (good.foldl irq_read_dispatch (ts, buf)).2.length = buf.length := by
  induction good with
  | nil => intro ts buf _; exact ⟨rfl, rfl⟩
  | cons s good ih =>
    intro ts buf hbuf
    have hs := hgood s (List.mem_cons_self _ _)
    have hlen : (irq_read_dispatch (ts, buf) s).2.length = buf.length :=
      read_packet_length ts buf s.hdr s.body
    have h := ih (fun t ht => hgood t (List.mem_cons_of_mem _ ht))
      (irq_read_dispatch (ts, buf) s).1 (irq_read_dispatch (ts, buf) s).2 (by rw [hlen]; exact hbuf)
    rw [List.cons_append, irq_loop_read ts buf s _ hs.1 (read_packet_accepted ts buf s hbuf hs),
      List.foldl_cons]
    exact ⟨h.1, h.2.trans hlen⟩

theorem zforce_irq_thread_eq (ts : zforce_ts) (buf : List Nat) (steps : List irq_step) :
    zforce_irq_thread ts buf steps =
      if ts.suspended then ts
      else irq_pm (zforce_irq_loop (irq_pm ts pm_call.stay_awake) buf steps).1 pm_call.relax := by
  rfl

theorem step_ack_accepted (id data : Nat) : (step_ack id data).accepted :=
  ⟨rfl, 2, [], [id, data], rfl, by decide, rfl⟩

theorem step_bad_marker_rejected : step_bad_marker.rejected :=
  ⟨rfl, Or.inr (Or.inl ⟨0, 2, [], rfl, by decide⟩)⟩

/-! ## Lemmas: the bytes a dispatch reads -/

theorem rd_drop (p : List Nat) (k i : Nat) : rd (p.drop k) i = rd p (k + i) := by
  unfold rd
  simp [List.getD_eq_getElem?_getD, List.getElem?_drop]

theorem rd_take (p : List Nat) (n i : Nat) (h : i < n) : rd (p.take n) i = rd p i := by
  unfold rd
  simp [List.getD_eq_getElem?_getD, List.getElem?_take, h]

theorem rd_map_mod (p : List Nat) (i : Nat) : rd (p.map (fun b => b % 256)) i = rd p i := by
  unfold rd
  simp only [List.getD_eq_getElem?_getD, List.getElem?_map]
  cases p[i]? <;> simp

theorem rd_agree_symm {p q : List Nat} {n : Nat} (h : rd_agree p q n) : rd_agree q p n :=
  fun i hi => (h i hi).symm

theorem rd_agree_trans {p q r : List Nat} {n : Nat} (h1 : rd_agree p q n) (h2 : rd_agree q r n) :
    rd_agree p r n :=
  fun i hi => (h1 i hi).trans (h2 i hi)

theorem rd_agree_mono {p q : List Nat} {n m : Nat} (h : rd_agree p q n) (hm : m ≤ n) :
    rd_agree p q m :=
  fun i hi => h i (by omega)

theorem rd_agree_drop {p q : List Nat} {n : Nat} (k : Nat) (h : rd_agree p q (k + n)) :
    rd_agree (p.drop k) (q.drop k) n := by
  intro i hi
  rw [rd_drop, rd_drop]
  exact h (k + i) (by omega)

theorem touch_decode_congr (p q : List Nat) (st : (Nat → zforce_point) × zforce_ts) (i : Nat)
    (h : rd_agree p q (9 * i + 10)) :
    zforce_touch_decode p st i = zforce_touch_decode q st i := by
  unfold zforce_touch_decode
  rw [h (9 * i + 1) (by omega), h (9 * i + 2) (by omega), h (9 * i + 3) (by omega),
    h (9 * i + 4) (by omega), h (9 * i + 5) (by omega), h (9 * i + 6) (by omega),
    h (9 * i + 7) (by omega), h (9 * i + 8) (by omega), h (9 * i + 9) (by omega)]

theorem touch_decode_fold_congr (p q : List Nat) (l : List Nat)
    (h : ∀ i ∈ l, rd_agree p q (9 * i + 10)) :
    ∀ st : (Nat → zforce_point) × zforce_ts,
      l.foldl (zforce_touch_decode p) st = l.foldl (zforce_touch_decode q) st := by
  induction l with
  | nil => intro st; rfl
  | cons i l ih =>
    intro st
    rw [List.foldl_cons, List.foldl_cons,
      touch_decode_congr p q st i (h i (List.mem_cons_self _ _))]
    exact ih (fun j hj => h j (List.mem_cons_of_mem _ hj)) _

theorem touch_count_congr (p q : List Nat) (h : rd p 0 = rd q 0) :
    zforce_touch_count p = zforce_touch_count q := by
  unfold zforce_touch_count
  rw [h]

theorem touch_event_congr (ts : zforce_ts) (p q : List Nat) (point : Nat → zforce_point)
    (h : rd_agree p q (1 + 9 * zforce_touch_count p)) :
    zforce_touch_event ts p point = zforce_touch_event ts q point := by
  have h0 : rd p 0 = rd q 0 := h 0 (by omega)
  have hc := touch_count_congr p q h0
  have hf := touch_decode_fold_congr p q (List.range (zforce_touch_count p))
    (by
      intro i hi
      rw [List.mem_range] at hi
      exact rd_agree_mono h (by omega)) (point, ts)
  have hp : zforce_touch_points ts p point = zforce_touch_points ts q point := by
    unfold zforce_touch_points
    rw [← hc, hf]
  rw [touch_event_eq, touch_event_eq, ← hp, ← hc, hf]

theorem body_needed_pos (p : List Nat) : 1 ≤ zforce_body_needed p := by
  unfold zforce_body_needed
  split_ifs <;> omega

theorem body_needed_congr (p q : List Nat) (n : Nat) (h : rd_agree p q n)
    (hn : zforce_body_needed p ≤ n) : zforce_body_needed q = zforce_body_needed p := by
  have h0 : rd p 0 = rd q 0 := h 0 (by have := body_needed_pos p; omega)
  unfold zforce_body_needed at hn ⊢
  simp only [RESPONSE_ID, RESPONSE_DATA] at hn ⊢
  simp only [← h0]
  by_cases ht : rd p 0 = NOTIFICATION_TOUCH
  · rw [if_pos ht] at hn
    simp only [if_pos ht]
    have h1 : rd p 1 = rd q 1 := h 1 (by omega)
    rw [touch_count_congr (q.drop 1) (p.drop 1) (by rw [rd_drop, rd_drop]; exact h1.symm)]
  · simp only [if_neg ht]

theorem irq_dispatch_congr (ts : zforce_ts) (f g : irq_frame) (hpoint : f.point = g.point)
    (h : rd_agree (f.payload_buffer.drop PAYLOAD_BODY) (g.payload_buffer.drop PAYLOAD_BODY)
      (zforce_body_needed (f.payload_buffer.drop PAYLOAD_BODY))) :
    zforce_irq_dispatch ts f = zforce_irq_dispatch ts g := by
  have h0 : rd (f.payload_buffer.drop PAYLOAD_BODY) 0 = rd (g.payload_buffer.drop PAYLOAD_BODY) 0 :=
    h 0 (by have := body_needed_pos (f.payload_buffer.drop PAYLOAD_BODY); omega)
  unfold zforce_irq_dispatch
  unfold zforce_body_needed at h
  simp only [RESPONSE_ID, RESPONSE_DATA] at h ⊢
  rw [← hpoint]
  generalize f.payload_buffer.drop PAYLOAD_BODY = p at h h0 ⊢
  generalize g.payload_buffer.drop PAYLOAD_BODY = q at h h0 ⊢
  simp only [← h0]
  by_cases ht : rd p 0 = NOTIFICATION_TOUCH
  · rw [if_pos ht] at h
    simp only [if_pos ht]
    have hq : rd_agree (p.drop 1) (q.drop 1) (1 + 9 * zforce_touch_count (p.drop 1)) :=
      rd_agree_drop 1 (rd_agree_mono h (by omega))
    rw [touch_event_congr _ (p.drop 1) (q.drop 1) f.point hq]
  · rw [if_neg ht] at h
    simp only [if_neg ht]
    by_cases hb : rd p 0 = NOTIFICATION_BOOTCOMPLETE
    · rw [if_pos (Or.inl hb)] at h
      simp only [if_pos hb]
      have e1 : rd p 1 = rd q 1 := h 1 (by omega)
      simp only [e1]
    · simp only [if_neg hb]
      by_cases ha : plain_ack (rd p 0)
      · rw [if_pos (Or.inr (Or.inl ha))] at h
        have ha2 := ha
        unfold plain_ack at ha2
        simp only [if_pos ha2]
        have e1 : rd p 1 = rd q 1 := h 1 (by omega)
        simp only [e1]
      · have ha2 := ha
        unfold plain_ack at ha2
        simp only [if_neg ha2]
        by_cases hs : rd p 0 = RESPONSE_STATUS
        · have hi : ¬ rd p 0 = NOTIFICATION_INVALID_COMMAND := by
            rw [hs]; decide
          rw [if_neg (by tauto), if_pos hs] at h
          simp only [if_pos hs]
          have e1 : rd p 1 = rd q 1 := h 1 (by omega)
          have e2 : rd p (1 + 1) = rd q (1 + 1) := h (1 + 1) (by omega)
          have e3 : rd p (1 + 2) = rd q (1 + 2) := h (1 + 2) (by omega)
          have e4 : rd p (1 + 3) = rd q (1 + 3) := h (1 + 3) (by omega)
          have e5 : rd p (1 + 4) = rd q (1 + 4) := h (1 + 4) (by omega)
          have e6 : rd p (1 + 5) = rd q (1 + 5) := h (1 + 5) (by omega)
          have e7 : rd p (1 + 6) = rd q (1 + 6) := h (1 + 6) (by omega)
          have e8 : rd p (1 + 7) = rd q (1 + 7) := h (1 + 7) (by omega)
          have e9 : rd p (1 + 8) = rd q (1 + 8) := h (1 + 8) (by omega)
          simp only [e1, e2, e3, e4, e5, e6, e7, e8, e9]
        · simp only [if_neg hs]

theorem irq_dispatch_err_congr (f g : irq_frame)
    (h : rd_agree (f.payload_buffer.drop PAYLOAD_BODY) (g.payload_buffer.drop PAYLOAD_BODY)
      (zforce_body_needed (f.payload_buffer.drop PAYLOAD_BODY))) :
    zforce_irq_dispatch_err f = zforce_irq_dispatch_err g := by
  have h0 : rd (f.payload_buffer.drop PAYLOAD_BODY) 0 = rd (g.payload_buffer.drop PAYLOAD_BODY) 0 :=
    h 0 (by have := body_needed_pos (f.payload_buffer.drop PAYLOAD_BODY); omega)
  unfold zforce_irq_dispatch_err
  unfold zforce_body_needed at h
  simp only [RESPONSE_ID, RESPONSE_DATA] at h ⊢
  generalize f.payload_buffer.drop PAYLOAD_BODY = p at h h0 ⊢
  generalize g.payload_buffer.drop PAYLOAD_BODY = q at h h0 ⊢
  simp only [← h0]
  by_cases hi : rd p 0 = NOTIFICATION_INVALID_COMMAND
  · have ht : ¬ rd p 0 = NOTIFICATION_TOUCH := by rw [hi]; decide
    rw [if_neg ht, if_pos (Or.inr (Or.inr hi))] at h
    have e1 : rd p 1 = rd q 1 := h 1 (by omega)
    simp only [e1]
  · simp only [if_neg hi]

theorem read_packet_payload (ts : zforce_ts) (buf : List Nat) (b1 : Nat) (tl body : List Nat)
    (h1 : 1 ≤ b1 % 256) (hlen : 2 + b1 % 256 ≤ buf.length) (hbody : b1 % 256 ≤ body.length) :
    rd_agree ((zforce_read_packet ts buf (i2c_rx.data (FRAME_START :: b1 :: tl))
      (i2c_rx.data body)).2.2.drop PAYLOAD_BODY) body (b1 % 256) := by
  rw [zforce_read_packet_accept ts buf b1 tl body (by omega) h1]
  dsimp only
  have hl : (body.take (b1 % 256)).length = b1 % 256 := by
    rw [List.length_take]; exact Nat.min_eq_left hbody
  have h := buf_write_drop_take (buf_write buf 0 [FRAME_START, b1]) PAYLOAD_BODY
    (body.take (b1 % 256)) (by rw [buf_write_length, hl]; unfold PAYLOAD_BODY; omega)
  rw [hl] at h
  intro i hi
  rw [← rd_take _ (b1 % 256) i hi, h, rd_map_mod, rd_take _ _ _ hi]

theorem touch_legacy_no_slot (pdata : zforce_ts_platdata) (p : zforce_point) (s : Int) :
    input_call.mt_slot s ∉ zforce_touch_legacy pdata p := by
  simp [zforce_touch_legacy]

theorem touch_emitted_determined (ts ts2 : zforce_ts) (payload : List Nat)
    (point point2 : Nat → zforce_point)
    (hp : ts.client.platform_data = ts2.client.platform_data) (hc : 1 ≤ rd payload 0) :
    zforce_touch_emitted ts payload point = zforce_touch_emitted ts2 payload point2 := by
  have h0 : zforce_touch_points ts payload point 0 = zforce_touch_points ts2 payload point2 0 := by
    rw [touch_points_apply, touch_points_apply, hp]
    rw [if_pos (by rw [touch_count_eq]; omega), if_pos (by rw [touch_count_eq]; omega)]
  have hi : ∀ i, i < zforce_touch_count payload →
      zforce_touch_report (zforce_touch_points ts payload point) [] i =
        zforce_touch_report (zforce_touch_points ts2 payload point2) [] i := by
    intro i hi
    rw [touch_report_eq, touch_report_eq]
    simp only [touch_points_apply, hp, if_pos hi]
  rw [touch_emitted_eq, touch_emitted_eq, h0, hp]
  rcases touch_count_cases payload with h | h | h
  · rw [touch_count_eq] at h; omega
  · rw [h] at hi ⊢
    have hr1 : List.range 1 = [0] := rfl
    rw [hr1]
    simp only [List.flatMap_cons, List.flatMap_nil, List.append_nil]
    rw [hi 0 (by omega)]
  · rw [h] at hi ⊢
    have hr2 : List.range 2 = [0, 1] := rfl
    rw [hr2]
    simp only [List.flatMap_cons, List.flatMap_nil, List.append_nil]
    rw [hi 0 (by omega), hi 1 (by omega)]

/-! ## Lemmas: the frame layout and the state after a touch frame -/

theorem map_mod_id (l : List Nat) (h : ∀ b ∈ l, b < 256) : l.map (fun b => b % 256) = l := by
  induction l with
  | nil => rfl
  | cons a l ih =>
    rw [List.map_cons, ih (fun b hb => h b (List.mem_cons_of_mem _ hb)),
      Nat.mod_eq_of_lt (h a (List.mem_cons_self _ _))]

theorem read_back_encode (ts : zforce_ts) (buf : List Nat) (opcode : Nat) (payload : List Nat)
    (hbuf : buf.length = 512) (hop : opcode < 256) (hpay : ∀ b ∈ payload, b < 256)
    (hlen : payload.length < 255) :
    frame_read_back ts buf (frame_encode opcode payload) =
      (((1 + payload.length : Nat) : Int), opcode :: payload) := by
  have hm : (1 + payload.length) % 256 = 1 + payload.length := Nat.mod_eq_of_lt (by omega)
  unfold frame_read_back frame_encode
  simp only [List.take, List.drop, List.length_cons]
  rw [zforce_read_packet_accept ts buf (1 + payload.length) [] (opcode :: payload) (by omega)
    (by omega), hm]
  have ht : (opcode :: payload).take (1 + payload.length) = opcode :: payload :=
    List.take_of_length_le (by simp; omega)
  have h := buf_write_drop_take (buf_write buf 0 [FRAME_START, 1 + payload.length]) PAYLOAD_BODY
    (opcode :: payload) (by rw [buf_write_length, hbuf]; simp [PAYLOAD_BODY]; omega)
  rw [map_mod_id _ (by
    intro b hb
    rcases List.mem_cons.mp hb with rfl | hb
    · exact hop
    · exact hpay b hb)] at h
  rw [ht]
  dsimp only
  have hl : payload.length + 1 + 1 + 1 - 2 = (opcode :: payload).length := by simp
  rw [hl, h]

theorem setconfig_buf_eq (b1 : Nat) :
    zforce_setconfig_buf b1 = [0xee, 5, 0x03, b1 % 256, 0, 0, 0] := rfl

theorem scan_frequency_buf_args (idle finger stylus : Nat) :
    zforce_scan_frequency_buf idle finger stylus =
      [0xee, 7, 0x08, idle % 256, idle / 256 % 256, finger % 256, finger / 256 % 256,
       stylus % 256, stylus / 256 % 256] := by
  simp [zforce_scan_frequency_buf, u16_lo, u16_hi, FRAME_START, COMMAND_SCANFREQ]

theorem touch_reports_decoded (ts : zforce_ts) (payload : List Nat)
    (point : Nat → zforce_point) :
    (List.range (zforce_touch_count payload)).flatMap
        (fun i => zforce_touch_report (zforce_touch_points ts payload point) [] i) =
      (List.range (zforce_touch_count payload)).flatMap
        (fun i => zforce_touch_report (zforce_decoded ts.client.platform_data payload) [] i) := by
  have hi : ∀ i, i < zforce_touch_count payload →
      zforce_touch_report (zforce_touch_points ts payload point) [] i =
        zforce_touch_report (zforce_decoded ts.client.platform_data payload) [] i := by
    intro i hi
    rw [touch_report_eq, touch_report_eq]
    simp only [touch_points_apply, if_pos hi]
  rcases touch_count_cases payload with h | h | h
  · rw [h]; rfl
  · rw [h] at hi ⊢
    have hr1 : List.range 1 = [0] := rfl
    rw [hr1]
    simp only [List.flatMap_cons, List.flatMap_nil, List.append_nil]
    rw [hi 0 (by omega)]
  · rw [h] at hi ⊢
    have hr2 : List.range 2 = [0, 1] := rfl
    rw [hr2]
    simp only [List.flatMap_cons, List.flatMap_nil, List.append_nil]
    rw [hi 0 (by omega), hi 1 (by omega)]

theorem touch_event_state (ts : zforce_ts) (payload : List Nat) (point : Nat → zforce_point) :
    zforce_touch_event ts payload point =
      (0, { ts with
        reset := schedule_delayed_work^[((List.range (zforce_touch_count payload)).filter
          (zforce_out_of_range ts.client.platform_data payload)).length] ts.reset
        input := { ts.input with
          events := ts.input.events ++
            (List.range (zforce_touch_count payload)).flatMap
              (fun i => zforce_touch_report
                (zforce_decoded ts.client.platform_data payload) [] i) ++
            zforce_touch_legacy ts.client.platform_data
              (if 0 < zforce_touch_count payload then
                 zforce_decoded ts.client.platform_data payload 0
               else point 0) } }) := by
  obtain ⟨R, hR⟩ := touch_decode_fold_frame payload (List.range (zforce_touch_count payload))
    (point, ts)
  have hreset := touch_event_reset ts payload point
  rw [touch_event_eq] at hreset ⊢
  rw [hR] at hreset ⊢
  dsimp only at hreset
  rw [touch_reports_decoded, touch_points_apply, ← hreset]

/-! ## Theorems -/

/-- Claim C1 (round trip of the frame codec). For every opcode handed to
`zforce_command_wait`, every x and y handed to `zforce_resolution`, every idle, finger and
stylus handed to `zforce_scan_frequency` and every b1 handed to `zforce_setconfig`, the frame
built is the start marker, the length byte 1 + payload length, the opcode and the payload
made of the arguments (16-bit values low byte first); and when the header read delivers the
first 2 bytes and the body read the remaining ones, `zforce_read_packet` returns the length
byte and the 512 byte buffer holds, from offset 2 on, exactly the opcode followed by those
payload bytes. The same round trip holds for every frame of that layout with at most 254
payload bytes, whose length byte is the frame size minus 2. -/
theorem frame_codec_roundtrip (cmd x y idle finger stylus b1 : Nat) (ts : zforce_ts)
    (buf : List Nat) (hbuf : buf.length = 512) :
    (zforce_command_wait_buf cmd = frame_encode (cmd % 256) [] ∧
     frame_read_back ts buf (zforce_command_wait_buf cmd) = (1, [cmd % 256])) ∧
    (zforce_resolution_buf x y =
       frame_encode COMMAND_RESOLUTION [x % 256, x / 256 % 256, y % 256, y / 256 % 256] ∧
     frame_read_back ts buf (zforce_resolution_buf x y) =
       (5, [COMMAND_RESOLUTION, x % 256, x / 256 % 256, y % 256, y / 256 % 256])) ∧
    (zforce_scan_frequency_buf idle finger stylus =
       frame_encode COMMAND_SCANFREQ [idle % 256, idle / 256 % 256, finger % 256,
         finger / 256 % 256, stylus % 256, stylus / 256 % 256] ∧
     frame_read_back ts buf (zforce_scan_frequency_buf idle finger stylus) =
       (7, [COMMAND_SCANFREQ, idle % 256, idle / 256 % 256, finger % 256,
         finger / 256 % 256, stylus % 256, stylus / 256 % 256])) ∧
    (zforce_setconfig_buf b1 = frame_encode COMMAND_SETCONFIG [b1 % 256, 0, 0, 0] ∧
     frame_read_back ts buf (zforce_setconfig_buf b1) =
       (5, [COMMAND_SETCONFIG, b1 % 256, 0, 0, 0])) ∧
    (∀ (opcode : Nat) (payload : List Nat), opcode < 256 → (∀ b ∈ payload, b < 256) →
      payload.length < 255 →
      (frame_encode opcode payload).getD PAYLOAD_LENGTH 0 =
        (frame_encode opcode payload).length - 2 ∧
      frame_read_back ts buf (frame_encode opcode payload) =
        (((1 + payload.length : Nat) : Int), opcode :: payload)) := by
  have hx := Nat.mod_lt x (by norm_num : 0 < 256)
  have hx2 := Nat.mod_lt (x / 256) (by norm_num : 0 < 256)
  have hy := Nat.mod_lt y (by norm_num : 0 < 256)
  have hy2 := Nat.mod_lt (y / 256) (by norm_num : 0 < 256)
  have hi := Nat.mod_lt idle (by norm_num : 0 < 256)
  have hi2 := Nat.mod_lt (idle / 256) (by norm_num : 0 < 256)
  have hf := Nat.mod_lt finger (by norm_num : 0 < 256)
  have hf2 := Nat.mod_lt (finger / 256) (by norm_num : 0 < 256)
  have hs := Nat.mod_lt stylus (by norm_num : 0 < 256)
  have hs2 := Nat.mod_lt (stylus / 256) (by norm_num : 0 < 256)
  have hb := Nat.mod_lt b1 (by norm_num : 0 < 256)
  have hc := Nat.mod_lt cmd (by norm_num : 0 < 256)
  have e1 : zforce_command_wait_buf cmd = frame_encode (cmd % 256) [] := rfl
  have e2 : zforce_resolution_buf x y =
      frame_encode COMMAND_RESOLUTION [x % 256, x / 256 % 256, y % 256, y / 256 % 256] := by
    rw [resolution_buf_eq]; rfl
  have e3 : zforce_scan_frequency_buf idle finger stylus =
      frame_encode COMMAND_SCANFREQ [idle % 256, idle / 256 % 256, finger % 256,
        finger / 256 % 256, stylus % 256, stylus / 256 % 256] := by
    rw [scan_frequency_buf_args]; rfl
  have e4 : zforce_setconfig_buf b1 = frame_encode COMMAND_SETCONFIG [b1 % 256, 0, 0, 0] := rfl
  refine ⟨⟨e1, ?_⟩, ⟨e2, ?_⟩, ⟨e3, ?_⟩, ⟨e4, ?_⟩, ?_⟩
  · rw [e1, read_back_encode ts buf _ _ hbuf hc (by simp) (by simp)]
    rfl
  · rw [e2, read_back_encode ts buf _ _ hbuf (by decide)
      (by intro b hb; simp at hb; omega) (by simp)]
    rfl
  · rw [e3, read_back_encode ts buf _ _ hbuf (by decide)
      (by intro b hb; simp at hb; omega) (by simp)]
    rfl
  · rw [e4, read_back_encode ts buf _ _ hbuf (by decide)
      (by intro b hb; simp at hb; omega) (by simp)]
    rfl
  · intro opcode payload hop hpay hlen
    refine ⟨?_, read_back_encode ts buf opcode payload hbuf hop hpay hlen⟩
    simp [frame_encode, PAYLOAD_LENGTH]
    omega

/-- Witness of C1: the Resolution frame for a 758 x 1024 panel and the SetConfig frame for
b1 = 9, read back into a zeroed buffer. -/
theorem frame_codec_roundtrip_witness :
    (List.replicate 512 0).length = 512 ∧
    zforce_resolution_buf 758 1024 = [0xee, 5, 0x02, 246, 2, 0, 4] ∧
    frame_read_back (zforce_probe_state example_pdata) (List.replicate 512 0)
      (zforce_resolution_buf 758 1024) = (5, [0x02, 246, 2, 0, 4]) ∧
    frame_read_back (zforce_probe_state example_pdata) (List.replicate 512 0)
      (zforce_setconfig_buf 9) = (5, [0x03, 9, 0, 0, 0]) :=
  ⟨List.length_replicate 512 0, by decide,
   (frame_codec_roundtrip 0 758 1024 0 0 0 9 (zforce_probe_state example_pdata)
      (List.replicate 512 0) (List.length_replicate 512 0)).2.1.2,
   (frame_codec_roundtrip 0 758 1024 0 0 0 9 (zforce_probe_state example_pdata)
      (List.replicate 512 0) (List.length_replicate 512 0)).2.2.2.1.2⟩

/-- Claim C2 (header validation of `zforce_read_packet`). After a header read that delivered
the bytes b0, b1: the body read is issued (the header is accepted) if and only if b0 is 0xEE
and b1 is in 1..255, and it then asks for exactly b1 bytes; for every other header the
function returns the negative error -EIO after the header read alone, the bus log showing no
body read and the buffer holding nothing but the two header bytes. -/
theorem read_packet_header_validation (ts : zforce_ts) (buf : List Nat) (b0 b1 : Nat)
    (tl : List Nat) (body : i2c_rx)
    (hbuf : buf.length = 512) (hb0 : b0 < 256) (hb1 : b1 < 256) :
    ((b0 = 0xee ∧ 1 ≤ b1 ∧ b1 ≤ 255) ↔
      ∃ ret, (zforce_read_packet ts buf (i2c_rx.data (b0 :: b1 :: tl)) body).2.1.client.xfer =
        ts.client.xfer ++ [i2c_msg.recv 2 2, i2c_msg.recv b1 ret]) ∧
    (¬ (b0 = 0xee ∧ 1 ≤ b1 ∧ b1 ≤ 255) →
      zforce_read_packet ts buf (i2c_rx.data (b0 :: b1 :: tl)) body =
        (- EIO, { ts with client := { ts.client with
                    xfer := ts.client.xfer ++ [i2c_msg.recv 2 2] } },
         buf_write buf 0 [b0, b1]) ∧
      (zforce_read_packet ts buf (i2c_rx.data (b0 :: b1 :: tl)) body).1 < 0) := by
  have hb2 : 2 ≤ buf.length := by omega
  have h0 : b0 % 256 = b0 := Nat.mod_eq_of_lt hb0
  have h1 : b1 % 256 = b1 := Nat.mod_eq_of_lt hb1
  by_cases hc : b0 = 0xee ∧ 1 ≤ b1 ∧ b1 ≤ 255
  · obtain ⟨rfl, hge, hle⟩ := hc
    refine ⟨⟨fun _ => ?_, fun _ => ⟨rfl, hge, hle⟩⟩, fun hn => absurd ⟨rfl, hge, hle⟩ hn⟩
    have hnb : ¬ (b1 = 0 ∨ 255 < b1) := by omega
    cases body with
    | error e =>
      refine ⟨e, ?_⟩
      simp only [zforce_read_packet, i2c_master_recv, List.take, PAYLOAD_HEADER, PAYLOAD_LENGTH,
        rd_header0 buf _ _ hb2, rd_header1 buf _ _ hb2, h1]
      simp [FRAME_START, hnb]
    | data bytes =>
      refine ⟨(b1 : Int), ?_⟩
      simp only [zforce_read_packet, i2c_master_recv, List.take, PAYLOAD_HEADER, PAYLOAD_LENGTH,
        rd_header0 buf _ _ hb2, rd_header1 buf _ _ hb2, h1]
      simp [FRAME_START, hnb]
  · have key : zforce_read_packet ts buf (i2c_rx.data (b0 :: b1 :: tl)) body =
        (- EIO, { ts with client := { ts.client with
                    xfer := ts.client.xfer ++ [i2c_msg.recv 2 2] } },
         buf_write buf 0 [b0, b1]) := by
      simp only [zforce_read_packet, i2c_master_recv, List.take, PAYLOAD_HEADER, PAYLOAD_LENGTH,
        rd_header0 buf _ _ hb2, rd_header1 buf _ _ hb2, h0, h1]
      by_cases h238 : b0 = 0xee
      · have hz : b1 = 0 := by
          by_contra hne
          exact hc ⟨h238, by omega, by omega⟩
        subst hz; subst h238
        simp [FRAME_START]
      · simp [FRAME_START, h238]
    refine ⟨⟨fun h => absurd h hc, fun ⟨ret, h⟩ => ?_⟩, fun _ => ⟨key, ?_⟩⟩
    · rw [key] at h
      simp at h
    · rw [key]; simp [ EIO]

/-- Witness of C2: the header `[0xEE, 0]` is rejected. -/
theorem read_packet_header_validation_witness :
    (List.replicate 512 0).length = 512 ∧ 0xee < 256 ∧ 0 < 256 ∧
    (zforce_read_packet (zforce_probe_state example_pdata) (List.replicate 512 0)
      (i2c_rx.data [0xee, 0]) (i2c_rx.data [1])).1 < 0 :=
  ⟨List.length_replicate 512 0, by decide, by decide,
   ((read_packet_header_validation (zforce_probe_state example_pdata) (List.replicate 512 0)
      0xee 0 [] (i2c_rx.data [1]) (List.length_replicate 512 0) (by decide) (by decide)).2
      (by decide)).2⟩

/-- Claim C3 (busy fails fast). Whenever the command lock is already held, `zforce_send_wait`
returns -EBUSY and leaves the whole state as it was: nothing is sent on the bus, the wait
window is not entered, the lock stays held, `command_waiting` and `command_result` keep their
values. -/
theorem send_wait_busy_fails_fast (ts : zforce_ts) (buf : List Nat) (len : Nat) (e : cmd_env)
    (hheld : ts.command_mutex = true) :
    (zforce_send_wait ts buf len e).1 = - EBUSY ∧ (zforce_send_wait ts buf len e).2 = ts := by
  unfold zforce_send_wait
  rw [if_pos hheld]
  exact ⟨rfl, rfl⟩

/-- Witness of C3: an Initialize command issued while the lock is held. -/
theorem send_wait_busy_fails_fast_witness :
    ({ zforce_probe_state example_pdata with command_mutex := true }).command_mutex = true ∧
    (zforce_send_wait { zforce_probe_state example_pdata with command_mutex := true }
      (zforce_command_wait_buf COMMAND_INITIALIZE) 3 (env_acked 1)).1 = -16 :=
  ⟨rfl, (send_wait_busy_fails_fast _ _ _ _ rfl).1⟩

/-- Claim C4, as amended (timeout). When the command lock is free and the completion is not
already signalled, a `zforce_send_wait` whose send succeeds and during whose wait no frame
with the awaited id is dispatched returns -ETIME with the lock free again: a following
`zforce_send_wait` takes the lock and puts its frame on the bus. -/
theorem send_wait_timeout (ts : zforce_ts) (buf : List Nat) (len : Nat) (e : cmd_env)
    (next_buf : List Nat) (next_len : Nat) (next_e : cmd_env)
    (hfree : ts.command_mutex = false) (hdone : ts.command_done = 0)
    (hsend : 0 ≤ e.send_ret)
    (hwin : ∀ f ∈ e.window, (f.id : Int) ≠ (rd buf 2 : Int)) :
    (zforce_send_wait ts buf len e).1 = - ETIME ∧
    (zforce_send_wait ts buf len e).2.command_mutex = false ∧
    (zforce_send_wait (zforce_send_wait ts buf len e).2 next_buf next_len next_e).2.client.xfer =
      (zforce_send_wait ts buf len e).2.client.xfer ++
        [i2c_msg.send (next_buf.take next_len) next_e.send_ret] := by
  have h1 := send_wait_timed_out ts buf len e hfree hdone hsend hwin
  have h2 := send_wait_state ts buf len e hfree
  have h3 := send_wait_state (zforce_send_wait ts buf len e).2 next_buf next_len next_e h2.2.1
  refine ⟨h1.1, h2.2.1, ?_⟩
  rw [h3.1]

/-- Witness of C4 as amended: an unanswered Initialize on the state left by probe. -/
theorem send_wait_timeout_witness :
    (zforce_probe_state example_pdata).command_mutex = false ∧
    (zforce_probe_state example_pdata).command_done = 0 ∧
    (0 : Int) ≤ env_silent.send_ret ∧
    (zforce_send_wait (zforce_probe_state example_pdata)
      (zforce_command_wait_buf COMMAND_INITIALIZE) 3 env_silent).1 = -62 :=
  ⟨rfl, rfl, by decide,
   (send_wait_timeout (zforce_probe_state example_pdata)
      (zforce_command_wait_buf COMMAND_INITIALIZE) 3 env_silent [] 0 env_silent rfl rfl
      (by decide) (by intro f hf; simp [env_silent] at hf)).1⟩

/-- Counterexample to C4 as stated. An Initialize command times out, its acknowledgement is
dispatched afterwards and leaves the completion signalled. The lock is free, the send of
the next command (Resolution) succeeds and no frame at all is dispatched during its wait,
yet it returns 0 at once, not -ETIME. -/
theorem send_wait_timeout_counterexample :
    (zforce_command_wait (zforce_probe_state example_pdata) COMMAND_INITIALIZE env_silent).1
      = - ETIME ∧
    (zforce_irq_dispatch
      (zforce_command_wait (zforce_probe_state example_pdata) COMMAND_INITIALIZE env_silent).2
      (ack_frame RESPONSE_INITIALIZE 0)).command_mutex = false ∧
    (0 : Int) ≤ env_silent.send_ret ∧
    env_silent.window = [] ∧
    (zforce_send_wait
      (zforce_irq_dispatch
        (zforce_command_wait (zforce_probe_state example_pdata) COMMAND_INITIALIZE env_silent).2
        (ack_frame RESPONSE_INITIALIZE 0))
      (zforce_resolution_buf 758 1024) 7 env_silent).1 = 0 ∧
    (zforce_send_wait
      (zforce_irq_dispatch
        (zforce_command_wait (zforce_probe_state example_pdata) COMMAND_INITIALIZE env_silent).2
        (ack_frame RESPONSE_INITIALIZE 0))
      (zforce_resolution_buf 758 1024) 7 env_silent).1 ≠ - ETIME := by
  refine ⟨by decide, by decide, by decide, rfl, by decide, by decide⟩

/-- Claim C5, as amended (a resolution is consumed once, the awaited id stays). When a command
issued with the lock free and the completion not signalled is resolved by a frame `f`
carrying the awaited id, the caller gets the result of `f` and the completion is not
signalled any more, while `command_waiting` still holds the id. A later frame `g` is ignored
exactly when its id differs: with a different id it leaves completion and `command_result`
as they are, with the same id it stores its own result and signals the completion again. -/
theorem resolution_consumed_once (ts : zforce_ts) (buf : List Nat) (len : Nat) (e : cmd_env)
    (pre : List irq_frame) (f g : irq_frame)
    (hfree : ts.command_mutex = false) (hdone : ts.command_done = 0)
    (hsend : 0 ≤ e.send_ret) (hwin : e.window = pre ++ [f])
    (hpre : ∀ p ∈ pre, (p.id : Int) ≠ (rd buf 2 : Int))
    (hid : (f.id : Int) = (rd buf 2 : Int)) (hres : f.resolves) :
    (zforce_send_wait ts buf len e).1 = f.result ∧
    (zforce_send_wait ts buf len e).2.command_done = 0 ∧
    (zforce_send_wait ts buf len e).2.command_waiting = (f.id : Int) ∧
    (g.id ≠ f.id →
      (zforce_irq_dispatch (zforce_send_wait ts buf len e).2 g).command_done = 0 ∧
      (zforce_irq_dispatch (zforce_send_wait ts buf len e).2 g).command_result =
        (zforce_send_wait ts buf len e).2.command_result) ∧
    (g.id = f.id →
      (zforce_irq_dispatch (zforce_send_wait ts buf len e).2 g).command_done = 1 ∧
      (zforce_irq_dispatch (zforce_send_wait ts buf len e).2 g).command_result = g.result) := by
  have h1 := send_wait_acked ts buf len e pre f hfree hsend hwin hpre hid hres
  have h2 := send_wait_state ts buf len e hfree
  have hw : (zforce_send_wait ts buf len e).2.command_waiting = (f.id : Int) := by
    rw [h2.2.2.1, hid]
  have hd : (zforce_send_wait ts buf len e).2.command_done = 0 := by rw [h1.2, hdone]
  refine ⟨h1.1, hd, hw, ?_, ?_⟩
  · intro hne
    have hk := irq_dispatch_other (zforce_send_wait ts buf len e).2 g
      (by rw [hw]; exact_mod_cast hne)
    exact ⟨hk.1.trans hd, hk.2⟩
  · intro heq
    have hgres : g.resolves := by
      unfold irq_frame.resolves at hres ⊢
      rw [heq]; exact hres
    have hk := irq_dispatch_awaited (zforce_send_wait ts buf len e).2 g
      (by rw [hw, heq]) hgres
    exact ⟨by rw [hk.1, hd], hk.2⟩

/-- Witness of C5 as amended: an acknowledged Initialize. -/
theorem resolution_consumed_once_witness :
    (zforce_probe_state example_pdata).command_mutex = false ∧
    (zforce_probe_state example_pdata).command_done = 0 ∧
    (0 : Int) ≤ (env_acked RESPONSE_INITIALIZE).send_ret ∧
    (ack_frame RESPONSE_INITIALIZE 0).resolves ∧
    (zforce_send_wait (zforce_probe_state example_pdata)
      (zforce_command_wait_buf COMMAND_INITIALIZE) 3 (env_acked RESPONSE_INITIALIZE)).1 =
      (ack_frame RESPONSE_INITIALIZE 0).result :=
  ⟨rfl, rfl, by decide, Or.inl (Or.inl rfl),
   (resolution_consumed_once (zforce_probe_state example_pdata)
      (zforce_command_wait_buf COMMAND_INITIALIZE) 3 (env_acked RESPONSE_INITIALIZE) []
      (ack_frame RESPONSE_INITIALIZE 0) (ack_frame RESPONSE_INITIALIZE 7) rfl rfl (by decide) rfl
      (by intro p hp; exact absurd hp (List.not_mem_nil p)) (by decide)
      (Or.inl (Or.inl rfl))).1⟩

/-- Counterexample to C5 as stated. Initialize is resolved with result 0 and the caller has
consumed it; a second frame with id 0x01 and data byte 7 then signals the completion again
and overwrites `command_result`, and the Resolution command issued next, during whose wait
no frame arrives, is resolved by it with result 7. -/
theorem resolution_at_most_once_counterexample :
    (zforce_command_wait (zforce_probe_state example_pdata) COMMAND_INITIALIZE
      (env_acked RESPONSE_INITIALIZE)).1 = 0 ∧
    (zforce_command_wait (zforce_probe_state example_pdata) COMMAND_INITIALIZE
      (env_acked RESPONSE_INITIALIZE)).2.command_done = 0 ∧
    (zforce_command_wait (zforce_probe_state example_pdata) COMMAND_INITIALIZE
      (env_acked RESPONSE_INITIALIZE)).2.command_result = 0 ∧
    (zforce_irq_dispatch
      (zforce_command_wait (zforce_probe_state example_pdata) COMMAND_INITIALIZE
        (env_acked RESPONSE_INITIALIZE)).2
      (ack_frame RESPONSE_INITIALIZE 7)).command_done = 1 ∧
    (zforce_irq_dispatch
      (zforce_command_wait (zforce_probe_state example_pdata) COMMAND_INITIALIZE
        (env_acked RESPONSE_INITIALIZE)).2
      (ack_frame RESPONSE_INITIALIZE 7)).command_result = 7 ∧
    (zforce_resolution
      (zforce_irq_dispatch
        (zforce_command_wait (zforce_probe_state example_pdata) COMMAND_INITIALIZE
          (env_acked RESPONSE_INITIALIZE)).2
        (ack_frame RESPONSE_INITIALIZE 7))
      758 1024 env_silent).1 = 7 := by
  decide

/-- Claim C6 (resolution contract of `zforce_complete`). When `cmd` equals `command_waiting`
the call stores `result` in `command_result` and signals the completion once, changing
nothing else; when it differs the state is unchanged; and the completion is signalled if
and only if `cmd` equals `command_waiting`. -/
theorem zforce_complete_contract (ts : zforce_ts) (cmd result : Int) :
    (ts.command_waiting = cmd →
      zforce_complete ts cmd result =
        { ts with command_result := result, command_done := ts.command_done + 1 }) ∧
    (ts.command_waiting ≠ cmd → zforce_complete ts cmd result = ts) ∧
    ((zforce_complete ts cmd result).command_done = ts.command_done + 1 ↔
      ts.command_waiting = cmd) := by
  unfold zforce_complete
  refine ⟨fun h => by rw [if_pos h], fun h => by rw [if_neg h], ?_⟩
  split_ifs with h
  · simp [h]
  · simp [h]

/-- Claim C7, as amended (start cleans up after a failure behind Initialize). In every run of
`zforce_start` in which Initialize returned 0 and one of Resolution, ScanFrequency,
SetConfig or the DataRequest send returned non-zero, the Deactivate frame `[0xEE, 1, 0x00]`
is handed to the bus as the last transfer of the run, hence after the failing step, and
`stopped` is true on return. -/
theorem start_failure_cleanup (ts : zforce_ts) (e : start_env)
    (hinit : (zforce_start_init ts e).1 = 0)
    (hfail : (zforce_start_res ts e).1 ≠ 0 ∨ (zforce_start_scan ts e).1 ≠ 0 ∨
      (zforce_start_cfg ts e).1 ≠ 0 ∨ (zforce_start_datareq ts e).1 ≠ 0) :
    (zforce_start ts e).2.stopped = true ∧
    (zforce_start ts e).2.client.xfer.getLast? =
      some (i2c_msg.send [0xee, 1, 0x00] e.deact.send_ret) := by
  have hfree := start_init_busy ts e hinit
  have key : ∀ (s : zforce_ts) (ret : Int), s.command_mutex = false →
      (zforce_start_error s ret e).2.stopped = true ∧
      (zforce_start_error s ret e).2.client.xfer.getLast? =
        some (i2c_msg.send [0xee, 1, 0x00] e.deact.send_ret) := by
    intro s ret hs
    obtain ⟨_, e2, e3, _⟩ := start_error_state s ret e hs
    refine ⟨e2, ?_⟩
    rw [e3]
    simp
  rw [zforce_start_eq, if_neg (not_not.mpr hinit)]
  by_cases h2 : (zforce_start_res ts e).1 ≠ 0
  · rw [if_pos h2]; exact key _ _ (start_reached_res ts e hfree).2.1
  rw [if_neg h2]
  by_cases h3 : (zforce_start_scan ts e).1 ≠ 0
  · rw [if_pos h3]; exact key _ _ (start_reached_scan ts e hfree).2.1
  rw [if_neg h3]
  by_cases h4 : (zforce_start_cfg ts e).1 ≠ 0
  · rw [if_pos h4]; exact key _ _ (start_reached_cfg ts e hfree).2.1
  rw [if_neg h4]
  by_cases h5 : (zforce_start_datareq ts e).1 ≠ 0
  · rw [if_pos h5]; exact key _ _ (start_reached_datareq ts e hfree).2.1
  rcases hfail with h | h | h | h
  · exact absurd h h2
  · exact absurd h h3
  · exact absurd h h4
  · exact absurd h h5

/-- Witness of C7 as amended: the DataRequest send fails with -5. -/
theorem start_failure_cleanup_witness :
    (zforce_start_init (zforce_probe_state example_pdata)
      { start_env_acked with datareq := -5 }).1 = 0 ∧
    (zforce_start_datareq (zforce_probe_state example_pdata)
      { start_env_acked with datareq := -5 }).1 ≠ 0 ∧
    (zforce_start (zforce_probe_state example_pdata)
      { start_env_acked with datareq := -5 }).2.stopped = true :=
  ⟨by decide, by decide,
   (start_failure_cleanup (zforce_probe_state example_pdata)
      { start_env_acked with datareq := -5 } (by decide)
      (Or.inr (Or.inr (Or.inr (by decide))))).1⟩

/-- Counterexample to C7 as stated. Initialize times out: `zforce_start` returns -ETIME at
once, the only transfer on the bus is the Initialize frame (no Deactivate), and `stopped`
is false on return. -/
theorem start_failure_cleanup_counterexample :
    (zforce_start_init (zforce_probe_state example_pdata)
      { start_env_acked with init := env_silent }).1 = - ETIME ∧
    (zforce_start (zforce_probe_state example_pdata)
      { start_env_acked with init := env_silent }).1 = - ETIME ∧
    (zforce_start (zforce_probe_state example_pdata)
      { start_env_acked with init := env_silent }).2.client.xfer =
        [i2c_msg.send [0xee, 1, 0x01] 0] ∧
    (zforce_start (zforce_probe_state example_pdata)
      { start_env_acked with init := env_silent }).2.stopped = false := by
  decide

/-- Claim C8, the code at the failing input. Initialize, Resolution and ScanFrequency are
acknowledged with 0 and SetConfig times out: the `zforce_setconfig` call returns -ETIME,
`zforce_start` takes its error exit (`stopped` set, health check not armed) and still
returns 0. -/
theorem start_setconfig_failure_returns_zero :
    (zforce_start_init (zforce_probe_state example_pdata)
      { start_env_acked with cfg := env_silent }).1 = 0 ∧
    (zforce_start_res (zforce_probe_state example_pdata)
      { start_env_acked with cfg := env_silent }).1 = 0 ∧
    (zforce_start_scan (zforce_probe_state example_pdata)
      { start_env_acked with cfg := env_silent }).1 = 0 ∧
    (zforce_start_cfg (zforce_probe_state example_pdata)
      { start_env_acked with cfg := env_silent }).1 = - ETIME ∧
    (zforce_start (zforce_probe_state example_pdata)
      { start_env_acked with cfg := env_silent }).1 = 0 ∧
    (zforce_start (zforce_probe_state example_pdata)
      { start_env_acked with cfg := env_silent }).2.stopped = true ∧
    (zforce_start (zforce_probe_state example_pdata)
      { start_env_acked with cfg := env_silent }).2.check.pending = false := by
  decide

/-- Claim C9 (scenario A, successful start). With the lock free, Initialize, Resolution,
ScanFrequency and SetConfig each acknowledged with data byte 0 and the DataRequest send
succeeding, `zforce_start` returns 0, `stopped` is false, the health check is armed, and the
bus has received exactly the five frames Initialize, Resolution (low and high byte of x_max,
then of y_max), ScanFrequency (10, 50, 50), SetConfig (0), DataRequest, in this order; no
Deactivate frame is among them. -/
theorem start_scenario_acknowledged (ts : zforce_ts) (e : start_env)
    (hfree : ts.command_mutex = false)
    (hinit : acked_with e.init COMMAND_INITIALIZE 0)
    (hres : acked_with e.res COMMAND_RESOLUTION 0)
    (hscan : acked_with e.scan COMMAND_SCANFREQ 0)
    (hcfg : acked_with e.cfg COMMAND_SETCONFIG 0)
    (hdatareq : 0 ≤ e.datareq) :
    (zforce_start ts e).1 = 0 ∧
    (zforce_start ts e).2.stopped = false ∧
    (zforce_start ts e).2.check.pending = true ∧
    (zforce_start ts e).2.client.xfer = ts.client.xfer ++
      [i2c_msg.send [0xee, 1, 0x01] e.init.send_ret,
       i2c_msg.send [0xee, 5, 0x02, ts.client.platform_data.x_max % 256,
         ts.client.platform_data.x_max / 256 % 256, ts.client.platform_data.y_max % 256,
         ts.client.platform_data.y_max / 256 % 256] e.res.send_ret,
       i2c_msg.send [0xee, 7, 0x08, 10, 0, 50, 0, 50, 0] e.scan.send_ret,
       i2c_msg.send [0xee, 5, 0x03, 0, 0, 0, 0] e.cfg.send_ret,
       i2c_msg.send [0xee, 1, 0x04] e.datareq] := by
  have h1 := (start_init_acked ts e 0 hfree hinit).1
  have h2 : (zforce_start_res ts e).1 = 0 := (start_res_acked ts e 0 hfree hres).1
  have h3 : (zforce_start_scan ts e).1 = 0 := start_scan_acked ts e 0 hfree hscan
  have h4 : (zforce_start_cfg ts e).1 = 0 := start_cfg_acked ts e 0 hfree hcfg
  have h5 : (zforce_start_datareq ts e).1 = 0 := by
    unfold zforce_start_datareq
    rw [(zforce_command_state _ _ _).1, if_neg (by omega)]
  obtain ⟨k1, _, k3, _⟩ := start_reached_datareq ts e hfree
  rw [zforce_start_eq, if_neg (not_not.mpr h1), if_neg (not_not.mpr h2),
    if_neg (not_not.mpr h3), if_neg (not_not.mpr h4), if_neg (not_not.mpr h5)]
  refine ⟨rfl, k3, ?_, ?_⟩
  · show (schedule_delayed_work (zforce_start_datareq ts e).2.check).pending = true
    unfold schedule_delayed_work
    split_ifs with hp
    · exact hp
    · rfl
  · show (zforce_start_datareq ts e).2.client.xfer = _
    rw [k1]

/-- Witness of C9: every command acknowledged on the state left by probe. -/
theorem start_scenario_acknowledged_witness :
    (zforce_probe_state example_pdata).command_mutex = false ∧
    acked_with (env_acked RESPONSE_INITIALIZE) COMMAND_INITIALIZE 0 ∧
    acked_with (env_acked RESPONSE_RESOLUTION) COMMAND_RESOLUTION 0 ∧
    acked_with (env_acked RESPONSE_SCANFREQ) COMMAND_SCANFREQ 0 ∧
    acked_with (env_acked RESPONSE_SETCONFIG) COMMAND_SETCONFIG 0 ∧
    (0 : Int) ≤ start_env_acked.datareq ∧
    (zforce_start (zforce_probe_state example_pdata) start_env_acked).1 = 0 :=
  ⟨rfl, env_acked_acked_with 1 (by decide), env_acked_acked_with 2 (by decide),
   env_acked_acked_with 8 (by decide), env_acked_acked_with 3 (by decide), by decide,
   (start_scenario_acknowledged (zforce_probe_state example_pdata) start_env_acked rfl
      (env_acked_acked_with 1 (by decide)) (env_acked_acked_with 2 (by decide))
      (env_acked_acked_with 8 (by decide)) (env_acked_acked_with 3 (by decide))
      (by decide)).1⟩

/-- Claim C10 (scenario B, start aborted by a timeout). With the lock free and the completion
not signalled, Initialize and Resolution acknowledged with data byte 0 and ScanFrequency
sent but not answered during its wait, `zforce_start` returns -ETIME, `stopped` is true, the
health check is left as it was (not armed by this run), and the bus has received exactly
Initialize, Resolution, ScanFrequency and Deactivate, so neither SetConfig nor DataRequest. -/
theorem start_scenario_scan_timeout (ts : zforce_ts) (e : start_env)
    (hfree : ts.command_mutex = false) (hdone : ts.command_done = 0)
    (hinit : acked_with e.init COMMAND_INITIALIZE 0)
    (hres : acked_with e.res COMMAND_RESOLUTION 0)
    (hscan : unanswered e.scan COMMAND_SCANFREQ) :
    (zforce_start ts e).1 = - ETIME ∧
    (zforce_start ts e).2.stopped = true ∧
    (zforce_start ts e).2.check = ts.check ∧
    (zforce_start ts e).2.client.xfer = ts.client.xfer ++
      [i2c_msg.send [0xee, 1, 0x01] e.init.send_ret,
       i2c_msg.send [0xee, 5, 0x02, ts.client.platform_data.x_max % 256,
         ts.client.platform_data.x_max / 256 % 256, ts.client.platform_data.y_max % 256,
         ts.client.platform_data.y_max / 256 % 256] e.res.send_ret,
       i2c_msg.send [0xee, 7, 0x08, 10, 0, 50, 0, 50, 0] e.scan.send_ret,
       i2c_msg.send [0xee, 1, 0x00] e.deact.send_ret] := by
  have i1 := start_init_acked ts e 0 hfree hinit
  have i2 := start_res_acked ts e 0 hfree hres
  have h1 := i1.1
  have h2 : (zforce_start_res ts e).1 = 0 := i2.1
  have hd : (zforce_start_res ts e).2.command_done = 0 := by rw [i2.2, i1.2, hdone]
  have h3 := start_scan_unanswered ts e hfree hd hscan
  obtain ⟨k1, k2, _, k4⟩ := start_reached_scan ts e hfree
  obtain ⟨e1, e2, e3, e4⟩ := start_error_state (zforce_start_scan ts e).2 (- ETIME) e k2
  rw [zforce_start_eq, if_neg (not_not.mpr h1), if_neg (not_not.mpr h2),
    if_pos (by rw [h3]; decide), h3]
  refine ⟨e1, e2, e4.trans k4, ?_⟩
  rw [e3, k1]
  simp

/-- Witness of C10: ScanFrequency unanswered on the state left by probe. -/
theorem start_scenario_scan_timeout_witness :
    (zforce_probe_state example_pdata).command_mutex = false ∧
    (zforce_probe_state example_pdata).command_done = 0 ∧
    acked_with (env_acked RESPONSE_INITIALIZE) COMMAND_INITIALIZE 0 ∧
    acked_with (env_acked RESPONSE_RESOLUTION) COMMAND_RESOLUTION 0 ∧
    unanswered env_silent COMMAND_SCANFREQ ∧
    (zforce_start (zforce_probe_state example_pdata)
      { start_env_acked with scan := env_silent }).1 = -62 :=
  ⟨rfl, rfl, env_acked_acked_with 1 (by decide), env_acked_acked_with 2 (by decide),
   env_silent_unanswered 8,
   (start_scenario_scan_timeout (zforce_probe_state example_pdata)
      { start_env_acked with scan := env_silent } rfl rfl
      (env_acked_acked_with 1 (by decide)) (env_acked_acked_with 2 (by decide))
      (env_silent_unanswered 8)).1⟩

/-- Claim C12 (point count clamp). For every touch payload with count byte c,
`zforce_touch_event` returns 0 and leaves exactly the state in which the records
0 .. min(c, 2) - 1 have been decoded and reported: the reset work has been requested once
per out-of-range record among those, the input log has grown by the reports of those records
in order followed by the five single-touch calls, and nothing else has changed. Exactly
min(c, 2) slots are selected and min(c, 2) slot states reported. No byte behind record
min(c, 2) - 1 is decoded: a payload that agrees on the count byte and on those records gives
the same result. -/
theorem touch_count_clamp (ts : zforce_ts) (payload : List Nat)
    (point : Nat → zforce_point) :
    zforce_touch_event ts payload point =
      (0, { ts with
        reset := schedule_delayed_work^[((List.range (min (rd payload 0) 2)).filter
          (zforce_out_of_range ts.client.platform_data payload)).length] ts.reset
        input := { ts.input with
          events := ts.input.events ++
            (List.range (min (rd payload 0) 2)).flatMap
              (fun i => zforce_touch_report
                (zforce_decoded ts.client.platform_data payload) [] i) ++
            zforce_touch_legacy ts.client.platform_data
              (if 0 < min (rd payload 0) 2 then
                 zforce_decoded ts.client.platform_data payload 0
               else point 0) } }) ∧
    ((zforce_touch_emitted ts payload point).filter input_call.is_mt_slot).length =
      min (rd payload 0) 2 ∧
    ((zforce_touch_emitted ts payload point).filter input_call.is_slot_state).length =
      min (rd payload 0) 2 ∧
    (∀ other : List Nat,
      (∀ i, i < 1 + 9 * min (rd payload 0) 2 → rd other i = rd payload i) →
      zforce_touch_event ts other point = zforce_touch_event ts payload point) := by
  have hc := touch_count_eq payload
  have he := touch_emitted_eq ts payload point
  have hs := touch_reports_slots (zforce_touch_points ts payload point)
    (zforce_touch_count payload)
  refine ⟨by rw [touch_event_state, hc], ?_, ?_, ?_⟩
  · rw [he, List.filter_append, List.length_append, hs.1, hc]
    simp [zforce_touch_legacy, List.filter, input_call.is_mt_slot]
  · rw [he, List.filter_append, List.length_append, hs.2, hc]
    simp [zforce_touch_legacy, List.filter, input_call.is_slot_state]
  · intro other hagree
    exact (touch_event_congr ts payload other point
      (by rw [hc]; intro i hi; exact (hagree i hi).symm)).symm

/-- Claim C13 (out-of-range coordinates are zeroed). For every decoded point `i`, with wire
coordinates x = x_lo + 256 * x_hi and y = y_lo + 256 * y_hi, the position kept in `point[i]`
and reported for it is (x, y) when x <= x_max and y <= y_max and (0, 0) otherwise, both
coordinates being zeroed even when one alone is out of range; and every ABS_MT_POSITION_X
value the call emits lies in [0, x_max], every ABS_MT_POSITION_Y value in [0, y_max]. -/
theorem touch_out_of_range_zeroed (ts : zforce_ts) (payload : List Nat)
    (point : Nat → zforce_point) (i : Nat) (hi : i < zforce_touch_count payload) :
    (zforce_touch_points ts payload point i).coord_x =
      (if rd payload (9 * i + 1) + 256 * rd payload (9 * i + 2) ≤ ts.client.platform_data.x_max ∧
          rd payload (9 * i + 3) + 256 * rd payload (9 * i + 4) ≤ ts.client.platform_data.y_max
       then ((rd payload (9 * i + 1) + 256 * rd payload (9 * i + 2) : Nat) : Int) else 0) ∧
    (zforce_touch_points ts payload point i).coord_y =
      (if rd payload (9 * i + 1) + 256 * rd payload (9 * i + 2) ≤ ts.client.platform_data.x_max ∧
          rd payload (9 * i + 3) + 256 * rd payload (9 * i + 4) ≤ ts.client.platform_data.y_max
       then ((rd payload (9 * i + 3) + 256 * rd payload (9 * i + 4) : Nat) : Int) else 0) ∧
    (∀ v, input_call.report_abs abs_code.ABS_MT_POSITION_X v ∈
        zforce_touch_report (zforce_touch_points ts payload point) [] i →
      v = (zforce_touch_points ts payload point i).coord_x) ∧
    (∀ v, input_call.report_abs abs_code.ABS_MT_POSITION_Y v ∈
        zforce_touch_report (zforce_touch_points ts payload point) [] i →
      v = (zforce_touch_points ts payload point i).coord_y) ∧
    (∀ v, input_call.report_abs abs_code.ABS_MT_POSITION_X v ∈
        zforce_touch_emitted ts payload point →
      0 ≤ v ∧ v ≤ (ts.client.platform_data.x_max : Int)) ∧
    (∀ v, input_call.report_abs abs_code.ABS_MT_POSITION_Y v ∈
        zforce_touch_emitted ts payload point →
      0 ≤ v ∧ v ≤ (ts.client.platform_data.y_max : Int)) := by
  have hc := touch_point_coord ts payload point i hi
  refine ⟨hc.1, hc.2, ?_, ?_, ?_, ?_⟩
  · intro v hv
    rw [touch_report_eq] at hv
    split_ifs at hv <;> simp at hv
    exact hv
  · intro v hv
    rw [touch_report_eq] at hv
    split_ifs at hv <;> simp at hv
    exact hv
  · intro v hv
    obtain ⟨j, _, h1, _⟩ := touch_position_emitted ts payload point _ v (Or.inl rfl) hv
    have hr := decoded_coord_range ts.client.platform_data payload j
    rw [h1 rfl]
    exact ⟨hr.1, hr.2.1⟩
  · intro v hv
    obtain ⟨j, _, _, h2⟩ := touch_position_emitted ts payload point _ v (Or.inr rfl) hv
    have hr := decoded_coord_range ts.client.platform_data payload j
    rw [h2 rfl]
    exact ⟨hr.2.2.1, hr.2.2.2⟩

/-- Witness of C13: point 0 of a frame whose points lie outside the panel. -/
theorem touch_out_of_range_zeroed_witness :
    0 < zforce_touch_count touch_payload_two_bad ∧
    (zforce_touch_points (zforce_probe_state example_pdata) touch_payload_two_bad
      (fun _ => zero_point) 0).coord_x = 0 :=
  ⟨by decide,
   (touch_out_of_range_zeroed (zforce_probe_state example_pdata) touch_payload_two_bad
      (fun _ => zero_point) 0 (by decide)).1⟩

/-- Claim C14, as amended (recovery requests of one touch frame). `zforce_touch_event` calls
`schedule_delayed_work` on the reset work once for every decoded point that is out of
range, hence twice when both points are; the reset work is left untouched when every
decoded point is in range; and after a frame with an out-of-range point the reset work is
pending, having been armed by this frame exactly once if it was idle before and not at all
if it was pending already. -/
theorem touch_recovery_requests (ts : zforce_ts) (payload : List Nat)
    (point : Nat → zforce_point) :
    (zforce_touch_event ts payload point).2.reset.requests = ts.reset.requests +
      ((List.range (zforce_touch_count payload)).filter
        (zforce_out_of_range ts.client.platform_data payload)).length ∧
    ((∀ i, i < zforce_touch_count payload →
        zforce_out_of_range ts.client.platform_data payload i = false) →
      (zforce_touch_event ts payload point).2.reset = ts.reset) ∧
    ((∃ i, i < zforce_touch_count payload ∧
        zforce_out_of_range ts.client.platform_data payload i = true) →
      (zforce_touch_event ts payload point).2.reset.pending = true ∧
      (zforce_touch_event ts payload point).2.reset.queued =
        ts.reset.queued + (if ts.reset.pending = false then 1 else 0)) := by
  have hr := touch_event_reset ts payload point
  have hs := schedule_iterate ((List.range (zforce_touch_count payload)).filter
        (zforce_out_of_range ts.client.platform_data payload)).length ts.reset
  refine ⟨by rw [hr]; exact hs.1, ?_, ?_⟩
  · intro hall
    have h0 : (List.range (zforce_touch_count payload)).filter
        (zforce_out_of_range ts.client.platform_data payload) = [] := by
      rw [List.filter_eq_nil_iff]
      intro i hi
      rw [List.mem_range] at hi
      rw [hall i hi]
      simp
    rw [hr, h0]
    rfl
  · rintro ⟨i, hi, hb⟩
    have hpos : 0 < ((List.range (zforce_touch_count payload)).filter
        (zforce_out_of_range ts.client.platform_data payload)).length := by
      refine List.length_pos_of_mem (?_ : i ∈ _)
      rw [List.mem_filter, List.mem_range]
      exact ⟨hi, hb⟩
    rw [hr, hs.2.1, hs.2.2]
    simp [hpos]

/-- Counterexample to C14 as stated. A frame with two points, both out of range, on the state
left by probe: the reset work is requested twice, not once (it is armed once). A second
such frame, dispatched while the reset work is still pending, requests it twice more and
arms nothing. -/
theorem touch_recovery_once_counterexample :
    zforce_touch_count touch_payload_two_bad = 2 ∧
    zforce_out_of_range example_pdata touch_payload_two_bad 0 = true ∧
    zforce_out_of_range example_pdata touch_payload_two_bad 1 = true ∧
    (zforce_probe_state example_pdata).reset.requests = 0 ∧
    (zforce_touch_event (zforce_probe_state example_pdata) touch_payload_two_bad
      (fun _ => zero_point)).2.reset.requests = 2 ∧
    (zforce_touch_event (zforce_probe_state example_pdata) touch_payload_two_bad
      (fun _ => zero_point)).2.reset.queued = 1 ∧
    (zforce_touch_event
      (zforce_touch_event (zforce_probe_state example_pdata) touch_payload_two_bad
        (fun _ => zero_point)).2
      touch_payload_two_bad (fun _ => zero_point)).2.reset.requests = 4 ∧
    (zforce_touch_event
      (zforce_touch_event (zforce_probe_state example_pdata) touch_payload_two_bad
        (fun _ => zero_point)).2
      touch_payload_two_bad (fun _ => zero_point)).2.reset.queued = 1 := by
  decide

/-- Claim C15 (packed state and id byte). For every decoded point `i` with packed byte b
(byte 5 of its record): the state is b mod 4, the point identifier is b div 4 and lies in
0..63, b = 4 * id + state, and the slot selected on the input sink for the point, the first
call of its report and the only slot selection in it, is id - 1. -/
theorem touch_state_id_byte (ts : zforce_ts) (payload : List Nat)
    (point : Nat → zforce_point) (i : Nat) (hi : i < zforce_touch_count payload) :
    (zforce_touch_points ts payload point i).state = ((rd payload (9 * i + 5) % 4 : Nat) : Int) ∧
    (zforce_touch_points ts payload point i).id = ((rd payload (9 * i + 5) / 4 : Nat) : Int) ∧
    rd payload (9 * i + 5) / 4 ≤ 63 ∧
    rd payload (9 * i + 5) = 4 * (rd payload (9 * i + 5) / 4) + rd payload (9 * i + 5) % 4 ∧
    (zforce_touch_report (zforce_touch_points ts payload point) [] i).head? =
      some (input_call.mt_slot (((rd payload (9 * i + 5) / 4 : Nat) : Int) - 1)) ∧
    (zforce_touch_report (zforce_touch_points ts payload point) [] i).filter
        input_call.is_mt_slot =
      [input_call.mt_slot (((rd payload (9 * i + 5) / 4 : Nat) : Int) - 1)] := by
  have hd := decoded_rest ts.client.platform_data payload i
  have hp := touch_points_apply ts payload point i
  rw [if_pos hi] at hp
  have hb := rd_lt payload (9 * i + 5)
  refine ⟨by rw [hp]; exact hd.1, by rw [hp]; exact hd.2.1, by omega, by omega, ?_, ?_⟩
  · rw [touch_report_eq, hp, hd.2.1]
    split_ifs <;> rfl
  · rw [touch_report_eq, hp, hd.2.1]
    split_ifs <;> simp [List.filter, input_call.is_mt_slot]

/-- Witness of C15: the point of scenario C has id 1. -/
theorem touch_state_id_byte_witness :
    0 < zforce_touch_count touch_payload_scenario_c ∧
    (zforce_touch_points (zforce_probe_state example_pdata) touch_payload_scenario_c
      (fun _ => zero_point) 0).id = 1 :=
  ⟨by decide,
   (touch_state_id_byte (zforce_probe_state example_pdata) touch_payload_scenario_c
      (fun _ => zero_point) 0 (by decide)).2.1⟩

/-- Claim C16 (slot presence). For every decoded point `i`, with state byte b and extents e1,
e2 (bytes 5, 6, 7 of its record), the report of the point is: the slot selection, the slot
state "present" and exactly the five fields position X, position Y, touch major =
max(e1, e2), touch minor = min(e1, e2), orientation = 1 if e1 > e2 and 0 otherwise, when the
state b mod 4 is not Up (2); the slot selection and the slot state "absent", and no
field, when the state is Up. The calls of `zforce_touch_event` are these reports, in the
order of the points, followed by the single-touch calls. -/
theorem touch_slot_presence (ts : zforce_ts) (payload : List Nat)
    (point : Nat → zforce_point) (i : Nat) (hi : i < zforce_touch_count payload) :
    zforce_touch_report (zforce_touch_points ts payload point) [] i =
      (if rd payload (9 * i + 5) % 4 ≠ 2 then
        [input_call.mt_slot (((rd payload (9 * i + 5) / 4 : Nat) : Int) - 1),
         input_call.mt_report_slot_state true,
         input_call.report_abs abs_code.ABS_MT_POSITION_X
           (zforce_touch_points ts payload point i).coord_x,
         input_call.report_abs abs_code.ABS_MT_POSITION_Y
           (zforce_touch_points ts payload point i).coord_y,
         input_call.report_abs abs_code.ABS_MT_TOUCH_MAJOR
           ((max (rd payload (9 * i + 6)) (rd payload (9 * i + 7)) : Nat) : Int),
         input_call.report_abs abs_code.ABS_MT_TOUCH_MINOR
           ((min (rd payload (9 * i + 6)) (rd payload (9 * i + 7)) : Nat) : Int),
         input_call.report_abs abs_code.ABS_MT_ORIENTATION
           (if rd payload (9 * i + 6) > rd payload (9 * i + 7) then 1 else 0)]
       else
        [input_call.mt_slot (((rd payload (9 * i + 5) / 4 : Nat) : Int) - 1),
         input_call.mt_report_slot_state false]) ∧
    zforce_touch_emitted ts payload point =
      (List.range (zforce_touch_count payload)).flatMap
        (fun j => zforce_touch_report (zforce_touch_points ts payload point) [] j) ++
      zforce_touch_legacy ts.client.platform_data (zforce_touch_points ts payload point 0) := by
  exact ⟨touch_report_bytes ts payload point i hi, touch_emitted_eq ts payload point⟩

/-- Witness of C16: a point that is Up. -/
theorem touch_slot_presence_witness :
    0 < zforce_touch_count touch_payload_up_down ∧
    zforce_touch_report (zforce_touch_points (zforce_probe_state example_pdata)
      touch_payload_up_down (fun _ => zero_point)) [] 0 =
      [input_call.mt_slot 0, input_call.mt_report_slot_state false] :=
  ⟨by decide,
   (touch_slot_presence (zforce_probe_state example_pdata) touch_payload_up_down
      (fun _ => zero_point) 0 (by decide)).1⟩

/-- Claim C18, as amended (synthetic pressure follows point 0). For every touch payload with a
count of at least 1, `zforce_touch_event` emits exactly one ABS_PRESSURE value: 1024 when
the state of point 0 is not Up, 0 when it is Up, whatever the state of point 1. -/
theorem touch_pressure_point0 (ts : zforce_ts) (payload : List Nat)
    (point : Nat → zforce_point) (hcount : 1 ≤ rd payload 0) :
    (zforce_touch_emitted ts payload point).filterMap
        (input_call.abs_value abs_code.ABS_PRESSURE) =
      [if rd payload 5 % 4 ≠ 2 then 1024 else 0] := by
  have hc0 : 0 < zforce_touch_count payload := by rw [touch_count_eq]; omega
  have hp := touch_points_apply ts payload point 0
  rw [if_pos hc0] at hp
  have hd := decoded_rest ts.client.platform_data payload 0
  simp only [Nat.mul_zero, Nat.zero_add] at hd
  rw [touch_emitted_eq, List.filterMap_append, touch_reports_no_pressure, hp]
  unfold zforce_touch_legacy
  have hst : (zforce_decoded ts.client.platform_data payload 0).state ≠ STATE_UP ↔
      rd payload 5 % 4 ≠ 2 := by
    rw [hd.1]; unfold STATE_UP; omega
  by_cases h : rd payload 5 % 4 ≠ 2
  · simp [List.filterMap, input_call.abs_value, hst.mpr h, h]
  · have hup : (zforce_decoded ts.client.platform_data payload 0).state = STATE_UP := by
      by_contra hh
      exact h (hst.mp hh)
    simp [List.filterMap, input_call.abs_value, hup, h]

/-- Witness of C18 as amended: point 0 Up, point 1 Down. -/
theorem touch_pressure_point0_witness :
    1 ≤ rd touch_payload_up_down 0 ∧
    (zforce_touch_emitted (zforce_probe_state example_pdata) touch_payload_up_down
      (fun _ => zero_point)).filterMap (input_call.abs_value abs_code.ABS_PRESSURE) = [0] :=
  ⟨by decide,
   touch_pressure_point0 (zforce_probe_state example_pdata) touch_payload_up_down
      (fun _ => zero_point) (by decide)⟩

/-- Counterexample to C18 as stated. Two points in range, point 0 Up and point 1 Down: a
point of the frame is down, yet the only ABS_PRESSURE value emitted is 0. -/
theorem touch_pressure_any_down_counterexample :
    zforce_touch_count touch_payload_up_down = 2 ∧
    (zforce_touch_points (zforce_probe_state example_pdata) touch_payload_up_down
      (fun _ => zero_point) 0).state = STATE_UP ∧
    (zforce_touch_points (zforce_probe_state example_pdata) touch_payload_up_down
      (fun _ => zero_point) 1).state = STATE_DOWN ∧
    (zforce_touch_emitted (zforce_probe_state example_pdata) touch_payload_up_down
      (fun _ => zero_point)).filterMap (input_call.abs_value abs_code.ABS_PRESSURE) = [0] := by
  decide

/-- Claim C19 (status sentinel). When the dispatcher handles a status response (id 0x1E) it
calls `schedule_delayed_work` on the reset work if and only if the trailing status byte, the
ninth byte after the id, is 255, and leaves the reset work alone for every other value,
whatever the other bytes are; in both cases it calls `zforce_complete` with result 0, so a
pending Status command is resolved with result 0 (and nothing is resolved when another id
is awaited). -/
theorem status_sentinel (ts : zforce_ts) (f : irq_frame) (hid : f.id = RESPONSE_STATUS) :
    (zforce_irq_dispatch ts f).reset =
      (if rd (f.payload_buffer.drop PAYLOAD_BODY) 9 = 255 then schedule_delayed_work ts.reset
       else ts.reset) ∧
    ((zforce_irq_dispatch ts f).reset.requests = ts.reset.requests + 1 ↔
      rd (f.payload_buffer.drop PAYLOAD_BODY) 9 = 255) ∧
    (ts.command_waiting = (RESPONSE_STATUS : Int) →
      (zforce_irq_dispatch ts f).command_result = 0 ∧
      (zforce_irq_dispatch ts f).command_done = ts.command_done + 1) ∧
    (ts.command_waiting ≠ (RESPONSE_STATUS : Int) →
      (zforce_irq_dispatch ts f).command_result = ts.command_result ∧
      (zforce_irq_dispatch ts f).command_done = ts.command_done) := by
  unfold irq_frame.id at hid
  unfold zforce_irq_dispatch zforce_complete
  simp only [hid]
  simp only [RESPONSE_STATUS, NOTIFICATION_TOUCH, NOTIFICATION_BOOTCOMPLETE,
    RESPONSE_INITIALIZE, RESPONSE_DEACTIVATE, RESPONSE_SETCONFIG, RESPONSE_RESOLUTION,
    RESPONSE_SCANFREQ, RESPONSE_DATA]
  by_cases hb : rd (List.drop PAYLOAD_BODY f.payload_buffer) 9 = 255 <;>
    by_cases hw : ts.command_waiting = 30 <;>
    simp [hb, hw, schedule_delayed_work] <;>
    split_ifs <;> simp

/-- Witness of C19: a status response with trailing byte 255. -/
theorem status_sentinel_witness :
    (status_frame 255).id = RESPONSE_STATUS ∧
    (zforce_irq_dispatch (zforce_probe_state example_pdata) (status_frame 255)).reset =
      schedule_delayed_work (zforce_probe_state example_pdata).reset :=
  ⟨rfl, (status_sentinel (zforce_probe_state example_pdata) (status_frame 255) rfl).1⟩

/-- Claim C20 (acknowledgement results). A dispatched frame whose id is a plain
acknowledgement (0x00, 0x01, 0x02, 0x03, 0x08) and equals the awaited id stores its first
data byte, a value in 0..255, in `command_result` and signals the completion, and changes
nothing else: no input event, no reset request. The `zforce_send_wait` that was woken by
it (lock free on entry, send successful, the frame the last one of the wait and the first
with the awaited id) returns exactly that byte. -/
theorem acknowledgement_result (ts : zforce_ts) (f : irq_frame)
    (hack : plain_ack f.id) (hid : (f.id : Int) = ts.command_waiting) :
    zforce_irq_dispatch ts f =
      { ts with command_result := (f.data : Int), command_done := ts.command_done + 1 } ∧
    f.data ≤ 255 ∧
    (zforce_irq_dispatch ts f).input = ts.input ∧
    (zforce_irq_dispatch ts f).reset = ts.reset ∧
    (∀ (ts0 : zforce_ts) (buf : List Nat) (len : Nat) (e : cmd_env) (pre : List irq_frame),
      ts0.command_mutex = false → 0 ≤ e.send_ret → e.window = pre ++ [f] →
      (∀ g ∈ pre, (g.id : Int) ≠ (rd buf 2 : Int)) → (f.id : Int) = (rd buf 2 : Int) →
      (zforce_send_wait ts0 buf len e).1 = (f.data : Int)) := by
  have hd : zforce_irq_dispatch ts f =
      { ts with command_result := (f.data : Int), command_done := ts.command_done + 1 } := by
    unfold irq_frame.id at hid hack
    unfold irq_frame.data
    unfold plain_ack at hack
    unfold zforce_irq_dispatch zforce_complete
    dsimp only
    have hnt : ¬ rd (List.drop PAYLOAD_BODY f.payload_buffer) RESPONSE_ID = NOTIFICATION_TOUCH := by
      intro h; rw [h] at hack; revert hack; decide
    have hnb : ¬ rd (List.drop PAYLOAD_BODY f.payload_buffer) RESPONSE_ID =
        NOTIFICATION_BOOTCOMPLETE := by
      intro h; rw [h] at hack; revert hack; decide
    rw [if_neg hnt, if_neg hnb, if_pos hack, if_pos hid.symm]
  refine ⟨hd, ?_, by rw [hd], by rw [hd], ?_⟩
  · have := rd_lt (f.payload_buffer.drop PAYLOAD_BODY) RESPONSE_DATA
    unfold irq_frame.data
    omega
  · intro ts0 buf len e pre hfree hsend hwin hpre hbuf
    have h := send_wait_acked ts0 buf len e pre f hfree hsend hwin hpre hbuf (Or.inl hack)
    rw [h.1]
    unfold irq_frame.result
    rw [if_pos hack]

/-- Witness of C20: a Resolution acknowledgement with data byte 5 while Resolution is awaited. -/
theorem acknowledgement_result_witness :
    plain_ack (ack_frame RESPONSE_RESOLUTION 5).id ∧
    (((ack_frame RESPONSE_RESOLUTION 5).id : Nat) : Int) =
      ({ zforce_probe_state example_pdata with command_waiting := 2 }).command_waiting ∧
    (zforce_irq_dispatch { zforce_probe_state example_pdata with command_waiting := 2 }
      (ack_frame RESPONSE_RESOLUTION 5)).command_result = 5 :=
  ⟨Or.inr (Or.inr (Or.inr (Or.inl rfl))), rfl,
   congrArg zforce_ts.command_result
     (acknowledgement_result { zforce_probe_state example_pdata with command_waiting := 2 }
       (ack_frame RESPONSE_RESOLUTION 5) (Or.inr (Or.inr (Or.inr (Or.inl rfl)))) rfl).1⟩

/-- Claim C22 (scenario D, suspend refused while data is pending). When the interrupt line
reads 0, `zforce_suspend` returns -EBUSY, hands back the device state it was given, whatever
that state is, and makes no call on the interrupt: flags, bus log, `stopped` and the health
check are as before. -/
theorem suspend_refused_while_pending (ts : zforce_ts) (e : suspend_env)
    (hline : e.gpio_int = 0) :
    zforce_suspend ts e = (- EBUSY, ts, []) := by
  unfold zforce_suspend
  rw [if_pos hline]

/-- Witness of C22: a running device with the line asserted. -/
theorem suspend_refused_while_pending_witness :
    suspend_env_pending.gpio_int = 0 ∧
    zforce_suspend running_state suspend_env_pending = (-16, running_state, []) :=
  ⟨rfl, suspend_refused_while_pending running_state suspend_env_pending rfl⟩

/-- Claim C23 (the suspended flag follows success). Starting from `suspended` clear, for
every state and environment: `zforce_suspend` leaves `suspended` set exactly when it returns
0; once past the check of the interrupt line it returns with `suspending` clear; and when
the embedded `zforce_start` (wake-up source, device not open) or `zforce_stop` (no wake-up
source, device open) returns non-zero, `zforce_suspend` returns that value with `suspended`
still clear. -/
theorem suspended_follows_success (ts : zforce_ts) (e : suspend_env)
    (hs : ts.suspended = false) :
    ((zforce_suspend ts e).2.1.suspended = true ↔ (zforce_suspend ts e).1 = 0) ∧
    (e.gpio_int ≠ 0 → (zforce_suspend ts e).2.1.suspending = false) ∧
    (e.gpio_int ≠ 0 → wakeup_source ts = true → ts.input.users = 0 →
      (zforce_start (zforce_suspend_entry ts) e.start).1 ≠ 0 →
      (zforce_suspend ts e).1 = (zforce_start (zforce_suspend_entry ts) e.start).1 ∧
      (zforce_suspend ts e).2.1.suspended = false) ∧
    (e.gpio_int ≠ 0 → wakeup_source ts = false → ts.input.users ≠ 0 →
      (zforce_stop (zforce_suspend_entry ts) e.stop).1 ≠ 0 →
      (zforce_suspend ts e).1 = (zforce_stop (zforce_suspend_entry ts) e.stop).1 ∧
      (zforce_suspend ts e).2.1.suspended = false) := by
  have he : (zforce_suspend_entry ts).suspended = false := by
    unfold zforce_suspend_entry
    split_ifs <;> exact hs
  have h1 := (start_flags (zforce_suspend_entry ts) e.start).1
  have h2 := (stop_flags (zforce_suspend_entry ts) e.stop).1
  rw [he] at h1 h2
  rw [zforce_suspend_eq]
  refine ⟨?_, ?_, ?_, ?_⟩
  · split_ifs with a b c d d d
    · simp [hs, EBUSY]
    · simpa [h1] using d
    · simp
    · simp
    · simpa [h2] using d
    · simp
    · simp
  · intro hg
    rw [if_neg hg]
    split_ifs <;> rfl
  · intro hg hw hu hr
    rw [if_neg hg, if_pos hw, if_pos hu, if_pos hr]
    exact ⟨rfl, h1⟩
  · intro hg hw hu hr
    rw [if_neg hg, if_neg (by simp [hw]), if_pos hu, if_pos hr]
    exact ⟨rfl, h2⟩

set_option maxRecDepth 100000 in
/-- Witness of C23: suspends of a closed wake-up source and of an open device that is no
wake-up source, with every command acknowledged and with no frame arriving at all. -/
theorem suspended_follows_success_witness :
    (zforce_probe_state example_pdata).suspended = false ∧
    (zforce_suspend (zforce_probe_state example_pdata) suspend_env_idle).1 = 0 ∧
    (zforce_suspend (zforce_probe_state example_pdata) suspend_env_idle).2.1.suspended = true ∧
    (zforce_suspend (zforce_probe_state example_pdata) suspend_env_idle).2.1.suspending = false ∧
    (zforce_suspend (zforce_probe_state example_pdata) suspend_env_silent).1 = -62 ∧
    (zforce_suspend (zforce_probe_state example_pdata) suspend_env_silent).2.1.suspended = false ∧
    (zforce_suspend open_state_no_wakeup suspend_env_silent).1 = -62 ∧
    (zforce_suspend open_state_no_wakeup suspend_env_silent).2.1.suspended = false ∧
    (zforce_suspend open_state_no_wakeup suspend_env_idle).1 = 0 ∧
    (zforce_suspend open_state_no_wakeup suspend_env_idle).2.1.suspended = true :=
  ⟨rfl, by decide,
    (suspended_follows_success (zforce_probe_state example_pdata) suspend_env_idle rfl).1.mpr
      (by decide),
    by decide, by decide, by decide, by decide, by decide, by decide, by decide⟩

/-- Claim C24, as amended (the decoded state is a two-bit field). For every touch payload
and every point `i` below the capped count, the state `zforce_touch_event` decodes is the
packed byte modulo 4 and so lies in 0..3; the value 3 is not excluded. -/
theorem touch_state_two_bits (ts : zforce_ts) (payload : List Nat) (point : Nat → zforce_point)
    (i : Nat) (hi : i < zforce_touch_count payload) :
    (zforce_touch_points ts payload point i).state =
      ((rd payload (9 * i + 5) % 4 : Nat) : Int) ∧
    0 ≤ (zforce_touch_points ts payload point i).state ∧
    (zforce_touch_points ts payload point i).state ≤ 3 := by
  rw [touch_points_apply, if_pos hi, (decoded_rest ts.client.platform_data payload i).1]
  refine ⟨rfl, ?_, ?_⟩ <;> omega

/-- Witness of C24 as amended: one point whose packed byte is 7. -/
theorem touch_state_two_bits_witness :
    0 < zforce_touch_count touch_payload_state3 ∧
    (zforce_touch_points (zforce_probe_state example_pdata) touch_payload_state3
      (fun _ => zero_point) 0).state = 3 := by
  have h := touch_state_two_bits (zforce_probe_state example_pdata) touch_payload_state3
    (fun _ => zero_point) 0 (by decide)
  exact ⟨by decide, h.1⟩

/-- Counterexample to C24 as stated. One point with packed byte 7: the decoded state is 3,
which is none of Down, Move, Up, and the point is reported as a contact. -/
theorem touch_state_valid_counterexample :
    zforce_touch_count touch_payload_state3 = 1 ∧
    (zforce_touch_points (zforce_probe_state example_pdata) touch_payload_state3
      (fun _ => zero_point) 0).state = 3 ∧
    (3 : Int) ≠ STATE_DOWN ∧ (3 : Int) ≠ STATE_MOVE ∧ (3 : Int) ≠ STATE_UP ∧
    zforce_touch_emitted (zforce_probe_state example_pdata) touch_payload_state3
        (fun _ => zero_point) =
      [input_call.mt_slot 0, input_call.mt_report_slot_state true,
       input_call.report_abs abs_code.ABS_MT_POSITION_X 100,
       input_call.report_abs abs_code.ABS_MT_POSITION_Y 200,
       input_call.report_abs abs_code.ABS_MT_TOUCH_MAJOR 5,
       input_call.report_abs abs_code.ABS_MT_TOUCH_MINOR 3,
       input_call.report_abs abs_code.ABS_MT_ORIENTATION 1,
       input_call.report_abs abs_code.ABS_X 200,
       input_call.report_abs abs_code.ABS_Y 658,
       input_call.report_key_BTN_TOUCH true,
       input_call.report_abs abs_code.ABS_PRESSURE 1024,
       input_call.sync] := by
  decide

/-- Claim C25 (log-only frames change nothing). For every frame whose id is InvalidCommand
(0xFE), Overrun (0x25) or a byte outside the dispatch table, the dispatcher returns the
state it was given: command fields, completion, flags, version, input log and reset work are
all as before, whatever `command_waiting` holds. -/
theorem log_only_frames (ts : zforce_ts) (f : irq_frame)
    (hid : f.id = NOTIFICATION_INVALID_COMMAND ∨ f.id = NOTIFICATION_OVERRUN ∨
      f.id ∉ [0x00, 0x01, 0x02, 0x03, 0x04, 0x07, 0x08, 0x1e, 0x25, 0xfe]) :
    zforce_irq_dispatch ts f = ts := by
  unfold irq_frame.id at hid
  unfold zforce_irq_dispatch
  dsimp only
  generalize rd (List.drop PAYLOAD_BODY f.payload_buffer) RESPONSE_ID = id at hid
  simp only [NOTIFICATION_INVALID_COMMAND, NOTIFICATION_OVERRUN, NOTIFICATION_TOUCH,
    NOTIFICATION_BOOTCOMPLETE, RESPONSE_INITIALIZE, RESPONSE_DEACTIVATE, RESPONSE_SETCONFIG,
    RESPONSE_RESOLUTION, RESPONSE_SCANFREQ, RESPONSE_STATUS] at hid ⊢
  have h1 : id ≠ 4 := by rcases hid with h | h | h <;> simp_all
  have h2 : id ≠ 7 := by rcases hid with h | h | h <;> simp_all
  have h3 : ¬ (id = 1 ∨ id = 0 ∨ id = 3 ∨ id = 2 ∨ id = 8) := by
    rcases hid with h | h | h <;> simp_all
  have h4 : id ≠ 30 := by rcases hid with h | h | h <;> simp_all
  rw [if_neg h1, if_neg h2, if_neg h3, if_neg h4]
  split_ifs <;> rfl

/-- Witness of C25: a Proximity frame (0x26) dispatched while the id 0x26 is awaited. -/
theorem log_only_frames_witness :
    (ack_frame 0x26 9).id = 0x26 ∧ (waiting_state 0x26).command_waiting = 0x26 ∧
    zforce_irq_dispatch (waiting_state 0x26) (ack_frame 0x26 9) = waiting_state 0x26 :=
  ⟨by decide, rfl, log_only_frames (waiting_state 0x26) (ack_frame 0x26 9)
    (Or.inr (Or.inr (by decide)))⟩

/-- Claim C26 (order and abort of a drain pass). One run of `zforce_irq_thread` on a device
that is not suspended, over passes `good` that each find the line asserted and read a
well-formed frame. (1) If the line then reads deasserted, the run is: stay-awake, each frame
read and dispatched before the next one is read, in the order of the bus, relax. (2) The
same holds when the next pass finds the line deasserted, whatever is scripted after it. (3)
If the next read fails (transport error, bad start marker, bad length), `zforce_read_packet`
returns a negative value and the run ends on the state after that read, which differs from
the state after the good frames in the bus log only: the failed frame is not dispatched, and
whatever is scripted after it, line asserted or not, is neither read nor dispatched. -/
theorem drain_pass_order_abort (ts : zforce_ts) (buf : List Nat) (good : List irq_step)
    (hsus : ts.suspended = false) (hbuf : 2 ≤ buf.length) (hgood : ∀ s ∈ good, s.accepted) :
    zforce_irq_thread ts buf good =
      irq_pm (good.foldl irq_read_dispatch (irq_pm ts pm_call.stay_awake, buf)).1
        pm_call.relax ∧
    (∀ (hi : irq_step) (rest : List irq_step), hi.gpio_int ≠ 0 →
      zforce_irq_thread ts buf (good ++ hi :: rest) =
        irq_pm (good.foldl irq_read_dispatch (irq_pm ts pm_call.stay_awake, buf)).1
          pm_call.relax) ∧
    (∀ (bad : irq_step) (rest : List irq_step), bad.rejected →
      (zforce_read_packet (good.foldl irq_read_dispatch (irq_pm ts pm_call.stay_awake, buf)).1
        (good.foldl irq_read_dispatch (irq_pm ts pm_call.stay_awake, buf)).2
        bad.hdr bad.body).1 < 0 ∧
      zforce_irq_thread ts buf (good ++ bad :: rest) =
        irq_pm (zforce_read_packet
          (good.foldl irq_read_dispatch (irq_pm ts pm_call.stay_awake, buf)).1
          (good.foldl irq_read_dispatch (irq_pm ts pm_call.stay_awake, buf)).2
          bad.hdr bad.body).2.1 pm_call.relax ∧
      bus_only (good.foldl irq_read_dispatch (irq_pm ts pm_call.stay_awake, buf)).1
        (zforce_read_packet (good.foldl irq_read_dispatch (irq_pm ts pm_call.stay_awake, buf)).1
          (good.foldl irq_read_dispatch (irq_pm ts pm_call.stay_awake, buf)).2
          bad.hdr bad.body).2.1) := by
  have hn : ¬ (ts.suspended = true) := by simp [hsus]
  refine ⟨?_, ?_, ?_⟩
  · have h := (irq_loop_accepted good [] hgood (irq_pm ts pm_call.stay_awake) buf hbuf).1
    rw [List.append_nil, irq_loop_nil] at h
    rw [zforce_irq_thread_eq, if_neg hn, h]
  · intro hi rest hhi
    have h := (irq_loop_accepted good (hi :: rest) hgood (irq_pm ts pm_call.stay_awake) buf hbuf).1
    rw [irq_loop_deasserted _ _ hi rest hhi] at h
    rw [zforce_irq_thread_eq, if_neg hn, h]
  · intro bad rest hbad
    have h := irq_loop_accepted good (bad :: rest) hgood (irq_pm ts pm_call.stay_awake) buf hbuf
    have hlen : 2 ≤ (good.foldl irq_read_dispatch (irq_pm ts pm_call.stay_awake, buf)).2.length := by
      rw [h.2]; exact hbuf
    have hneg := read_packet_rejected
      (good.foldl irq_read_dispatch (irq_pm ts pm_call.stay_awake, buf)).1 _ bad hlen hbad
    refine ⟨hneg, ?_, read_packet_bus_only _ _ _ _⟩
    rw [zforce_irq_thread_eq, if_neg hn, h.1, irq_loop_failed _ _ bad rest hbad.1 hneg]

set_option maxRecDepth 100000 in
/-- Witness of C26: two acknowledgements, then a header with a wrong start marker, then one
more acknowledgement with the line still asserted. Five bus reads are made, Initialize is
resolved once with the data byte 3 of the second frame, and the frame behind the failure is
never read. -/
theorem drain_pass_order_abort_witness :
    zforce_irq_thread (waiting_state 1) (List.replicate 512 0)
        ([step_ack 2 7, step_ack 1 3] ++ step_bad_marker :: [step_ack 1 9]) =
      irq_pm (zforce_read_packet
        ([step_ack 2 7, step_ack 1 3].foldl irq_read_dispatch
          (irq_pm (waiting_state 1) pm_call.stay_awake, List.replicate 512 0)).1
        ([step_ack 2 7, step_ack 1 3].foldl irq_read_dispatch
          (irq_pm (waiting_state 1) pm_call.stay_awake, List.replicate 512 0)).2
        step_bad_marker.hdr step_bad_marker.body).2.1 pm_call.relax ∧
    (zforce_irq_thread (waiting_state 1) (List.replicate 512 0)
        ([step_ack 2 7, step_ack 1 3] ++ step_bad_marker :: [step_ack 1 9])).command_result = 3 ∧
    (zforce_irq_thread (waiting_state 1) (List.replicate 512 0)
        ([step_ack 2 7, step_ack 1 3] ++ step_bad_marker :: [step_ack 1 9])).command_done = 1 ∧
    (zforce_irq_thread (waiting_state 1) (List.replicate 512 0)
        ([step_ack 2 7, step_ack 1 3] ++ step_bad_marker :: [step_ack 1 9])).client.xfer =
      [i2c_msg.recv 2 2, i2c_msg.recv 2 2, i2c_msg.recv 2 2, i2c_msg.recv 2 2,
       i2c_msg.recv 2 2] ∧
    (zforce_irq_thread (waiting_state 1) (List.replicate 512 0)
        ([step_ack 2 7, step_ack 1 3] ++ step_bad_marker :: [step_ack 1 9])).pm =
      [pm_call.stay_awake, pm_call.relax] :=
  ⟨((drain_pass_order_abort (waiting_state 1) (List.replicate 512 0)
      [step_ack 2 7, step_ack 1 3] rfl (by decide)
      (by
        intro s hs
        simp only [List.mem_cons, List.mem_singleton, List.not_mem_nil, or_false] at hs
        rcases hs with rfl | rfl <;> exact step_ack_accepted _ _)).2.2
      step_bad_marker [step_ack 1 9] step_bad_marker_rejected).2.1,
    by decide, by decide, by decide, by decide⟩

/-- Claim C27, as amended (decoding stays inside a frame that is long enough). For every
frame that `zforce_read_packet` accepts with a declared length L that is at least the number
of body bytes its id calls for (`zforce_body_needed`: 2 for an acknowledgement, boot-complete
or an invalid-command notification, 10 for a status response, 2 plus 9 per decoded point for
a touch notification, 1 otherwise), the state after reading and dispatching the frame and the
value handed to `dev_err` are the same whatever the buffer held before, so no decoded value
depends on bytes left by an earlier frame. -/
theorem dispatch_within_frame (ts : zforce_ts) (buf1 buf2 : List Nat) (s : irq_step)
    (b1 : Nat) (tl body : List Nat)
    (hh : s.hdr = i2c_rx.data (FRAME_START :: b1 :: tl)) (hb : s.body = i2c_rx.data body)
    (h1 : 1 ≤ b1 % 256) (hlen1 : 2 + b1 % 256 ≤ buf1.length)
    (hlen2 : 2 + b1 % 256 ≤ buf2.length) (hbody : b1 % 256 ≤ body.length)
    (hneed : zforce_body_needed body ≤ b1 % 256) :
    (zforce_read_packet ts buf1 s.hdr s.body).1 = ((b1 % 256 : Nat) : Int) ∧
    (irq_read_dispatch (ts, buf1) s).1 = (irq_read_dispatch (ts, buf2) s).1 ∧
    zforce_irq_dispatch_err
        { payload_buffer := (zforce_read_packet ts buf1 s.hdr s.body).2.2, point := s.point } =
      zforce_irq_dispatch_err
        { payload_buffer := (zforce_read_packet ts buf2 s.hdr s.body).2.2, point := s.point } := by
  have p1 := read_packet_payload ts buf1 b1 tl body h1 hlen1 hbody
  have p2 := read_packet_payload ts buf2 b1 tl body h1 hlen2 hbody
  have hn := body_needed_congr body _ (b1 % 256) (rd_agree_symm p1) hneed
  have hs : (zforce_read_packet ts buf1 (i2c_rx.data (FRAME_START :: b1 :: tl))
      (i2c_rx.data body)).2.1 =
      (zforce_read_packet ts buf2 (i2c_rx.data (FRAME_START :: b1 :: tl))
      (i2c_rx.data body)).2.1 := by
    rw [zforce_read_packet_accept ts buf1 b1 tl body (by omega) h1,
      zforce_read_packet_accept ts buf2 b1 tl body (by omega) h1]
  refine ⟨?_, ?_, ?_⟩
  · rw [hh, hb, zforce_read_packet_accept ts buf1 b1 tl body (by omega) h1]
  · unfold irq_read_dispatch
    dsimp only
    rw [hh, hb, hs]
    exact irq_dispatch_congr _ _ _ rfl
      (rd_agree_mono (rd_agree_trans p1 (rd_agree_symm p2)) (by rw [hn]; exact hneed))
  · rw [hh, hb]
    exact irq_dispatch_err_congr _ _
      (rd_agree_mono (rd_agree_trans p1 (rd_agree_symm p2)) (by rw [hn]; exact hneed))

set_option maxRecDepth 100000 in
/-- Witness of C27 as amended: an Initialize acknowledgement of length 2 read into a buffer
that holds an earlier frame and into a zeroed one. -/
theorem dispatch_within_frame_witness :
    (zforce_read_packet (waiting_state 1) (ack_frame 2 9).payload_buffer (step_ack 1 7).hdr
      (step_ack 1 7).body).1 = 2 ∧
    (irq_read_dispatch (waiting_state 1, (ack_frame 2 9).payload_buffer) (step_ack 1 7)).1 =
      (irq_read_dispatch (waiting_state 1, List.replicate 512 0) (step_ack 1 7)).1 ∧
    zforce_body_needed [0xfe, 4] = 2 ∧
    zforce_irq_dispatch_err
        { payload_buffer := (zforce_read_packet (waiting_state 1) (ack_frame 2 9).payload_buffer
            (step_ack 0xfe 4).hdr (step_ack 0xfe 4).body).2.2, point := fun _ => zero_point } =
      some (irq_err.invalid_command 4) :=
  ⟨(dispatch_within_frame (waiting_state 1) (ack_frame 2 9).payload_buffer
      (List.replicate 512 0) (step_ack 1 7) 2 [] [1, 7] rfl rfl (by decide) (by decide)
      (by decide) (by decide) (by decide)).1,
   (dispatch_within_frame (waiting_state 1) (ack_frame 2 9).payload_buffer
      (List.replicate 512 0) (step_ack 1 7) 2 [] [1, 7] rfl rfl (by decide) (by decide)
      (by decide) (by decide) (by decide)).2.1,
   by decide, by decide⟩

set_option maxRecDepth 100000 in
/-- Counterexample to C27 as stated. While Initialize is awaited, a Resolution
acknowledgement with data byte 7 is followed, in the same run of the loop, by the frame
`[0xEE, 1, 0x01]`, which is accepted with length 1: the dispatcher reads the data byte at
its fixed offset and resolves Initialize with 7, the byte the earlier frame left in the
buffer; on a zeroed buffer the same frame resolves with 0. -/
theorem dispatch_stale_bytes_counterexample :
    (zforce_read_packet (waiting_state 1)
      (irq_read_dispatch (waiting_state 1, List.replicate 512 0) (step_ack 2 7)).2
      (step_short 1).hdr (step_short 1).body).1 = 1 ∧
    (zforce_irq_loop (waiting_state 1) (List.replicate 512 0)
      [step_ack 2 7, step_short 1]).1.command_result = 7 ∧
    (zforce_irq_loop (waiting_state 1) (List.replicate 512 0)
      [step_ack 2 7, step_short 1]).1.command_done = 1 ∧
    (zforce_irq_loop (waiting_state 1) (List.replicate 512 0)
      [step_short 1]).1.command_result = 0 := by
  decide

/-- Claim C28, the code at the failing input. The touch payload `[0]` (count byte 0) on one
configuration, run on two contents of the stack slot of `point`: no point is decoded, the
single-touch calls report what the uninitialised `point[0]` holds, and the two runs emit
different events. -/
theorem touch_events_uninitialised_point :
    zforce_touch_count [0] = 0 ∧
    zforce_touch_emitted (zforce_probe_state example_pdata) [0] (fun _ => zero_point) =
      [input_call.report_abs abs_code.ABS_X 0,
       input_call.report_abs abs_code.ABS_Y 758,
       input_call.report_key_BTN_TOUCH true,
       input_call.report_abs abs_code.ABS_PRESSURE 1024,
       input_call.sync] ∧
    zforce_touch_emitted (zforce_probe_state example_pdata) [0] (fun _ => garbage_point) =
      [input_call.report_abs abs_code.ABS_X 7,
       input_call.report_abs abs_code.ABS_Y 758,
       input_call.report_key_BTN_TOUCH false,
       input_call.report_abs abs_code.ABS_PRESSURE 0,
       input_call.sync] := by
  decide

/-- Claim C29, as amended (range of the slot index). Every slot index `zforce_touch_event`
selects is the six-bit identifier of a decoded point minus one, hence between -1 and 62; it
lies in 0..ZFORCE_REPORT_POINTS-1 exactly when the identifier on the wire is 1 or 2. -/
theorem touch_slot_index_range (ts : zforce_ts) (payload : List Nat)
    (point : Nat → zforce_point) (s : Int)
    (h : input_call.mt_slot s ∈ zforce_touch_emitted ts payload point) :
    ∃ i, i < zforce_touch_count payload ∧
      s = ((rd payload (9 * i + 5) / 4 : Nat) : Int) - 1 ∧ -1 ≤ s ∧ s ≤ 62 ∧
      ((0 ≤ s ∧ s < (ZFORCE_REPORT_POINTS : Int)) ↔
        (rd payload (9 * i + 5) / 4 = 1 ∨ rd payload (9 * i + 5) / 4 = 2)) := by
  rw [touch_emitted_eq, List.mem_append] at h
  rcases h with h | h
  · rw [List.mem_flatMap] at h
    obtain ⟨i, hi, hmem⟩ := h
    rw [List.mem_range] at hi
    rw [touch_report_bytes ts payload point i hi] at hmem
    have hlt := rd_lt payload (9 * i + 5)
    have hs : s = ((rd payload (9 * i + 5) / 4 : Nat) : Int) - 1 := by
      split_ifs at hmem <;> simpa using hmem
    refine ⟨i, hi, hs, by omega, by omega, ?_⟩
    unfold ZFORCE_REPORT_POINTS
    omega
  · exact absurd h (touch_legacy_no_slot _ _ _)

/-- Witness of C29 as amended: one point with identifier 5, slot 4. -/
theorem touch_slot_index_range_witness :
    input_call.mt_slot 4 ∈ zforce_touch_emitted (zforce_probe_state example_pdata)
      touch_payload_id5 (fun _ => zero_point) ∧
    ∃ i, i < zforce_touch_count touch_payload_id5 ∧
      (4 : Int) = ((rd touch_payload_id5 (9 * i + 5) / 4 : Nat) : Int) - 1 ∧ -1 ≤ (4 : Int) ∧
      (4 : Int) ≤ 62 ∧
      ((0 ≤ (4 : Int) ∧ (4 : Int) < (ZFORCE_REPORT_POINTS : Int)) ↔
        (rd touch_payload_id5 (9 * i + 5) / 4 = 1 ∨ rd touch_payload_id5 (9 * i + 5) / 4 = 2)) :=
  ⟨by decide, touch_slot_index_range (zforce_probe_state example_pdata) touch_payload_id5
    (fun _ => zero_point) 4 (by decide)⟩

/-- Counterexample to C29 as stated. Identifier 0 selects slot -1 and identifier 5 selects
slot 4; neither is one of the two registered slots. -/
theorem touch_slot_registered_counterexample :
    input_call.mt_slot (-1) ∈ zforce_touch_emitted (zforce_probe_state example_pdata)
      touch_payload_id0 (fun _ => zero_point) ∧
    input_call.mt_slot 4 ∈ zforce_touch_emitted (zforce_probe_state example_pdata)
      touch_payload_id5 (fun _ => zero_point) ∧
    ¬ (0 ≤ (-1 : Int)) ∧ ¬ ((4 : Int) < (ZFORCE_REPORT_POINTS : Int)) := by
  decide

end Zforce
